import Mathlib

/-!
Verification development for the voice-command rule engine
(src/voice-command-tester: terms.py, channels.py, routing.py, effects.py,
engine.py).  The Python modules are embedded shallowly: strings are lists
of characters, Python regular expressions become terms of a small
backtracking matcher with Python search semantics (leftmost match,
alternation tried left to right, greedy quantifiers with backtracking),
Python dicts in insertion order become association lists, and code that
can raise returns Except.  Inputs are modelled at the ASCII level: the
character classes below implement the ASCII fragment of Python's
str.lower/str.strip and of the regex classes \s, \d, \w, which is exact
for all ASCII text.
-/

set_option maxRecDepth 40000

namespace VCT

/-- Strings are modelled as lists of characters. -/
abbrev Str := List Char

/-- ASCII fragment of Python's whitespace set (used by str.strip and \s). -/
def pySpace (c : Char) : Bool :=
  c = ' ' || c = '\t' || c = '\n' || c = '\r' || c = '\x0b' || c = '\x0c'

/-- Regex class \d (ASCII digits). -/
def pyDigit (c : Char) : Bool :=
  '0' ≤ c && c ≤ '9'

/-- Regex class \w (ASCII letters, digits, underscore). -/
def pyWord (c : Char) : Bool :=
  ('a' ≤ c && c ≤ 'z') || ('A' ≤ c && c ≤ 'Z') || pyDigit c || c = '_'

/-- Regex dot: any character except newline. -/
def pyDot (c : Char) : Bool :=
  c ≠ '\n'

/-- Python str.lower on the ASCII fragment. -/
def lowerS (s : Str) : Str := s.map Char.toLower

/-- Python str.strip (both ends, whitespace). -/
def stripS (s : Str) : Str :=
  (((s.dropWhile pySpace).reverse.dropWhile pySpace).reverse)

/-- Does the second list occur as a leading segment of the first? -/
def leadsWith : Str → Str → Bool
  | _, [] => true
  | [], _ :: _ => false
  | c :: s, d :: p => c = d && leadsWith s p

/-- Python substring containment: needle occurs somewhere in haystack. -/
def containsSub : Str → Str → Bool
  | s, p => if leadsWith s p then true else
    match s with
    | [] => false
    | _ :: t => containsSub t p

/-- Python str.replace: replace every occurrence of old with new, for a
non-empty old pattern.  Fuel bounds the recursion; each step consumes at
least one input character, so input length suffices as fuel. -/
def replaceAllFuel (old new : Str) : Nat → Str → Str
  | 0, s => s
  | _ + 1, [] => []
  | fuel + 1, c :: t =>
    if leadsWith (c :: t) old then
      new ++ replaceAllFuel old new fuel ((c :: t).drop old.length)
    else
      c :: replaceAllFuel old new fuel t

/-- Python str.replace: an empty old pattern inserts new at every
boundary, matching CPython. -/
def replaceAll (s old new : Str) : Str :=
  if old = [] then new ++ (s.map (fun c => c :: new)).flatten
  else replaceAllFuel old new s.length s

/-- Regular expressions, restricted to the constructs the source uses.
star and plus only ever quantify single-character classes in the source
patterns, so they are primitive over classes here. -/
inductive RE : Type where
  | eps : RE
  | cls : (Char → Bool) → RE
  | lit : Str → RE
  | cat : RE → RE → RE
  | alt : RE → RE → RE
  | opt : RE → RE
  | starCls : (Char → Bool) → RE
  | plusCls : (Char → Bool) → RE
  | group : Nat → RE → RE
  | wordB : RE

/-- Captured groups: group number paired with captured text.  The head
entry for a number is the one reported (groups are never repeated in the
source patterns). -/
abbrev Caps := List (Nat × Str)

/-- Is the optional previous character a word character (for \b)? -/
def isWordOpt : Option Char → Bool
  | none => false
  | some c => pyWord c

/-- Greedy match of a character class, with backtracking into the
continuation, exactly as a backtracking engine treats a starred class. -/
def starRun (p : Char → Bool) :
    Str → Option Char → Caps →
    (Str → Option Char → Caps → Option (Str × Caps)) → Option (Str × Caps)
  | [], prev, caps, k => k [] prev caps
  | c :: rest, prev, caps, k =>
    if p c then
      match starRun p rest (some c) caps k with
      | some r => some r
      | none => k (c :: rest) prev caps
    else k (c :: rest) prev caps

/-- Backtracking matcher in continuation-passing style.  The preference
order is Python's: alternation tries the left branch first, option tries
the present branch first, starred classes are greedy.  prev is the
character just before the current position (for \b). -/
def reMatch : RE → Str → Option Char → Caps →
    (Str → Option Char → Caps → Option (Str × Caps)) → Option (Str × Caps)
  | .eps, s, prev, caps, k => k s prev caps
  | .cls p, s, prev, caps, k =>
    match s with
    | [] => none
    | c :: rest => if p c then k rest (some c) caps else none
  | .lit l, s, prev, caps, k =>
    if leadsWith s l then
      k (s.drop l.length) (if l = [] then prev else l.getLast?) caps
    else none
  | .cat a b, s, prev, caps, k =>
    reMatch a s prev caps (fun s1 p1 c1 => reMatch b s1 p1 c1 k)
  | .alt a b, s, prev, caps, k =>
    match reMatch a s prev caps k with
    | some r => some r
    | none => reMatch b s prev caps k
  | .opt a, s, prev, caps, k =>
    match reMatch a s prev caps k with
    | some r => some r
    | none => k s prev caps
  | .starCls p, s, prev, caps, k => starRun p s prev caps k
  | .plusCls p, s, prev, caps, k =>
    match s with
    | [] => none
    | c :: rest => if p c then starRun p rest (some c) caps k else none
  | .group n a, s, prev, caps, k =>
    reMatch a s prev caps
      (fun s1 p1 c1 => k s1 p1 ((n, s.take (s.length - s1.length)) :: c1))
  | .wordB, s, prev, caps, k =>
    if isWordOpt prev ≠ isWordOpt s.head? then k s prev caps else none

/-- Result of a successful search: text before the match, the matched
text (group 0), the text after, and the captured groups. -/
structure MatchRes where
  pre : Str
  matched : Str
  rest : Str
  caps : Caps
  deriving Repr, DecidableEq

/-- Match-group lookup; none when the group did not participate, as in
Python. -/
def MatchRes.grp (m : MatchRes) (n : Nat) : Option Str :=
  (m.caps.find? (fun q => q.1 = n)).map Prod.snd

/-- Python truthiness of an optional matched group (None and the empty
string are falsy). -/
def grpTruthy : Option Str → Bool
  | none => false
  | some [] => false
  | some (_ :: _) => true

/-- Search from successive start positions, leftmost match wins, as in
Python re.search.  preAcc holds the reversed text already skipped. -/
def reSearchAux (re : RE) : Str → Option Char → Str → Option MatchRes
  | [], prev, preAcc =>
    match reMatch re [] prev [] (fun s1 _ c1 => some (s1, c1)) with
    | some (rest, caps) => some ⟨preAcc.reverse, [], rest, caps⟩
    | none => none
  | c :: s1, prev, preAcc =>
    match reMatch re (c :: s1) prev [] (fun s1 _ c1 => some (s1, c1)) with
    | some (rest, caps) =>
      some ⟨preAcc.reverse,
        (c :: s1).take ((c :: s1).length - rest.length), rest, caps⟩
    | none => reSearchAux re s1 (some c) (c :: preAcc)

/-- Python re.search. -/
def reSearch (re : RE) (s : Str) : Option MatchRes :=
  reSearchAux re s none []

/-- Python re.search for a pattern anchored with a leading caret: the
match may only start at position 0. -/
def reSearchStart (re : RE) (s : Str) : Option MatchRes :=
  match reMatch re s none [] (fun s1 _ c1 => some (s1, c1)) with
  | some (rest, caps) => some ⟨[], s.take (s.length - rest.length), rest, caps⟩
  | none => none

/-- Python re.split restricted to patterns without capturing groups
(every split pattern in the source is capture-free).  Fuel bounds the
recursion; it is set to the input length plus one, which suffices
because every source split pattern consumes at least one character. -/
def reSplitFuel : Nat → RE → Str → List Str
  | 0, _, s => [s]
  | fuel + 1, re, s =>
    match reSearch re s with
    | none => [s]
    | some m => m.pre :: reSplitFuel fuel re m.rest

/-- Python re.split (capture-free patterns). -/
def reSplit (re : RE) (s : Str) : List Str :=
  reSplitFuel (s.length + 1) re s

/-- Python re.sub: replace every non-overlapping occurrence, scanning
left to right, replacement text not rescanned.  Fuel as in reSplit. -/
def reSubFuel : Nat → RE → Str → Str → Str
  | 0, _, _, s => s
  | fuel + 1, re, repl, s =>
    match reSearch re s with
    | none => s
    | some m => m.pre ++ repl ++ reSubFuel fuel re repl m.rest

/-- Python re.sub. -/
def reSub (re : RE) (repl : Str) (s : Str) : Str :=
  reSubFuel (s.length + 1) re repl s

/-! Combinators for writing the source regexes compactly. -/

/-- Literal from a string literal. -/
def l (s : String) : RE := .lit s.data

/-- Sequence of regexes. -/
def cats : List RE → RE
  | [] => .eps
  | [r] => r
  | r :: rs => .cat r (cats rs)

/-- Ordered alternation (leftmost alternative preferred). -/
def alts : List RE → RE
  | [] => .eps
  | [r] => r
  | r :: rs => .alt r (alts rs)

/-- One or more whitespace characters. -/
def ws1 : RE := .plusCls pySpace

/-- Zero or more whitespace characters. -/
def ws0 : RE := .starCls pySpace

/-- Capturing group of one or more word characters. -/
def gw (n : Nat) : RE := .group n (.plusCls pyWord)

/-- Capturing group of one or more digits. -/
def gd (n : Nat) : RE := .group n (.plusCls pyDigit)

/-- Capturing group matching the greedy dot-plus. -/
def gAny (n : Nat) : RE := .group n (.plusCls pyDot)

/-! ### Terminology database (terms.py, class ProfessionalAudioTerms)

Python dicts become association lists in insertion order.  Lookup takes
the first hit; keys are unique except where the source dict literal
itself repeats a key, in which case the entry carries the last value, as
CPython does. -/

/-- Helper: table entry with an integer value. -/
def kv (k : String) (v : Int) : Str × Int := (k.data, v)

/-- Helper: table entry with a string value. -/
def ks (k v : String) : Str × Str := (k.data, v.data)

/-- Dict lookup (first match; keys unique by construction). -/
def dictGet {α : Type} (d : List (Str × α)) (k : Str) : Option α :=
  (d.find? (fun p => p.1 = k)).map Prod.snd

/-- Dict assignment: update in place if the key exists, else append. -/
def dictAssign {α : Type} : List (Str × α) → Str → α → List (Str × α)
  | [], k, v => [(k, v)]
  | (k1, v1) :: t, k, v =>
    if k1 = k then (k, v) :: t else (k1, v1) :: dictAssign t k v

/-- terms.number_words. -/
def numberWords : List (Str × Int) :=
  [kv "one" 1, kv "two" 2, kv "three" 3, kv "four" 4, kv "five" 5,
   kv "six" 6, kv "seven" 7, kv "eight" 8, kv "nine" 9, kv "ten" 10,
   kv "eleven" 11, kv "twelve" 12, kv "thirteen" 13, kv "fourteen" 14,
   kv "fifteen" 15, kv "sixteen" 16, kv "seventeen" 17, kv "eighteen" 18,
   kv "nineteen" 19, kv "twenty" 20, kv "twenty-one" 21, kv "twenty-two" 22,
   kv "twenty-three" 23, kv "twenty-four" 24, kv "twenty-five" 25,
   kv "twenty-six" 26, kv "twenty-seven" 27, kv "twenty-eight" 28,
   kv "twenty-nine" 29, kv "thirty" 30, kv "thirty-one" 31, kv "thirty-two" 32,
   kv "thirty-three" 33, kv "thirty-four" 34, kv "thirty-five" 35,
   kv "thirty-six" 36, kv "thirty-seven" 37, kv "thirty-eight" 38,
   kv "thirty-nine" 39, kv "forty" 40]

/-- terms.instrument_aliases.  The source dict literal lists the key
"kick" twice (first "kick drum", later "bass drum"); CPython keeps the
first position with the last value, so the single entry here maps
"kick" to "bass drum". -/
def instrumentAliases : List (Str × Str) :=
  [ks "vocal" "vocals", ks "vox" "vocals", ks "lead vox" "lead vocal",
   ks "bg vox" "background vocals",
   ks "kick" "bass drum", ks "bass drum" "kick drum", ks "bd" "kick drum",
   ks "snare" "snare drum", ks "sd" "snare drum",
   ks "hi-hat" "hihat", ks "hh" "hihat", ks "hat" "hihat",
   ks "overhead" "overheads", ks "oh" "overheads", ks "cymbals" "overheads",
   ks "tom" "toms", ks "floor tom" "floor", ks "rack tom" "rack",
   ks "bass" "bass guitar", ks "di" "bass guitar",
   ks "guitar" "electric guitar", ks "gtr" "guitar",
   ks "elec" "electric guitar",
   ks "acoustic" "acoustic guitar", ks "ac" "acoustic guitar",
   ks "keys" "keyboard", ks "kb" "keyboard", ks "piano" "keyboard",
   ks "strings" "strings", ks "horns" "brass", ks "brass" "horns",
   ks "sax" "saxophone", ks "trumpet" "horn", ks "trombone" "horn",
   ks "drums" "drums", ks "lead vocal" "vocals", ks "lead guitar" "guitar",
   ks "background vocals" "vocals", ks "bg vocals" "vocals"]

/-- terms.pan_positions, in insertion order (iteration order matters for
overlapping phrases). -/
def panPositions : List (Str × Int) :=
  [kv "hard left" (-63), kv "hard_left" (-63), kv "hardleft" (-63),
   kv "full left" (-63),
   kv "left" (-32), kv "slightly left" (-16), kv "slight left" (-16),
   kv "little left" (-16),
   kv "center" 0, kv "centre" 0, kv "middle" 0, kv "dead center" 0,
   kv "centered" 0,
   kv "slightly right" 16, kv "slight right" 16, kv "little right" 16,
   kv "right" 32, kv "hard right" 63, kv "hard_right" 63, kv "hardright" 63,
   kv "full right" 63]

/-- terms.db_keywords, in insertion order (checked by substring
containment, first match wins). -/
def dbKeywords : List (Str × Int) :=
  [kv "unity" 0, kv "zero" 0, kv "nominal" 0, kv "line level" 0,
   kv "minus infinity" (-32768), kv "negative infinity" (-32768),
   kv "inf" (-32768),
   kv "off" (-32768), kv "down" (-32768), kv "kill" (-32768),
   kv "cut" (-32768),
   kv "hot" 300, kv "loud" 300, kv "cooking" 300, kv "pushing" 300,
   kv "quiet" (-1000), kv "low" (-1000), kv "soft" (-1000), kv "back" (-600),
   kv "up" 300, kv "boost" 600, kv "bump" 300, kv "push" 300,
   kv "pull" (-300), kv "bring down" (-600), kv "take down" (-600),
   kv "park" (-1000), kv "set" 0, kv "dial in" 0, kv "trim" 0]

/-- terms.get_default_instrument_channels. -/
def defaultInstrumentChannels : List (Str × Int) :=
  [kv "vocals" 1, kv "vox" 1, kv "lead vocal" 1,
   kv "kick" 2, kv "kick drum" 2, kv "bass drum" 2, kv "bd" 2,
   kv "snare" 3, kv "snare drum" 3, kv "sd" 3,
   kv "hihat" 4, kv "hi-hat" 4, kv "hh" 4, kv "hat" 4,
   kv "bass" 5, kv "bass guitar" 5, kv "di" 5,
   kv "guitar" 6, kv "electric guitar" 6, kv "gtr" 6, kv "lead guitar" 6,
   kv "keys" 7, kv "keyboard" 7, kv "kb" 7, kv "piano" 7,
   kv "acoustic" 8, kv "acoustic guitar" 8, kv "ac" 8,
   kv "drums" 9, kv "overhead" 10, kv "overheads" 10, kv "strings" 11,
   kv "saxophone" 12, kv "sax" 12, kv "background vocals" 13,
   kv "bg vocals" 13]

/-! ### Validation limits and number parsing -/

/-- engine.py validation_limits (security hardening dict, fixed at
construction). -/
structure Limits where
  MAX_CHANNEL : Int
  MAX_MIX : Int
  MAX_SCENE : Int
  MAX_DCA : Int
  MIN_DB : Int
  MAX_DB : Int
  MAX_INPUT_LENGTH : Nat

/-- The limits engine.py installs. -/
def engineLimits : Limits :=
  { MAX_CHANNEL := 40, MAX_MIX := 20, MAX_SCENE := 100, MAX_DCA := 8,
    MIN_DB := -60, MAX_DB := 10, MAX_INPUT_LENGTH := 200 }

/-- validate_channel. -/
def validateChannel (lim : Limits) (n : Int) : Bool :=
  1 ≤ n && n ≤ lim.MAX_CHANNEL

/-- validate_mix. -/
def validateMix (lim : Limits) (n : Int) : Bool :=
  1 ≤ n && n ≤ lim.MAX_MIX

/-- validate_scene. -/
def validateScene (lim : Limits) (n : Int) : Bool :=
  1 ≤ n && n ≤ lim.MAX_SCENE

/-- validate_dca. -/
def validateDca (lim : Limits) (n : Int) : Bool :=
  1 ≤ n && n ≤ lim.MAX_DCA

/-- Python int truthiness (0 is falsy). -/
def intTruthy (n : Int) : Bool := n ≠ 0

/-- Python optional-int truthiness (None and 0 are falsy), used where
the source writes "if channel_num and ...". -/
def optIntTruthy : Option Int → Bool
  | none => false
  | some n => intTruthy n

/-- Numeric value of a digit list (most significant first). -/
def digitsVal (l : Str) : Nat :=
  l.foldl (fun a c => a * 10 + (c.toNat - 48)) 0

/-- CPython integer-literal digits after the optional sign: digits with
single underscores strictly between digits. -/
def udRest : Str → Bool
  | [] => true
  | c :: r =>
    if pyDigit c then udRest r
    else if c = '_' then
      match r with
      | d :: _ => pyDigit d && udRest r
      | [] => false
    else false

/-- CPython int() digit-sequence parse (no sign). -/
def pyIntDigits (s : Str) : Option Nat :=
  match s with
  | [] => none
  | c :: r =>
    if pyDigit c && udRest r then
      some (digitsVal (s.filter (fun x => x ≠ '_')))
    else none

/-- CPython int(text): strip whitespace, optional sign, digits.  The
ValueError branch is the none result. -/
def pyInt (s : Str) : Option Int :=
  let t := stripS s
  match t with
  | '+' :: r => (pyIntDigits r).map Int.ofNat
  | '-' :: r => (pyIntDigits r).map (fun n => -(n : Int))
  | r => (pyIntDigits r).map Int.ofNat

/-- parse_number (identical in engine.py, channels.py, routing.py,
effects.py): int() parse first, then the number-word table on the
lower-cased text. -/
def parseNumber (s : Str) : Option Int :=
  match pyInt s with
  | some v => some v
  | none => dictGet numberWords (lowerS s)

/-! ### parse_db_value (channels.py 77-104; the copies in engine.py
64-89 and routing.py 48-73 are textually identical up to inlining
validate_db, whose clamp formula is the same). -/

/-- validate_db / the inlined clamp: clamp into
[MIN_DB*100, MAX_DB*100]. -/
def validateDb (lim : Limits) (v : Int) : Int :=
  max (lim.MIN_DB * 100) (min (lim.MAX_DB * 100) v)

/-- First numeric dB regex:
(?:minus|negative|-)\s*(\d+(?:\.\d+)?)\s*(?:db)? . -/
def dbPat1 : RE :=
  cats [alts [l "minus", l "negative", l "-"], ws0,
        .group 1 (cats [.plusCls pyDigit,
                        .opt (cats [l ".", .plusCls pyDigit])]),
        ws0, .opt (l "db")]

/-- Second numeric dB regex:
(?:plus|positive|\+)?\s*(\d+(?:\.\d+)?)\s*(?:db)? . -/
def dbPat2 : RE :=
  cats [.opt (alts [l "plus", l "positive", l "+"]), ws0,
        .group 1 (cats [.plusCls pyDigit,
                        .opt (cats [l ".", .plusCls pyDigit])]),
        ws0, .opt (l "db")]

/-- The decimal text captured by group 1 (digits, optionally a point and
more digits), scaled by 100 and truncated, computed exactly.  The source
computes int(float(text)*100); binary floating point can deviate from
the exact value by one unit on some decimal fractions, which none of the
verified properties depend on. -/
def decScaled100 (g : Str) : Nat :=
  let ip := g.takeWhile pyDigit
  let frac := (g.drop ip.length).drop 1
  let f2 := frac.take 2
  digitsVal ip * 100 + digitsVal (f2 ++ List.replicate (2 - f2.length) '0')

/-- Signed scaled dB value from a numeric match: negate when a minus
indicator appears in the text or a hyphen in the matched span. -/
def dbNumFrom (tl : Str) (m : MatchRes) : Int :=
  let mag : Int := Int.ofNat (decScaled100 ((m.grp 1).getD []))
  if containsSub tl "minus".data || containsSub tl "negative".data
      || containsSub m.matched "-".data then -mag else mag

/-- parse_db_value: empty text is rejected, the dB keyword table is
checked first by substring containment in insertion order (the keyword
value is returned as is), then the two numeric regexes with clamping. -/
def parseDbValue (lim : Limits) (text : Str) : Option Int :=
  if text = [] then none
  else
    match dbKeywords.find? (fun p => containsSub (lowerS text) p.1) with
    | some p => some p.2
    | none =>
      match reSearch dbPat1 (lowerS text) with
      | some m => some (validateDb lim (dbNumFrom (lowerS text) m))
      | none =>
        match reSearch dbPat2 (lowerS text) with
        | some m => some (validateDb lim (dbNumFrom (lowerS text) m))
        | none => none

/-- parse_db_value applied to an optional level text; on None the
source's falsy-text guard returns None. -/
def parseDbOpt (lim : Limits) : Option Str → Option Int
  | none => none
  | some t => parseDbValue lim t

/-! ### RCPCommand and string rendering -/

/-- RCPCommand dataclass (command, description, confidence). -/
structure RCPCommand where
  command : String
  description : String
  confidence : ℚ
  deriving DecidableEq, Repr

/-- toString for embedded integers (Python str of int). -/
def istr (n : Int) : String := toString n

/-- Round half to even at the last decimal digit of a tenths value. -/
def rheDiv10 (a : Nat) : Nat :=
  let q := a / 10
  let r := a % 10
  if r > 5 then q + 1 else if r < 5 then q
  else if q % 2 = 1 then q + 1 else q

/-- Python f-string formatting of v/100 to one decimal place for an
integer v, computed exactly with round half to even.  CPython formats
the binary double v/100, which can deviate on decimal ties that are not
exactly representable; no verified property depends on those
description digits. -/
def fmt1 (v : Int) : String :=
  let t := rheDiv10 v.natAbs
  (if v < 0 then "-" else "") ++ toString (t / 10) ++ "." ++ toString (t % 10)

/-- Python abs on int. -/
def absInt (v : Int) : Int := (v.natAbs : Int)

/-- Python str.title on the ASCII fragment: uppercase a letter that
follows a non-letter, lowercase other letters. -/
def pyTitleGo : Bool → Str → Str
  | _, [] => []
  | prevAlpha, c :: t =>
    let isA := ('a' ≤ c && c ≤ 'z') || ('A' ≤ c && c ≤ 'Z')
    (if isA && !prevAlpha then c.toUpper else if isA then c.toLower else c)
      :: pyTitleGo isA t

/-- Python str.title. -/
def pyTitle (s : Str) : Str := pyTitleGo false s

/-- Strip leading and trailing quote characters, Python strip with a
double-quote/apostrophe char set. -/
def stripQuotes (s : Str) : Str :=
  let p := fun c => c = '"' || c = Char.ofNat 39
  ((s.dropWhile p).reverse.dropWhile p).reverse

/-! Builders for the protocol strings the processors emit (the f-string
templates of the source). -/

/-- set MIXER:Current/InCh/Fader/Level idx 0 v. -/
def faderLevelCmd (idx v : Int) : String :=
  "set MIXER:Current/InCh/Fader/Level " ++ istr idx ++ " 0 " ++ istr v

/-- set MIXER:Current/InCh/Fader/On idx 0 state. -/
def faderOnCmd (idx state : Int) : String :=
  "set MIXER:Current/InCh/Fader/On " ++ istr idx ++ " 0 " ++ istr state

/-- set MIXER:Current/InCh/Label/Name idx 0 "label". -/
def chLabelCmd (idx : Int) (label : Str) : String :=
  "set MIXER:Current/InCh/Label/Name " ++ istr idx ++ " 0 \""
    ++ String.mk label ++ "\""

/-- set MIXER:Current/InCh/ToMix/On ch mix v. -/
def toMixOnCmd (ch mix v : Int) : String :=
  "set MIXER:Current/InCh/ToMix/On " ++ istr ch ++ " " ++ istr mix
    ++ " " ++ istr v

/-- set MIXER:Current/InCh/ToMix/Level ch mix v. -/
def toMixLevelCmd (ch mix v : Int) : String :=
  "set MIXER:Current/InCh/ToMix/Level " ++ istr ch ++ " " ++ istr mix
    ++ " " ++ istr v

/-- set MIXER:Current/InCh/ToSt/Pan idx 0 v. -/
def panCmd (idx v : Int) : String :=
  "set MIXER:Current/InCh/ToSt/Pan " ++ istr idx ++ " 0 " ++ istr v

/-- set MIXER:Current/DCA/Fader/Level idx 0 v. -/
def dcaLevelCmd (idx v : Int) : String :=
  "set MIXER:Current/DCA/Fader/Level " ++ istr idx ++ " 0 " ++ istr v

/-- set MIXER:Current/DCA/Fader/On idx 0 state. -/
def dcaOnCmd (idx state : Int) : String :=
  "set MIXER:Current/DCA/Fader/On " ++ istr idx ++ " 0 " ++ istr state

/-- set MIXER:Current/DCA/Label/Name idx 0 "label". -/
def dcaLabelCmd (idx : Int) (label : Str) : String :=
  "set MIXER:Current/DCA/Label/Name " ++ istr idx ++ " 0 \""
    ++ String.mk label ++ "\""

/-! ### get_channel_for_instrument (channels.py 36-60) -/

/-- Label tables: lower-cased label to 1-based number, insertion order
(a Python dict). -/
abbrev LabelTable := List (Str × Int)

/-- get_channel_for_instrument: direct label hit, then alias-chain hit,
then substring containment over the stored labels (either direction),
then the static default table; none when all fail. -/
def getChannelForInstrument (labels : LabelTable) (instrument : Str) :
    Option Int :=
  match dictGet labels (lowerS instrument) with
  | some n => some n
  | none =>
    match (match dictGet instrumentAliases (lowerS instrument) with
           | some canon => dictGet labels (lowerS canon)
           | none => none) with
    | some n => some n
    | none =>
      match (labels.find? (fun p =>
          containsSub p.1 (lowerS instrument)
            || containsSub (lowerS instrument) p.1)).map Prod.snd with
      | some n => some n
      | none => dictGet defaultInstrumentChannels (lowerS instrument)

/-! ### process_channel_fader (channels.py 106-466)

Each pattern carries its action tag and its number of capturing groups
(the source reads len(match.groups()), which is static per pattern).
The dispatch tests the Python substring condition "'instrument' in
action", true exactly for the five actions tagged as instrument
below. -/

/-- Action tags of the fader pattern table. -/
inductive FaderAct where
  | fset | crank | bury | hotA | quietA | bring_up | bring_down
  | relative_up | relative_down | boostA | pull_down_instrument | vocal_up
  | instrument_to_level | fader_set | input_adjust | push_action
  | push_slight | bump_up | bump_down | adjust | gainA
  | bring_up_instrument | bring_down_instrument | set_instrument | relative
  deriving DecidableEq

/-- Python test: the substring instrument occurs in the action tag. -/
def FaderAct.isInstr : FaderAct → Bool
  | .bring_up_instrument | .bring_down_instrument | .set_instrument
  | .pull_down_instrument | .instrument_to_level => true
  | _ => false

/-- A fader pattern table row. -/
structure FaderPat where
  re : RE
  act : FaderAct
  ng : Nat

/-- Instrument alternation of the vocals rows:
vocals?, vox, lead vox, bg vox, background vocals?. -/
def instAltVocals : RE :=
  alts [cats [l "vocal", .opt (l "s")], l "vox",
        cats [l "lead", ws1, l "vox"], cats [l "bg", ws1, l "vox"],
        cats [l "background", ws1, l "vocal", .opt (l "s")]]

/-- kick, bass drum, bd, snare, snare drum, sd. -/
def instAltDrums : RE :=
  alts [l "kick", cats [l "bass", ws1, l "drum"], l "bd",
        l "snare", cats [l "snare", ws1, l "drum"], l "sd"]

/-- hi-hat, hihat, hh, hat, overhead, overheads, oh, cymbals. -/
def instAltCymbals : RE :=
  alts [l "hi-hat", l "hihat", l "hh", l "hat",
        l "overhead", l "overheads", l "oh", l "cymbals"]

/-- tom, toms, floor tom, rack tom, floor, rack. -/
def instAltToms : RE :=
  alts [l "tom", l "toms", cats [l "floor", ws1, l "tom"],
        cats [l "rack", ws1, l "tom"], l "floor", l "rack"]

/-- bass, bass guitar, di, guitar, gtr, elec, electric guitar. -/
def instAltBass : RE :=
  alts [l "bass", cats [l "bass", ws1, l "guitar"], l "di",
        l "guitar", l "gtr", l "elec", cats [l "electric", ws1, l "guitar"]]

/-- acoustic, acoustic guitar, ac, keys, keyboard, kb, piano. -/
def instAltKeys : RE :=
  alts [l "acoustic", cats [l "acoustic", ws1, l "guitar"], l "ac",
        l "keys", l "keyboard", l "kb", l "piano"]

/-- strings, horns, brass, sax, saxophone, trumpet, horn, trombone. -/
def instAltStrings : RE :=
  alts [l "strings", l "horns", l "brass", l "sax", l "saxophone",
        l "trumpet", l "horn", l "trombone"]

/-- The seven instrument alternations, in table order. -/
def instAlts : List RE :=
  [instAltVocals, instAltDrums, instAltCymbals, instAltToms,
   instAltBass, instAltKeys, instAltStrings]

/-- bring up, pull up, push up. -/
def upVerbs : RE :=
  alts [cats [l "bring", ws1, l "up"], cats [l "pull", ws1, l "up"],
        cats [l "push", ws1, l "up"]]

/-- bring down, pull down, push down. -/
def downVerbs : RE :=
  alts [cats [l "bring", ws1, l "down"], cats [l "pull", ws1, l "down"],
        cats [l "push", ws1, l "down"]]

/-- Optional leading article: the followed by whitespace. -/
def optThe : RE := .opt (cats [l "the", ws1])

/-- The fader pattern table, in source order. -/
def faderPatterns : List FaderPat :=
  [⟨cats [alts [l "crank", l "slam", l "smash"], ws1,
      alts [l "channel", l "ch", l "track", l "trk"], ws1, gd 1,
      .opt (cats [ws1, alts [l "to", l "at"], ws1, gAny 2])],
    .crank, 2⟩,
   ⟨cats [alts [l "bury", l "lose", l "ditch"], ws1,
      .opt (cats [l "channel", ws1]), gd 1], .bury, 1⟩,
   ⟨cats [alts [l "cooking", l "hot", l "loud"], ws1,
      .opt (cats [l "channel", ws1]), gd 1], .hotA, 1⟩,
   ⟨cats [alts [l "quiet", l "soft", l "back"], ws1,
      .opt (cats [l "channel", ws1]), gd 1], .quietA, 1⟩,
   ⟨cats [.opt (cats [l "set", ws1]), l "channel", ws1, gw 1, ws1,
      alts [l "to", l "at", cats [l "fader", ws1, l "to"],
            cats [l "volume", ws1, l "to"], cats [l "level", ws1, l "to"]],
      ws1, gAny 2], .fset, 2⟩,
   ⟨cats [.opt (cats [l "put", ws1]), l "channel", ws1, gw 1, ws1,
      alts [l "at", l "to"], ws1, gAny 2], .fset, 2⟩,
   ⟨cats [.opt (cats [l "set", ws1]), alts [l "track", l "trk"], ws1, gw 1,
      ws1, alts [l "to", l "at", cats [l "level", ws1, l "to"]], ws1,
      gAny 2], .fset, 2⟩,
   ⟨cats [upVerbs, ws1, alts [l "channel", l "ch", l "track", l "trk"],
      ws1, gw 1, .opt (cats [ws1, l "to", ws1, gAny 2])], .bring_up, 2⟩,
   ⟨cats [downVerbs, ws1, alts [l "channel", l "ch", l "track", l "trk"],
      ws1, gw 1, .opt (cats [ws1, l "to", ws1, gAny 2])], .bring_down, 2⟩,
   ⟨cats [alts [l "track", l "trk"], ws1, gw 1, ws1, l "up", ws1, gw 2,
      ws0, .opt (alts [l "db", cats [l "decibel", .opt (l "s")]])],
    .relative_up, 2⟩,
   ⟨cats [alts [l "track", l "trk"], ws1, gw 1, ws1, l "down", ws1,
      .opt (cats [l "by", ws1]), gw 2, ws0,
      .opt (alts [l "db", cats [l "decibel", .opt (l "s")]])],
    .relative_down, 2⟩,
   ⟨cats [alts [l "boost", l "bump"], ws1, alts [l "channel", l "track"],
      ws1, gw 1, ws1, .opt (cats [l "by", ws1]), gw 2, ws0,
      .opt (l "db")], .boostA, 2⟩,
   ⟨cats [alts [l "pull", l "bring"], ws1, optThe, gw 1, ws1, l "down",
      ws1, gw 2, ws0, .opt (l "db")], .pull_down_instrument, 2⟩,
   ⟨cats [alts [l "vocal", l "vocals"], ws1, l "track", ws1, l "up", ws1,
      gw 1, ws0, .opt (alts [cats [l "decibel", .opt (l "s")], l "db"])],
    .vocal_up, 1⟩,
   ⟨cats [alts [l "bass", l "kick", l "snare", l "guitar", l "piano"],
      ws1, l "channel", ws1, l "to", ws1, gAny 1],
    .instrument_to_level, 1⟩,
   ⟨cats [alts [l "fader", l "input"], ws1, gw 1, ws1,
      alts [l "to", l "at"], ws1, gAny 2], .fader_set, 2⟩,
   ⟨cats [l "input", ws1, gw 1, ws1,
      alts [cats [l "down", ws1, l "to"], cats [l "up", ws1, l "to"]],
      ws1, gAny 2], .input_adjust, 2⟩,
   ⟨cats [alts [l "push", l "ride", l "slam"], ws1, optThe, gw 1],
    .push_action, 1⟩,
   ⟨cats [alts [l "push", l "ride"], ws1, alts [l "track", l "channel"],
      ws1, gw 1, ws1, alts [cats [l "a", ws1, l "bit"], l "slightly"]],
    .push_slight, 1⟩,
   ⟨cats [alts [cats [l "bump", ws1, l "up"], cats [l "nudge", ws1, l "up"]],
      ws1, .opt (cats [l "channel", ws1]), gd 1,
      .opt (cats [ws1, .opt (cats [l "by", ws1]), gAny 2])], .bump_up, 2⟩,
   ⟨cats [alts [cats [l "bump", ws1, l "down"],
               cats [l "nudge", ws1, l "down"]],
      ws1, .opt (cats [l "channel", ws1]), gd 1,
      .opt (cats [ws1, .opt (cats [l "by", ws1]), gAny 2])], .bump_down, 2⟩,
   ⟨cats [alts [l "ride", l "trim"], ws1, .opt (cats [l "channel", ws1]),
      gd 1, .opt (cats [ws1, alts [l "at", l "to"], ws1, gAny 2])],
    .adjust, 2⟩,
   ⟨cats [alts [cats [l "dial", ws1, l "in"], l "park"], ws1,
      .opt (cats [l "channel", ws1]), gd 1,
      .opt (cats [ws1, alts [l "at", l "to"], ws1, gAny 2])], .fset, 2⟩]
  ++ (instAlts.map (fun ia =>
       (⟨cats [upVerbs, ws1, optThe, .group 1 ia,
           .opt (cats [ws1, l "to", ws1, gAny 2])],
         FaderAct.bring_up_instrument, 2⟩ : FaderPat)))
  ++ (instAlts.map (fun ia =>
       (⟨cats [downVerbs, ws1, optThe, .group 1 ia,
           .opt (cats [ws1, l "to", ws1, gAny 2])],
         FaderAct.bring_down_instrument, 2⟩ : FaderPat)))
  ++ (instAlts.map (fun ia =>
       (⟨cats [alts [l "set", l "put", cats [l "dial", ws1, l "in"],
               l "park"], ws1, optThe, .group 1 ia, ws1,
           alts [l "at", l "to"], ws1, gAny 2],
         FaderAct.set_instrument, 2⟩ : FaderPat)))
  ++ [⟨cats [l "channel", ws1, gd 1, ws1, alts [l "up", l "down"], ws1,
        gd 2, ws0, .opt (l "db")], .relative, 2⟩,
      ⟨cats [l "channel", ws1, gd 1, ws1,
        alts [l "fader", l "level", l "volume"], ws1, gAny 2], .fset, 2⟩,
      ⟨cats [alts [l "ch", l "ch."], ws0, gd 1, ws1,
        alts [l "to", l "at"], ws1, gAny 2], .fset, 2⟩,
      ⟨cats [alts [l "trim", l "gain"], ws1, .opt (cats [l "channel", ws1]),
        gd 1, .opt (cats [ws1, alts [l "to", l "at"], ws1, gAny 2])],
       .gainA, 2⟩,
      ⟨cats [.opt (cats [l "set", ws1]), .opt (cats [l "channel", ws1]),
        gd 1, ws1, alts [l "trim", l "gain"], ws1,
        .opt (cats [l "to", ws1]), gAny 2], .gainA, 2⟩]

/-- The emissions of one matched fader pattern, given the resolved
channel number (already validated), the optional level text and the
match.  Error is a raised exception (a None value reaching arithmetic
in the bump and instrument-relative branches). -/
def faderEmit (lim : Limits) (labels : LabelTable) (cl : Str)
    (m : MatchRes) (act : FaderAct) (ch : Int) (levelText : Option Str) :
    Except Unit (List RCPCommand) :=
  let idx := ch - 1
  let n := ch
  match act with
  | .fset =>
    match parseDbOpt lim levelText with
    | some v => .ok [⟨faderLevelCmd idx v,
        "Set channel " ++ istr n ++ " fader to " ++ fmt1 v ++ " dB", 1⟩]
    | none => .ok []
  | .bring_up | .bring_up_instrument =>
    let dbv := if grpTruthy levelText then parseDbOpt lim levelText
               else some 300
    match dbv with
    | some v => .ok [⟨faderLevelCmd idx v,
        "Bring up channel " ++ istr n ++ " to " ++ fmt1 v ++ " dB", 1⟩]
    | none => .ok []
  | .bring_down | .bring_down_instrument =>
    let dbv := if grpTruthy levelText then parseDbOpt lim levelText
               else some (-600)
    match dbv with
    | some v => .ok [⟨faderLevelCmd idx v,
        "Bring down channel " ++ istr n ++ " to " ++ fmt1 v ++ " dB", 1⟩]
    | none => .ok []
  | .bump_up =>
    let dbv := if grpTruthy levelText then parseDbOpt lim levelText
               else some 300
    match dbv with
    | some v => .ok [⟨"# GET current level, then add " ++ fmt1 v ++ " dB",
        "Bump up channel " ++ istr n ++ " by " ++ fmt1 v ++ " dB", 0.8⟩]
    | none => .error ()
  | .bump_down =>
    let dbv := if grpTruthy levelText then parseDbOpt lim levelText
               else some (-300)
    match dbv with
    | some v => .ok [⟨"# GET current level, then subtract "
          ++ fmt1 (absInt v) ++ " dB",
        "Bump down channel " ++ istr n ++ " by " ++ fmt1 (absInt v)
          ++ " dB", 0.8⟩]
    | none => .error ()
  | .adjust =>
    if grpTruthy levelText then
      match parseDbOpt lim levelText with
      | some v => .ok [⟨faderLevelCmd idx v,
          "Adjust channel " ++ istr n ++ " to " ++ fmt1 v ++ " dB", 1⟩]
      | none => .ok []
    else
      .ok [⟨"# Manual adjustment mode for channel " ++ istr n,
        "Ready to adjust channel " ++ istr n, 0.9⟩]
  | .gainA =>
    if grpTruthy levelText then
      match parseDbOpt lim levelText with
      | some v => .ok [⟨"# set MIXER:Current/InCh/Head/Gain " ++ istr idx
            ++ " 0 " ++ istr v,
          "Set channel " ++ istr n ++ " gain to " ++ fmt1 v ++ " dB",
          0.7⟩]
      | none => .ok []
    else
      .ok [⟨"# Adjust gain/trim for channel " ++ istr n,
        "Adjust gain on channel " ++ istr n, 0.7⟩]
  | .hotA => .ok [⟨faderLevelCmd idx 300,
      "Push channel " ++ istr n ++ " hot (+3.0 dB)", 1⟩]
  | .bury => .ok [⟨faderLevelCmd idx (-1500),
      "Bury channel " ++ istr n ++ " (-15.0 dB)", 1⟩]
  | .quietA => .ok [⟨faderLevelCmd idx (-1000),
      "Pull channel " ++ istr n ++ " back (-10.0 dB)", 1⟩]
  | .crank =>
    if grpTruthy (m.grp 2) then
      match parseDbOpt lim (m.grp 2) with
      | some v => .ok [⟨faderLevelCmd idx v,
          "Crank channel " ++ istr n ++ " to " ++ fmt1 v ++ " dB", 1⟩]
      | none => .ok [⟨faderLevelCmd idx 300,
          "Crank channel " ++ istr n ++ " hot (+3.0 dB)", 1⟩]
    else
      .ok [⟨faderLevelCmd idx 300,
        "Crank channel " ++ istr n ++ " hot (+3.0 dB)", 1⟩]
  | .set_instrument =>
    match parseDbOpt lim levelText with
    | some v => .ok [⟨faderLevelCmd idx v,
        "Set " ++ String.mk ((m.grp 1).getD []) ++ " to " ++ fmt1 v
          ++ " dB", 1⟩]
    | none => .ok []
  | .relative =>
    match levelText.bind parseNumber with
    | some c =>
      if intTruthy c then
        if containsSub (lowerS cl) "up".data then
          .ok [⟨"# GET current level first, then add " ++ istr c ++ " dB",
            "Increase channel " ++ istr n ++ " by " ++ istr c ++ " dB",
            0.8⟩]
        else
          .ok [⟨"# GET current level first, then subtract " ++ istr c
              ++ " dB",
            "Decrease channel " ++ istr n ++ " by " ++ istr c ++ " dB",
            0.8⟩]
      else .ok []
    | none => .ok []
  | .relative_up =>
    match levelText.bind parseNumber with
    | some d =>
      if intTruthy d then
        .ok [⟨"# GET current level first, then add " ++ istr d ++ " dB",
          "Track " ++ istr n ++ " up " ++ istr d ++ " dB", 0.9⟩]
      else .ok []
    | none => .ok []
  | .relative_down =>
    match levelText.bind parseNumber with
    | some d =>
      if intTruthy d then
        .ok [⟨"# GET current level first, then subtract " ++ istr d
            ++ " dB",
          "Track " ++ istr n ++ " down " ++ istr d ++ " dB", 0.9⟩]
      else .ok []
    | none => .ok []
  | .boostA =>
    match (if grpTruthy levelText then levelText.bind parseNumber
           else some 6) with
    | some d =>
      if intTruthy d then
        .ok [⟨"# GET current level first, then add " ++ istr d ++ " dB",
          "Boost channel " ++ istr n ++ " by " ++ istr d ++ " dB", 0.9⟩]
      else .ok []
    | none => .ok []
  | .pull_down_instrument =>
    let instrument := (m.grp 1).getD []
    let dbc := (m.grp 2).bind parseNumber
    match getChannelForInstrument labels instrument with
    | some c =>
      if intTruthy c then
        match dbc with
        | none => .error ()
        | some d => .ok [⟨"# GET current level first, then subtract "
              ++ istr d ++ " dB",
            "Pull " ++ String.mk instrument ++ " down " ++ istr d
              ++ " dB", 0.9⟩]
      else .ok []
    | none => .ok []
  | .vocal_up =>
    let dbc := (m.grp 1).bind parseNumber
    match getChannelForInstrument labels "vocals".data with
    | some c =>
      if intTruthy c then
        match dbc with
        | none => .error ()
        | some d => .ok [⟨"# GET current level first, then add " ++ istr d
              ++ " dB",
            "Vocal track up " ++ istr d ++ " dB", 0.9⟩]
      else .ok []
    | none => .ok []
  | .instrument_to_level =>
    let cll := lowerS cl
    let instrument : Option Str :=
      if containsSub cll "bass".data then some "bass".data
      else if containsSub cll "kick".data then some "kick".data
      else if containsSub cll "snare".data then some "snare".data
      else if containsSub cll "guitar".data then some "guitar".data
      else if containsSub cll "piano".data then some "piano".data
      else none
    match instrument with
    | none => .ok []
    | some inst =>
      match parseDbOpt lim levelText with
      | none => .ok []
      | some v =>
        match getChannelForInstrument labels inst with
        | some c =>
          if intTruthy c then
            .ok [⟨faderLevelCmd (c - 1) v,
              "Set " ++ String.mk inst ++ " to " ++ fmt1 v ++ " dB", 1⟩]
          else .ok []
        | none => .ok []
  | .fader_set =>
    match parseDbOpt lim levelText with
    | some v => .ok [⟨faderLevelCmd idx v,
        "Set fader " ++ istr n ++ " to " ++ fmt1 v ++ " dB", 1⟩]
    | none => .ok []
  | .input_adjust =>
    match parseDbOpt lim levelText with
    | some v => .ok [⟨faderLevelCmd idx v,
        "Set input " ++ istr n ++ " to " ++ fmt1 v ++ " dB", 1⟩]
    | none => .ok []
  | .push_action =>
    let instrument := (m.grp 1).getD []
    if instrument ∈ ["vocal".data, "vocals".data, "guitar".data,
        "lead".data, "bass".data, "kick".data, "snare".data] then
      match getChannelForInstrument labels instrument with
      | some c =>
        if intTruthy c then
          .ok [⟨"# Manual adjustment mode for " ++ String.mk instrument,
            "Ready to push " ++ String.mk instrument ++ " fader", 0.8⟩]
        else .ok []
      | none => .ok []
    else .ok []
  | .push_slight =>
    .ok [⟨"# GET current level first, then add 2 dB",
      "Push track " ++ istr n ++ " slightly (+2 dB)", 0.8⟩]

/-- One row of the fader loop: search, resolve the channel (instrument
lookup or number parse), validate, then emit. -/
def faderStep (lim : Limits) (labels : LabelTable) (cl : Str)
    (p : FaderPat) : Except Unit (List RCPCommand) :=
  match reSearch p.re cl with
  | none => .ok []
  | some m =>
    let resolved : Option (Int × Option Str) :=
      if p.act.isInstr then
        match getChannelForInstrument labels ((m.grp 1).getD []) with
        | none => none
        | some ch =>
          if intTruthy ch then
            some (ch, if p.ng > 1 && grpTruthy (m.grp 2) then m.grp 2
                      else none)
          else none
      else
        match parseNumber ((m.grp 1).getD []) with
        | none => none
        | some ch => some (ch, if p.ng > 1 then m.grp 2 else none)
    match resolved with
    | none => .ok []
    | some (ch, levelText) =>
      if validateChannel lim ch then
        faderEmit lim labels cl m p.act ch levelText
      else .ok []

/-- process_channel_fader: run every row in order over the lower-cased
command, concatenating emissions; a raised exception aborts the whole
processor (the caller catches it and keeps no results). -/
def processChannelFader (lim : Limits) (labels : LabelTable)
    (command : Str) : Except Unit (List RCPCommand) :=
  let cl := lowerS command
  faderPatterns.foldlM
    (fun acc p => do
      let r ← faderStep lim labels cl p
      pure (acc ++ r)) []

/-! ### process_channel_mute (channels.py 468-562) -/

/-- Mute table tags: state 0, state 1, or the solo marker. -/
inductive MuteTag where
  | off0 | on1 | solo
  deriving DecidableEq

/-- A mute pattern table row: pattern, tag, and whether the row is an
instrument row (the source marks those with a third tuple element). -/
structure MutePat where
  re : RE
  tag : MuteTag
  instr : Bool

/-- The mute pattern table, in source order. -/
def mutePatterns : List MutePat :=
  [⟨cats [alts [l "mute", l "kill", l "cut", l "silence",
       cats [l "turn", ws1, l "off"], cats [l "shut", ws1, l "off"],
       l "disable"], ws1, l "channel", ws1, gw 1], .off0, false⟩,
   ⟨cats [alts [l "unmute", l "restore", l "open", l "activate",
       cats [l "turn", ws1, l "on"], l "enable",
       cats [l "bring", ws1, l "back"]], ws1, l "channel", ws1, gw 1],
    .on1, false⟩,
   ⟨cats [l "channel", ws1, gw 1, ws1,
       alts [l "on", l "unmute", l "open", l "active"]], .on1, false⟩,
   ⟨cats [l "channel", ws1, gw 1, ws1,
       alts [l "off", l "mute", cats [l "kille", .opt (l "d")], l "cut"]],
    .off0, false⟩,
   ⟨cats [alts [l "ch", l "ch."], ws0, gw 1, ws1,
       alts [l "mute", l "off"]], .off0, false⟩,
   ⟨cats [alts [l "ch", l "ch."], ws0, gw 1, ws1,
       alts [l "unmute", l "on"]], .on1, false⟩,
   ⟨cats [alts [l "lose", l "ditch", l "bury", l "dump"], ws1,
       l "channel", ws1, gd 1], .off0, false⟩,
   ⟨cats [alts [cats [l "solo", ws1, l "off"], l "unsolo"], ws1,
       l "channel", ws1, gd 1], .on1, false⟩,
   ⟨cats [alts [l "safe", l "protect"], ws1, l "channel", ws1, gd 1],
    .off0, false⟩,
   ⟨cats [alts [l "cut", l "kill", l "mute"], ws1, l "track", ws1, gw 1],
    .off0, false⟩,
   ⟨cats [l "kill", ws1, l "track", ws1, gw 1], .off0, false⟩,
   ⟨cats [l "track", ws1, gw 1, ws1, alts [l "cut", l "kill", l "mute"]],
    .off0, false⟩,
   ⟨cats [l "solo", ws1, l "channel", ws1, gw 1], .solo, false⟩,
   ⟨cats [l "solo", ws1, alts [l "track", l "trk"], ws1, gw 1],
    .solo, false⟩,
   ⟨cats [l "channel", ws1, gw 1, ws1, l "solo"], .solo, false⟩,
   ⟨cats [alts [l "track", l "trk"], ws1, gw 1, ws1, l "solo"],
    .solo, false⟩,
   ⟨cats [alts [l "mute", l "kill", l "cut", l "silence",
       cats [l "turn", ws1, l "off"]], ws1, optThe,
       .group 1 (alts [cats [l "vocal", .opt (l "s")], l "vox", l "kick",
         l "snare", l "bass", l "guitar", l "keys"])], .off0, true⟩,
   ⟨cats [alts [l "unmute", l "restore", l "open", l "activate",
       cats [l "turn", ws1, l "on"]], ws1, optThe,
       .group 1 (alts [cats [l "vocal", .opt (l "s")], l "vox", l "kick",
         l "snare", l "bass", l "guitar", l "keys"])], .on1, true⟩,
   ⟨cats [alts [l "mute", l "kill", l "cut"], ws1, optThe,
       .group 1 (alts [l "drums", l "overhead", l "overheads", l "piano",
         l "strings", l "saxophone", l "sax"])], .off0, true⟩,
   ⟨cats [alts [l "mute", l "kill", l "cut"], ws1, optThe,
       .group 1 (alts [cats [l "lead", ws1, l "vocal"],
         cats [l "background", ws1, l "vocals"],
         cats [l "bg", ws1, l "vox"]])], .off0, true⟩,
   ⟨cats [l "solo", ws1, optThe,
       .group 1 (alts [cats [l "vocal", .opt (l "s")], l "vox", l "kick",
         l "snare", l "bass", l "guitar", l "keys"])], .solo, true⟩,
   ⟨cats [optThe,
       .group 1 (alts [cats [l "vocal", .opt (l "s")], l "vox", l "kick",
         l "snare", l "bass", l "guitar", l "keys"]), ws1, l "solo"],
    .solo, true⟩,
   ⟨cats [l "solo", ws1, optThe,
       .group 1 (alts [cats [l "lead", ws1, l "vocal"], l "saxophone",
         l "sax", l "piano", l "strings"])], .solo, true⟩]

/-- One row of the mute loop. -/
def muteStep (lim : Limits) (labels : LabelTable) (cl : Str)
    (p : MutePat) : List RCPCommand :=
  match reSearch p.re cl with
  | none => []
  | some m =>
    match p.tag with
    | .solo =>
      if p.instr then
        let instrument := (m.grp 1).getD []
        match getChannelForInstrument labels instrument with
        | some c =>
          if intTruthy c then
            [⟨"# set MIXER:Current/InCh/Solo " ++ istr (c - 1) ++ " 0 1",
              "Solo " ++ String.mk instrument ++ " (channel " ++ istr c
                ++ ")", 0.9⟩]
          else []
        | none => []
      else
        match parseNumber ((m.grp 1).getD []) with
        | some c =>
          if intTruthy c && validateChannel lim c then
            [⟨"# set MIXER:Current/InCh/Solo " ++ istr (c - 1) ++ " 0 1",
              "Solo channel " ++ istr c, 0.9⟩]
          else []
        | none => []
    | tag =>
      let st : Int := if tag = .on1 then 1 else 0
      let actionText := if st = 1 then "Unmute" else "Mute"
      if p.instr then
        let instrument := (m.grp 1).getD []
        match getChannelForInstrument labels instrument with
        | some c =>
          if intTruthy c then
            [⟨faderOnCmd (c - 1) st,
              actionText ++ " " ++ String.mk instrument ++ " (channel "
                ++ istr c ++ ")", 1⟩]
          else []
        | none => []
      else
        match parseNumber ((m.grp 1).getD []) with
        | some c =>
          if intTruthy c && validateChannel lim c then
            [⟨faderOnCmd (c - 1) st, actionText ++ " channel " ++ istr c,
              1⟩]
          else []
        | none => []

/-- process_channel_mute: every row in order over the lower-cased
command, concatenating emissions (nothing here can raise). -/
def processChannelMute (lim : Limits) (labels : LabelTable)
    (command : Str) : List RCPCommand :=
  let cl := lowerS command
  (mutePatterns.map (muteStep lim labels cl)).flatten

/-! ### process_channel_label (channels.py 564-590) -/

/-- The three label patterns, in source order. -/
def labelPatterns : List RE :=
  [cats [alts [l "name", l "label", l "call", l "tag", l "mark"], ws1,
     alts [l "channel", l "track"], ws1, gw 1, ws1,
     .opt (cats [l "as", ws1]), gAny 2],
   cats [.opt (cats [l "set", ws1]), alts [l "channel", l "track"], ws1,
     gw 1, ws1, alts [l "name", l "label"], ws1,
     .opt (cats [l "to", ws1]), gAny 2],
   cats [alts [l "channel", l "track"], ws1, gw 1, ws1,
     alts [l "is", l "called"], ws1, gAny 2]]

/-- One row of the label loop: on a validated match, store the cleaned
lower-cased label into the table and emit the label-set line. -/
def labelStep (lim : Limits) (cl : Str) (p : RE)
    (labels : LabelTable) : List RCPCommand × LabelTable :=
  match reSearch p cl with
  | none => ([], labels)
  | some m =>
    match parseNumber ((m.grp 1).getD []) with
    | some c =>
      if intTruthy c && validateChannel lim c then
        let label := stripQuotes (stripS ((m.grp 2).getD []))
        (([⟨chLabelCmd (c - 1) label,
            "Set channel " ++ istr c ++ " label to " ++ "'"
              ++ String.mk label ++ "'", 1⟩]),
         dictAssign labels (lowerS label) c)
      else ([], labels)
    | none => ([], labels)

/-- process_channel_label: the three patterns in order, threading the
label table through the stores. -/
def processChannelLabel (lim : Limits) (labels : LabelTable)
    (command : Str) : List RCPCommand × LabelTable :=
  let cl := lowerS command
  labelPatterns.foldl
    (fun (acc : List RCPCommand × LabelTable) p =>
      let (r, labels1) := labelStep lim cl p acc.2
      (acc.1 ++ r, labels1))
    ([], labels)

/-! ### process_send_to_mix (routing.py 79-461) -/

/-- Action tags of the send pattern table. -/
inductive SendAct where
  | onA | offA | level | word_numbers | instrument
  | vocalist_monitor | drummer_monitor | musician_monitor
  | iem | pre_post | matrixA | groupA
  | instrument_slang | monitor_slang | patch_into | singer_wedge
  | in_ears | patch_track | to_wedges | overheads_monitors
  | vocal_ears | aux_matrix | track_wedge
  deriving DecidableEq

/-- A send pattern table row. -/
structure SendPat where
  re : RE
  act : SendAct
  ng : Nat

/-- send|route|add|patch|feed verb set. -/
def sendVerbs : RE := alts [l "send", l "route", l "add", l "patch", l "feed"]

/-- mix|aux|monitor|mon|wedge|bus destination set. -/
def mixWords : RE :=
  alts [l "mix", l "aux", l "monitor", l "mon", l "wedge", l "bus"]

/-- The send pattern table, in source order. -/
def sendPatterns : List SendPat :=
  [⟨cats [alts [l "send", l "route", l "add", l "patch", l "feed",
       l "mult"], ws1, l "channel", ws1, gd 1, ws1, l "to", ws1,
       mixWords, ws1, gd 2], .onA, 2⟩,
   ⟨cats [sendVerbs, ws1, alts [l "ch", l "ch."], ws0, gd 1, ws1, l "to",
       ws1, mixWords, ws1, gd 2], .onA, 2⟩,
   ⟨cats [alts [l "send", l "route", l "add", l "patch", l "feed",
       l "mult"], ws1, l "track", ws1, gd 1, ws1, l "to", ws1,
       mixWords, ws1, gd 2], .onA, 2⟩,
   ⟨cats [sendVerbs, ws1, alts [l "trk", l "tr"], ws0, gd 1, ws1, l "to",
       ws1, mixWords, ws1, gd 2], .onA, 2⟩,
   ⟨cats [alts [l "send", l "route", l "add", l "patch", l "feed",
       l "mult"], ws1, alts [l "channel", l "ch", l "track", l "trk"],
       ws1, gw 1, ws1, l "to", ws1, mixWords, ws1, gw 2],
    .word_numbers, 2⟩,
   ⟨cats [alts [l "patch", l "route", l "assign"], ws1, l "channel", ws1,
       gd 1, ws1, alts [l "into", l "to"], ws1,
       alts [l "aux", l "send", l "bus"], ws1, gd 2], .onA, 2⟩,
   ⟨cats [alts [l "tie", l "connect", l "link"], ws1, l "channel", ws1,
       gd 1, ws1, alts [l "to", l "with"], ws1,
       alts [l "mix", l "aux", l "monitor"], ws1, gd 2], .onA, 2⟩,
   ⟨cats [alts [l "mult", l "split", l "feed"], ws1, l "channel", ws1,
       gd 1, ws1, alts [l "to", l "into"], ws1,
       alts [l "mix", l "aux", l "monitor"], ws1, gd 2], .onA, 2⟩,
   ⟨cats [alts [l "send", l "route", l "add"], ws1, l "channel", ws1,
       gd 1, ws1, l "to", ws1, alts [l "foldback", l "fb"], ws1, gd 2],
    .onA, 2⟩,
   ⟨cats [.opt (cats [l "turn", ws1]),
       alts [l "on", l "enable", l "activate"], ws1, l "channel", ws1,
       gd 1, ws1, .opt (cats [l "send", ws1]), l "to", ws1,
       alts [l "mix", l "aux", l "monitor"], ws1, gd 2], .onA, 2⟩,
   ⟨cats [.opt (cats [l "turn", ws1]),
       alts [l "off", l "disable", l "kill", l "remove"], ws1,
       l "channel", ws1, gd 1, ws1, .opt (cats [l "send", ws1]),
       alts [l "to", l "from"], ws1,
       alts [l "mix", l "aux", l "monitor"], ws1, gd 2], .offA, 2⟩,
   ⟨cats [.opt (cats [l "set", ws1]), l "channel", ws1, gd 1, ws1,
       .opt (cats [l "send", ws1]), l "to", ws1, mixWords, ws1, gd 2,
       ws1, alts [l "at", l "to", l "level"], ws1, gAny 3], .level, 3⟩,
   ⟨cats [alts [l "send", l "route"], ws1, l "channel", ws1, gd 1, ws1,
       l "to", ws1, alts [l "mix", l "aux", l "monitor"], ws1, gd 2, ws1,
       l "at", ws1, gAny 3], .level, 3⟩,
   ⟨cats [l "channel", ws1, gd 1, ws1, l "to", ws1,
       alts [l "mix", l "aux", l "monitor"], ws1, gd 2, ws1, l "at", ws1,
       gAny 3], .level, 3⟩,
   ⟨cats [alts [l "patch", l "feed"], ws1, l "channel", ws1, gd 1, ws1,
       alts [l "into", l "to"], ws1, alts [l "mix", l "aux"], ws1, gd 2,
       ws1, l "at", ws1, gAny 3], .level, 3⟩]
  ++ ([alts [cats [l "vocal", .opt (l "s")], l "vox",
         cats [l "lead", ws1, l "vox"], cats [l "bg", ws1, l "vox"]],
       instAltDrums,
       alts [l "hi-hat", l "hihat", l "hh", l "hat", l "overhead",
         l "overheads", l "oh"],
       instAltToms,
       alts [l "bass", cats [l "bass", ws1, l "guitar"], l "di",
         l "guitar", l "gtr", l "elec"],
       alts [l "acoustic", l "ac", l "keys", l "keyboard", l "kb",
         l "piano"]].map (fun ia =>
      (⟨cats [sendVerbs, ws1, optThe, .group 1 ia, ws1, l "to", ws1,
          alts [l "mix", l "aux", l "monitor", l "mon", l "wedge"], ws1,
          gd 2, .opt (cats [ws1, l "at", ws1, gAny 3])],
        SendAct.instrument, 3⟩ : SendPat)))
  ++ [⟨cats [alts [l "add", l "send", l "give"], ws1, optThe,
       .group 1 (alts [cats [l "vocal", .opt (l "s")], l "vox",
         cats [l "lead", ws1, l "vox"]]), ws1, l "to", ws1, optThe,
       alts [l "singer", l "vocalist"],
       .opt (l ("'" ++ "s")), ws1,
       alts [l "mix", l "monitor", l "wedge", l "ears"]],
      .vocalist_monitor, 1⟩,
   ⟨cats [alts [l "add", l "send", l "give"], ws1, optThe,
       .group 1 (alts [l "kick", l "snare", l "drums"]), ws1, l "to",
       ws1, optThe, alts [l "drummer", l "drum"],
       .opt (l ("'" ++ "s")), ws1,
       alts [l "mix", l "monitor", l "wedge", l "ears"]],
    .drummer_monitor, 1⟩,
   ⟨cats [alts [l "add", l "send", l "give"], ws1, optThe,
       .group 1 (alts [l "guitar", l "bass"]), ws1, l "to", ws1, optThe,
       alts [l "guitarist", l "bassist"],
       .opt (l ("'" ++ "s")), ws1,
       alts [l "mix", l "monitor", l "wedge", l "ears"]],
    .musician_monitor, 1⟩,
   ⟨cats [alts [l "send", l "route", l "add"], ws1, optThe,
       .group 1 (alts [cats [l "vocal", .opt (l "s")], l "vox",
         cats [l "instrument", .opt (l "s")]]), ws1, l "to", ws1, optThe,
       alts [l "IEM", l "IEMs", cats [l "in-ear", .opt (l "s")],
         l "ears"], ws1, .opt (cats [l "mix", ws1]), gd 2], .iem, 2⟩,
   ⟨cats [alts [l "patch", l "feed"], ws1, optThe,
       .group 1 (alts [cats [l "vocal", .opt (l "s")],
         cats [l "instrument", .opt (l "s")]]), ws1,
       alts [l "into", l "to"], ws1, alts [l "IEM", l "in-ear"], ws1,
       .opt (cats [l "mix", ws1]), gd 2], .iem, 2⟩,
   ⟨cats [alts [l "send", l "route"], ws1, l "channel", ws1, gd 1, ws1,
       alts [l "pre", l "post"], ws1, .opt (cats [l "fader", ws1]),
       l "to", ws1, alts [l "mix", l "aux"], ws1, gd 2], .pre_post, 2⟩,
   ⟨cats [alts [l "pre", l "post"], ws1, .opt (cats [l "fader", ws1]),
       alts [l "send", l "route"], ws1, l "channel", ws1, gd 1, ws1,
       l "to", ws1, alts [l "mix", l "aux"], ws1, gd 2], .pre_post, 2⟩,
   ⟨cats [alts [l "send", l "route"], ws1, alts [l "mix", l "aux"], ws1,
       gd 1, ws1, l "to", ws1, alts [l "matrix", l "mtx"], ws1, gd 2],
    .matrixA, 2⟩,
   ⟨cats [alts [l "patch", l "feed"], ws1, alts [l "mix", l "aux"], ws1,
       gd 1, ws1, alts [l "into", l "to"], ws1,
       alts [l "matrix", l "mtx"], ws1, gd 2], .matrixA, 2⟩,
   ⟨cats [alts [l "send", l "route", l "assign"], ws1, l "channel", ws1,
       gd 1, ws1, l "to", ws1,
       alts [l "group", l "subgroup", l "sub", l "bus"], ws1, gd 2],
    .groupA, 2⟩,
   ⟨cats [alts [l "add", l "assign"], ws1, l "channel", ws1, gd 1, ws1,
       alts [l "to", l "into"], ws1,
       alts [l "group", l "subgroup", l "sub"], ws1, gd 2], .groupA, 2⟩,
   ⟨cats [alts [l "remove", l "disconnect", l "unroute", l "kill"], ws1,
       l "channel", ws1, gd 1, ws1, alts [l "from", l "to"], ws1,
       alts [l "mix", l "aux", l "monitor"], ws1, gd 2], .offA, 2⟩,
   ⟨cats [alts [l "unpatch", l "disconnect"], ws1, l "channel", ws1,
       gd 1, ws1, alts [l "from", l "to"], ws1, alts [l "mix", l "aux"],
       ws1, gd 2], .offA, 2⟩,
   ⟨cats [alts [l "throw", l "blast", l "pump"], ws1, optThe,
       .group 1 (alts [cats [l "vocal", .opt (l "s")], l "kick",
         l "snare"]), ws1, alts [l "to", l "into"], ws1,
       alts [l "mix", l "aux", l "monitor"], ws1, gd 2],
    .instrument_slang, 2⟩,
   ⟨cats [alts [l "crank", l "slam"], ws1, optThe,
       .group 1 (alts [cats [l "vocal", .opt (l "s")], l "drums"]), ws1,
       alts [l "in", l "into"], ws1, optThe,
       alts [cats [l "wedge", .opt (l "s")],
         cats [l "monitor", .opt (l "s")]]], .monitor_slang, 1⟩,
   ⟨cats [l "patch", ws1, alts [l "channel", l "track"], ws1, gw 1, ws1,
       alts [l "into", l "to"], ws1, l "wedge", ws1, gw 2],
    .patch_into, 2⟩,
   ⟨cats [l "route", ws1, alts [cats [l "vocal", .opt (l "s")], l "vox"],
       ws1, l "to", ws1,
       .opt (cats [l ("singer" ++ "'" ++ "s"), ws1]),
       alts [l "wedge", l "monitor"]], .singer_wedge, 0⟩,
   ⟨cats [l "send", ws1, alts [l "track", l "channel"], ws1, gw 1, ws1,
       l "to", ws1, alts [l "in-ears", cats [l "in", ws1, l "ears"],
         cats [l "iem", .opt (l "s")]]], .in_ears, 1⟩,
   ⟨cats [l "patch", ws1, l "track", ws1, gw 1, ws1, l "into", ws1,
       l "mix", ws1, gw 2], .patch_track, 2⟩,
   ⟨cats [l "send", ws1, optThe,
       .group 1 (alts [l "snare", l "overhead", l "overheads"]), ws1,
       l "to", ws1, alts [l "wedges", l "monitors"]], .to_wedges, 1⟩,
   ⟨cats [l "route", ws1, alts [l "overhead", l "overheads"], ws1,
       l "to", ws1, l "monitors"], .overheads_monitors, 0⟩,
   ⟨cats [l "feed", ws1, alts [cats [l "vocal", .opt (l "s")], l "vox"],
       ws1, l "to", ws1, optThe, alts [l "ears", l "in-ears"]],
    .vocal_ears, 0⟩,
   ⟨cats [l "send", ws1, alts [l "aux", l "mix"], ws1, gw 1, ws1, l "to",
       ws1, l "matrix", ws1, l "out"], .aux_matrix, 1⟩,
   ⟨cats [l "feed", ws1, l "track", ws1, gw 1, ws1, l "to", ws1, optThe,
       l "wedge"], .track_wedge, 1⟩]

/-- One row of the send loop: the per-action resolution and emission of
routing.py 162-459.  cl is the lower-cased command. -/
def sendStep (lim : Limits) (labels : LabelTable) (cl : Str)
    (p : SendPat) : List RCPCommand :=
  match reSearch p.re cl with
  | none => []
  | some m =>
    match p.act with
    | .instrument =>
      let instrument := (m.grp 1).getD []
      match getChannelForInstrument labels instrument with
      | none => []
      | some ch =>
        if intTruthy ch then
          let mixn := ((m.grp 2).getD []) |> parseNumber
          let levelText := if p.ng > 2 && grpTruthy (m.grp 3) then m.grp 3
                           else none
          match mixn with
          | some mix =>
            if intTruthy mix && validateMix lim mix then
              [⟨toMixOnCmd (ch - 1) (mix - 1) 1,
                 "Send " ++ String.mk instrument ++ " to mix "
                   ++ istr mix, 1⟩]
              ++ (if grpTruthy levelText then
                    match parseDbOpt lim levelText with
                    | some v => [⟨toMixLevelCmd (ch - 1) (mix - 1) v,
                        "Set " ++ String.mk instrument ++ " send to mix "
                          ++ istr mix ++ " at " ++ fmt1 v ++ " dB", 1⟩]
                    | none => []
                  else [])
            else []
          | none => []
        else []
    | .vocalist_monitor | .drummer_monitor | .musician_monitor =>
      let instrument := (m.grp 1).getD []
      match getChannelForInstrument labels instrument with
      | none => []
      | some ch =>
        if intTruthy ch then
          let performer := match p.act with
            | .vocalist_monitor => "vocalist"
            | .drummer_monitor => "drummer"
            | _ => "musician"
          let mix : Int := match p.act with
            | .vocalist_monitor => 1
            | .drummer_monitor => 2
            | _ => 3
          [⟨toMixOnCmd (ch - 1) (mix - 1) 1,
             "Add " ++ String.mk instrument ++ " to " ++ performer
               ++ "'" ++ "s monitor (mix " ++ istr mix ++ ")", 1⟩]
        else []
    | .iem =>
      let instrument := (m.grp 1).getD []
      match getChannelForInstrument labels instrument with
      | none => []
      | some ch =>
        if intTruthy ch then
          match ((m.grp 2).getD []) |> parseNumber with
          | some iemn =>
            if intTruthy iemn && validateMix lim iemn then
              [⟨toMixOnCmd (ch - 1) (iemn - 1) 1,
                 "Route " ++ String.mk instrument ++ " to IEM mix "
                   ++ istr iemn, 1⟩]
            else []
          | none => []
        else []
    | .pre_post =>
      match parseNumber ((m.grp 1).getD []),
            parseNumber ((m.grp 2).getD []) with
      | some ch, some mix =>
        if intTruthy ch && intTruthy mix && validateChannel lim ch
            && validateMix lim mix then
          let pre := containsSub cl "pre".data
          [⟨"# set MIXER:Current/InCh/ToMix/PreOn " ++ istr (ch - 1)
              ++ " " ++ istr (mix - 1) ++ " "
              ++ (if pre then "1" else "0"),
            "Set channel " ++ istr ch ++ " to mix " ++ istr mix ++ " "
              ++ (if pre then "pre" else "post") ++ "-fader", 0.8⟩]
        else []
      | _, _ => []
    | .matrixA =>
      match parseNumber ((m.grp 1).getD []),
            parseNumber ((m.grp 2).getD []) with
      | some src, some dst =>
        if intTruthy src && intTruthy dst && validateMix lim src then
          [⟨"# set MIXER:Current/Mix/ToMatrix/On " ++ istr (src - 1)
              ++ " " ++ istr (dst - 1) ++ " 1",
            "Route mix " ++ istr src ++ " to matrix " ++ istr dst, 0.7⟩]
        else []
      | _, _ => []
    | .groupA =>
      match parseNumber ((m.grp 1).getD []),
            parseNumber ((m.grp 2).getD []) with
      | some ch, some grp =>
        if intTruthy ch && intTruthy grp && validateChannel lim ch then
          [⟨"# set MIXER:Current/InCh/ToGroup/On " ++ istr (ch - 1)
              ++ " " ++ istr (grp - 1) ++ " 1",
            "Assign channel " ++ istr ch ++ " to group " ++ istr grp,
            0.8⟩]
        else []
      | _, _ => []
    | .instrument_slang | .monitor_slang =>
      let instrument := if p.ng > 0 then (m.grp 1).getD []
                        else "input".data
      match getChannelForInstrument labels instrument with
      | none => []
      | some ch =>
        if intTruthy ch then
          [⟨toMixOnCmd (ch - 1) 0 1,
             "Pump " ++ String.mk instrument
               ++ " into monitors (slang command)", 1⟩,
           ⟨toMixLevelCmd (ch - 1) 0 300,
             "Set " ++ String.mk instrument
               ++ " monitor send hot (+3.0 dB)", 1⟩]
        else []
    | .word_numbers =>
      match parseNumber ((m.grp 1).getD []),
            parseNumber ((m.grp 2).getD []) with
      | some ch, some mix =>
        if intTruthy ch && intTruthy mix && validateChannel lim ch
            && validateMix lim mix then
          let inputType := if containsSub cl "track".data
              || containsSub cl "trk".data then "track" else "channel"
          let outputType := if containsSub cl "bus".data then "bus"
                            else "mix"
          [⟨toMixOnCmd (ch - 1) (mix - 1) 1,
             "Send " ++ inputType ++ " " ++ istr ch ++ " to "
               ++ outputType ++ " " ++ istr mix, 1⟩]
        else []
      | _, _ => []
    | .patch_into =>
      match parseNumber ((m.grp 1).getD []),
            parseNumber ((m.grp 2).getD []) with
      | some ch, some mix =>
        if intTruthy ch && intTruthy mix && validateChannel lim ch
            && validateMix lim mix then
          [⟨toMixOnCmd (ch - 1) (mix - 1) 1,
             "Patch channel " ++ istr ch ++ " into wedge " ++ istr mix,
             1⟩]
        else []
      | _, _ => []
    | .singer_wedge =>
      match getChannelForInstrument labels "vocals".data with
      | some ch =>
        if intTruthy ch then
          [⟨toMixOnCmd (ch - 1) 0 1,
             "Route vocals to singer" ++ "'" ++ "s wedge (mix 1)", 1⟩]
        else []
      | none => []
    | .in_ears =>
      match parseNumber ((m.grp 1).getD []) with
      | some ch =>
        if intTruthy ch && validateChannel lim ch then
          [⟨toMixOnCmd (ch - 1) 2 1,
             "Send track " ++ istr ch ++ " to IEM mix 3", 1⟩]
        else []
      | none => []
    | .patch_track =>
      match parseNumber ((m.grp 1).getD []),
            parseNumber ((m.grp 2).getD []) with
      | some tr, some mix =>
        if intTruthy tr && intTruthy mix && validateChannel lim tr
            && validateMix lim mix then
          [⟨toMixOnCmd (tr - 1) (mix - 1) 1,
             "Patch track " ++ istr tr ++ " into mix " ++ istr mix, 1⟩]
        else []
      | _, _ => []
    | .to_wedges =>
      let instrument := (m.grp 1).getD []
      match getChannelForInstrument labels instrument with
      | some ch =>
        if intTruthy ch then
          [⟨toMixOnCmd (ch - 1) 0 1,
             "Send " ++ String.mk instrument ++ " to wedge 1", 1⟩,
           ⟨toMixOnCmd (ch - 1) 1 1,
             "Send " ++ String.mk instrument ++ " to wedge 2", 1⟩]
        else []
      | none => []
    | .overheads_monitors =>
      match getChannelForInstrument labels "overhead".data with
      | some ch =>
        if intTruthy ch then
          [⟨toMixOnCmd (ch - 1) 0 1,
             "Route overheads to monitors (mix 1)", 1⟩]
        else []
      | none => []
    | .vocal_ears =>
      match getChannelForInstrument labels "vocals".data with
      | some ch =>
        if intTruthy ch then
          [⟨toMixOnCmd (ch - 1) 2 1, "Feed vocals to IEMs (mix 3)", 1⟩]
        else []
      | none => []
    | .aux_matrix =>
      match parseNumber ((m.grp 1).getD []) with
      | some aux =>
        if intTruthy aux && validateMix lim aux then
          [⟨"# set MIXER:Current/Mix/ToMatrix/On " ++ istr (aux - 1)
              ++ " 0 1",
            "Send aux " ++ istr aux ++ " to matrix output", 0.7⟩]
        else []
      | none => []
    | .track_wedge =>
      match parseNumber ((m.grp 1).getD []) with
      | some tr =>
        if intTruthy tr && validateChannel lim tr then
          [⟨toMixOnCmd (tr - 1) 0 1,
             "Feed track " ++ istr tr ++ " to wedge (mix 1)", 1⟩]
        else []
      | none => []
    | .onA | .offA | .level =>
      match parseNumber ((m.grp 1).getD []),
            parseNumber ((m.grp 2).getD []) with
      | some ch, some mix =>
        if intTruthy ch && intTruthy mix && validateChannel lim ch
            && validateMix lim mix then
          match p.act with
          | .onA =>
            [⟨toMixOnCmd (ch - 1) (mix - 1) 1,
               "Turn on channel " ++ istr ch ++ " send to mix "
                 ++ istr mix, 1⟩]
          | .offA =>
            [⟨toMixOnCmd (ch - 1) (mix - 1) 0,
               "Turn off channel " ++ istr ch ++ " send to mix "
                 ++ istr mix, 1⟩]
          | _ =>
            let levelText := if p.ng > 2 then m.grp 3 else none
            if grpTruthy levelText then
              match parseDbOpt lim levelText with
              | some v =>
                [⟨toMixOnCmd (ch - 1) (mix - 1) 1,
                   "Turn on channel " ++ istr ch ++ " send to mix "
                     ++ istr mix, 1⟩,
                 ⟨toMixLevelCmd (ch - 1) (mix - 1) v,
                   "Set channel " ++ istr ch ++ " send to mix "
                     ++ istr mix ++ " at " ++ fmt1 v ++ " dB", 1⟩]
              | none => []
            else []
        else []
      | _, _ => []

/-- process_send_to_mix: every row in order over the lower-cased
command, concatenating emissions (nothing here can raise). -/
def processSendToMix (lim : Limits) (labels : LabelTable)
    (command : Str) : List RCPCommand :=
  let cl := lowerS command
  (sendPatterns.map (sendStep lim labels cl)).flatten

/-! ### process_pan_commands (routing.py 463-592)

The source chooses the handling branch by substring tests on the
pattern SOURCE TEXT (the strings track, spread, center/centre and the
instrument names occurring in the regex text); each row below carries
the outcome of those tests: its branch and its hasCenter flag. -/

/-- Pan branch selected by the source's tests on the pattern text. -/
inductive PanBranch where
  | track | spread | instrA | standard
  deriving DecidableEq

/-- A pan pattern table row. -/
structure PanPat where
  re : RE
  branch : PanBranch
  hasCenter : Bool
  ng : Nat

/-- vocals?|vox|kick|snare|bass|guitar|keys . -/
def panInstAlt : RE :=
  alts [cats [l "vocal", .opt (l "s")], l "vox", l "kick", l "snare",
        l "bass", l "guitar", l "keys"]

/-- Pan row 1: pan or hard, left or right, channel digits. -/
def panRow1 : PanPat :=
  ⟨cats [alts [l "pan", l "hard"], ws1, alts [l "left", l "right"],
     ws1, l "channel", ws1, gd 1], .standard, false, 1⟩

/-- Pan row 2: optional pan, channel digits, optional to, free text. -/
def panRow2 : PanPat :=
  ⟨cats [.opt (cats [l "pan", ws1]), l "channel", ws1, gd 1, ws1,
     .opt (cats [l "to", ws1]), gAny 2], .standard, false, 2⟩

/-- Pan row 3: center or centre, channel digits. -/
def panRow3 : PanPat :=
  ⟨cats [alts [l "center", l "centre"], ws1, l "channel", ws1, gd 1],
   .standard, true, 1⟩

/-- Pan row 4: pan track word, optional hard, left or right. -/
def panRow4 : PanPat :=
  ⟨cats [l "pan", ws1, l "track", ws1, gw 1, ws1,
     .opt (cats [l "hard", ws1]), alts [l "left", l "right"]],
   .track, false, 1⟩

/-- Pan row 5: pan track word, optional to, free text. -/
def panRow5 : PanPat :=
  ⟨cats [l "pan", ws1, l "track", ws1, gw 1, ws1,
     .opt (cats [l "to", ws1]), gAny 2], .track, false, 2⟩

/-- Pan row 6: center or centre, track word. -/
def panRow6 : PanPat :=
  ⟨cats [alts [l "center", l "centre"], ws1, l "track", ws1, gw 1],
   .track, true, 1⟩

/-- Pan row 7: optional hard, left or right, on, named instrument. -/
def panRow7 : PanPat :=
  ⟨cats [.opt (cats [l "hard", ws1]),
     .group 1 (alts [l "left", l "right"]), ws1, l "on", ws1, optThe,
     .group 2 (alts [l "snare", l "guitar", l "piano", l "kick",
       l "bass"])], .instrA, false, 2⟩

/-- Pan row 8: pan, center or centre, instrument, free text (the
pattern text contains center, so the source always pans to 0 here). -/
def panRow8 : PanPat :=
  ⟨cats [alts [l "pan", l "center", l "centre"], ws1, optThe,
     .group 1 panInstAlt, ws1, .opt (cats [l "to", ws1]), gAny 2],
   .instrA, true, 2⟩

/-- Pan row 9: optional hard, direction word, instrument (again always
pans to 0, since the pattern text contains center). -/
def panRow9 : PanPat :=
  ⟨cats [.opt (cats [l "hard", ws1]),
     alts [l "left", l "right", l "center", l "centre"], ws1, optThe,
     .group 1 panInstAlt], .instrA, true, 1⟩

/-- Pan row 10: pan, piano or strings or horns, free text. -/
def panRow10 : PanPat :=
  ⟨cats [l "pan", ws1, optThe,
     .group 1 (alts [l "piano", l "strings", l "horns"]), ws1,
     .opt (cats [l "to", ws1]), gAny 2], .instrA, false, 2⟩

/-- Pan row 11: the spread idiom for the overheads. -/
def panRow11 : PanPat :=
  ⟨cats [l "spread", ws1, optThe,
     .group 1 (alts [l "overheads", l "overhead"])], .spread, false, 1⟩

/-- Pan row 12: optional hard, left or right, on, guitar or piano. -/
def panRow12 : PanPat :=
  ⟨cats [.opt (cats [l "hard", ws1]),
     .group 1 (alts [l "left", l "right"]), ws1, l "on", ws1,
     .group 2 (alts [l "guitar", l "piano"])], .instrA, false, 2⟩

/-- The pan pattern table, in source order.  Rows 8 and 9 contain the
text center/centre inside the pattern, so the source's test sets their
pan value to 0 regardless of the uttered direction. -/
def panPatterns : List PanPat :=
  [panRow1, panRow2, panRow3, panRow4, panRow5, panRow6, panRow7,
   panRow8, panRow9, panRow10, panRow11, panRow12]

/-- Pan-position table scan: first phrase contained in the text. -/
def panLookup (panText : Str) : Option Int :=
  (panPositions.find? (fun q => containsSub panText q.1)).map Prod.snd

/-- Final shared emission: channel truthy, pan value present, channel
validated. -/
def panFinal (lim : Limits) (ch : Option Int) (pv : Option Int) :
    List RCPCommand :=
  match ch, pv with
  | some c, some v =>
    if intTruthy c && validateChannel lim c then
      [⟨panCmd (c - 1) v, "Pan channel " ++ istr c ++ " to " ++ istr v,
        1⟩]
    else []
  | _, _ => []

/-- One row of the pan loop. -/
def panStep (lim : Limits) (labels : LabelTable) (cl : Str)
    (p : PanPat) : List RCPCommand :=
  match reSearch p.re cl with
  | none => []
  | some m =>
    match p.branch with
    | .track =>
      let ch := parseNumber ((m.grp 1).getD [])
      let pv : Option Int :=
        if p.hasCenter then some 0
        else if p.ng > 1 && grpTruthy (m.grp 2) then
          panLookup (lowerS ((m.grp 2).getD []))
        else if containsSub cl "hard right".data then some 63
        else if containsSub cl "right".data then some 32
        else if containsSub cl "hard left".data then some (-63)
        else if containsSub cl "left".data then some (-32)
        else none
      panFinal lim ch pv
    | .spread =>
      let instrument := if p.ng > 0 then (m.grp 1).getD []
                        else "overheads".data
      match getChannelForInstrument labels instrument with
      | some ch =>
        if intTruthy ch then
          [⟨panCmd (ch - 1) (-32),
             "Pan " ++ String.mk instrument ++ " left (stereo spread)",
             1⟩]
          ++ (if ch < 40 then
                [⟨panCmd ch 32,
                   "Pan " ++ String.mk instrument
                     ++ " right (stereo spread)", 1⟩]
              else [])
        else []
      | none => []
    | .instrA =>
      let inst0 := if p.ng > 0 then m.grp 1 else none
      let instrument : Option Str :=
        if grpTruthy inst0 then inst0
        else (["vocals", "vox", "kick", "snare", "bass", "guitar",
               "keys", "piano"].map String.data).find?
          (fun i => containsSub cl i)
      match instrument with
      | none => []
      | some inst =>
        let ch := getChannelForInstrument labels inst
        let pv : Option Int :=
          if p.hasCenter then some 0
          else if containsSub cl "hard left".data then some (-63)
          else if containsSub cl "hard right".data then some 63
          else if containsSub cl "left".data then some (-32)
          else if containsSub cl "right".data then some 32
          else if p.ng > 1 && grpTruthy (m.grp 2) then
            panLookup (lowerS ((m.grp 2).getD []))
          else none
        panFinal lim ch pv
    | .standard =>
      if p.hasCenter then
        panFinal lim (parseNumber ((m.grp 1).getD [])) (some 0)
      else
        let ch := parseNumber ((m.grp 1).getD [])
        let panText := if p.ng > 1 then
            (if grpTruthy (m.grp 2) then lowerS ((m.grp 2).getD [])
             else cl)
          else cl
        panFinal lim ch (panLookup panText)

/-- process_pan_commands: every row in order over the lower-cased
command. -/
def processPanCommands (lim : Limits) (labels : LabelTable)
    (command : Str) : List RCPCommand :=
  let cl := lowerS command
  (panPatterns.map (panStep lim labels cl)).flatten

/-! ### process_effects_commands (effects.py 48-281)

The first eq_patterns binding in the source is immediately shadowed by
the second and is dead; only the live tables are embedded.  The raw
(not lower-cased) command is consulted for the hall/plate, band and
boost/cut keyword checks, exactly as the source does. -/

/-- Action tags of the live effects pattern tables. -/
inductive EffAct where
  | reverb_instrument | reverb_channel | reverb_type_instrument
  | reverb_type_channel | reverb_to_instrument | hall_reverb_to
  | plate_reverb_to
  | delay_instrument | delay_channel | slapback_instrument
  | slapback_channel | send_to_delay | slapback_on
  | compress_instrument | limit_instrument
  | eq_instrument | eq_channel | hpf_instrument | hpf_channel
  | notch_instrument
  deriving DecidableEq

/-- Effect family of the table a row belongs to. -/
inductive EffType where
  | reverb | delay | compression | eq
  deriving DecidableEq

/-- An effects pattern table row. -/
structure EffPat where
  re : RE
  act : EffAct
  ty : EffType

/-- vocals?|vox|instruments? . -/
def effVoxInst : RE :=
  alts [cats [l "vocal", .opt (l "s")], l "vox",
        cats [l "instrument", .opt (l "s")]]

/-- The effects pattern tables flattened in source traversal order
(reverb, delay, compression, eq). -/
def effPatterns : List EffPat :=
  [⟨cats [alts [l "add", l "send", l "give"], ws1, optThe,
      .group 1 effVoxInst, ws1, .opt (cats [l "some", ws1]),
      alts [l "reverb", l "verb", l "rev"]], .reverb_instrument,
    .reverb⟩,
   ⟨cats [alts [l "add", l "send", l "give"], ws1, l "channel", ws1,
      gd 1, ws1, .opt (cats [l "some", ws1]),
      alts [l "reverb", l "verb", l "rev"]], .reverb_channel, .reverb⟩,
   ⟨cats [alts [l "reverb", l "verb", l "rev"], ws1,
      .opt (cats [l "on", ws1]), optThe, .group 1 effVoxInst],
    .reverb_instrument, .reverb⟩,
   ⟨cats [alts [l "reverb", l "verb", l "rev"], ws1,
      .opt (cats [l "on", ws1]), l "channel", ws1, gd 1],
    .reverb_channel, .reverb⟩,
   ⟨cats [alts [l "hall", l "plate", l "room", l "chamber"], ws1,
      .opt (cats [l "reverb", ws1]), .opt (cats [l "on", ws1]), optThe,
      .group 1 (alts [cats [l "vocal", .opt (l "s")], l "vox"])],
    .reverb_type_instrument, .reverb⟩,
   ⟨cats [alts [l "hall", l "plate", l "room", l "chamber"], ws1,
      .opt (cats [l "reverb", ws1]), .opt (cats [l "on", ws1]),
      l "channel", ws1, gd 1], .reverb_type_channel, .reverb⟩,
   ⟨cats [l "add", ws1, l "reverb", ws1, l "to", ws1,
      .group 1 (alts [cats [l "vocal", .opt (l "s")], l "vox"])],
    .reverb_to_instrument, .reverb⟩,
   ⟨cats [l "add", ws1, l "hall", ws1, l "reverb", ws1, l "to", ws1,
      .group 1 (cats [l "string", .opt (l "s")])], .hall_reverb_to,
    .reverb⟩,
   ⟨cats [l "add", ws1, l "plate", ws1, l "reverb", ws1, l "to", ws1,
      .group 1 (l "piano")], .plate_reverb_to, .reverb⟩,
   ⟨cats [alts [l "add", l "send", l "give"], ws1, optThe,
      .group 1 (alts [cats [l "vocal", .opt (l "s")], l "vox",
        l "guitar", l "gtr"]), ws1, .opt (cats [l "some", ws1]),
      alts [l "delay", l "echo"]], .delay_instrument, .delay⟩,
   ⟨cats [alts [l "add", l "send", l "give"], ws1, l "channel", ws1,
      gd 1, ws1, .opt (cats [l "some", ws1]),
      alts [l "delay", l "echo"]], .delay_channel, .delay⟩,
   ⟨cats [alts [l "slapback", l "slap"], ws1,
      .opt (cats [l "delay", ws1]), .opt (cats [l "on", ws1]), optThe,
      .group 1 (alts [cats [l "vocal", .opt (l "s")], l "vox"])],
    .slapback_instrument, .delay⟩,
   ⟨cats [alts [l "slapback", l "slap"], ws1,
      .opt (cats [l "delay", ws1]), .opt (cats [l "on", ws1]),
      l "channel", ws1, gd 1], .slapback_channel, .delay⟩,
   ⟨cats [l "send", ws1, optThe, .group 1 (l "guitar"), ws1, l "to",
      ws1, l "delay"], .send_to_delay, .delay⟩,
   ⟨cats [l "slapback", ws1, l "delay", ws1, l "on", ws1,
      .group 1 (l "vocal")], .slapback_on, .delay⟩,
   ⟨cats [alts [l "compress", l "comp"], ws1, optThe,
      .group 1 (alts [cats [l "vocal", .opt (l "s")], l "vox", l "bass",
        l "kick", l "snare"])], .compress_instrument, .compression⟩,
   ⟨cats [l "limit", ws1, optThe,
      .group 1 (cats [l "lead", ws1, l "vocal"])], .limit_instrument,
    .compression⟩,
   ⟨cats [alts [l "boost", l "cut"], ws1, optThe,
      .group 1 (alts [l "bass", l "low", cats [l "mid", .opt (l "s")],
        cats [l "high", .opt (l "s")], l "treble"]), ws1,
      .opt (cats [l "on", ws1]), optThe,
      .group 2 (alts [cats [l "vocal", .opt (l "s")], l "kick",
        l "snare"])], .eq_instrument, .eq⟩,
   ⟨cats [alts [l "boost", l "cut"], ws1, optThe,
      .group 1 (alts [l "bass", l "low", cats [l "mid", .opt (l "s")],
        cats [l "high", .opt (l "s")], l "treble"]), ws1,
      .opt (cats [l "on", ws1]), l "channel", ws1, gd 2], .eq_channel,
    .eq⟩,
   ⟨cats [alts [cats [l "high", ws1, l "pass"], l "hpf",
      cats [l "low", ws1, l "cut"]], ws1, optThe, .group 1 effVoxInst],
    .hpf_instrument, .eq⟩,
   ⟨cats [alts [cats [l "high", ws1, l "pass"], l "hpf",
      cats [l "low", ws1, l "cut"]], ws1, l "channel", ws1, gd 1],
    .hpf_channel, .eq⟩,
   ⟨cats [alts [l "notch", l "cut"], ws1, optThe,
      alts [l "feedback", l "ringing"], ws1, .opt (cats [l "on", ws1]),
      optThe, .group 1 (alts [cats [l "vocal", .opt (l "s")],
        cats [l "monitor", .opt (l "s")]])], .notch_instrument, .eq⟩]

/-- Reverb type inferred from the raw command (case-sensitive substring
checks, as in the source). -/
def reverbTypeOf (command : Str) : String :=
  if containsSub command "hall".data then "hall"
  else if containsSub command "plate".data then "plate"
  else "room"

/-- Band and boost/cut inferred from the raw command. -/
def eqBandOf (command : Str) : String :=
  if containsSub command "bass".data then "bass"
  else if containsSub command "mid".data then "mids"
  else "highs"

/-- boost if the raw command mentions boost, else cut. -/
def eqActionOf (command : Str) : String :=
  if containsSub command "boost".data then "boost" else "cut"

/-- One row of the effects loop; command is the raw command (for the
case-sensitive keyword checks) and cl its lower-cased copy. -/
def effStep (lim : Limits) (labels : LabelTable) (command cl : Str)
    (p : EffPat) : List RCPCommand :=
  match reSearch p.re cl with
  | none => []
  | some m =>
    match p.act with
    | .reverb_to_instrument | .hall_reverb_to | .plate_reverb_to =>
      let instrument := (m.grp 1).getD []
      match getChannelForInstrument labels instrument with
      | some ch =>
        if intTruthy ch then
          let rt := match p.act with
            | .hall_reverb_to => "hall"
            | .plate_reverb_to => "plate"
            | _ => "reverb"
          [⟨"# set MIXER:Current/InCh/Insert/Type " ++ istr (ch - 1)
              ++ " 0 " ++ rt ++ "_reverb",
            "Add " ++ rt ++ " reverb to " ++ String.mk instrument,
            0.8⟩]
        else []
      | none => []
    | .send_to_delay | .slapback_on =>
      let instrument := (m.grp 1).getD []
      match getChannelForInstrument labels instrument with
      | some ch =>
        if intTruthy ch then
          let dt := if p.act = .slapback_on then "slapback" else "delay"
          [⟨"# set MIXER:Current/InCh/Insert/Type " ++ istr (ch - 1)
              ++ " 0 " ++ dt ++ "_delay",
            "Send " ++ String.mk instrument ++ " to " ++ dt, 0.8⟩]
        else []
      | none => []
    | .limit_instrument =>
      let instrument := (m.grp 1).getD []
      match getChannelForInstrument labels instrument with
      | some ch =>
        if intTruthy ch then
          [⟨"# set MIXER:Current/InCh/Dynamics/"
              ++ String.mk (pyTitle "limiter".data) ++ "/On "
              ++ istr (ch - 1) ++ " 0 1",
            "Apply " ++ String.mk (replaceAll "limiter".data "_".data
              " ".data) ++ " to " ++ String.mk instrument, 0.8⟩]
        else []
      | none => []
    | .hpf_instrument =>
      let instrument := (m.grp 1).getD []
      match getChannelForInstrument labels instrument with
      | some ch =>
        if intTruthy ch then
          [⟨"# set MIXER:Current/InCh/EQ/HPF/On " ++ istr (ch - 1)
              ++ " 0 1",
            "High-pass filter " ++ String.mk instrument, 0.8⟩]
        else []
      | none => []
    | .reverb_instrument | .reverb_type_instrument | .delay_instrument
    | .slapback_instrument | .compress_instrument | .eq_instrument
    | .notch_instrument =>
      let instrument := (m.grp 1).getD []
      match getChannelForInstrument labels instrument with
      | none => []
      | some ch =>
        if intTruthy ch then
          match p.ty with
          | .reverb =>
            if p.act = .reverb_type_instrument then
              let rt := reverbTypeOf command
              [⟨"# set MIXER:Current/InCh/Insert/Type " ++ istr (ch - 1)
                  ++ " 0 " ++ rt ++ "_reverb",
                "Add " ++ rt ++ " reverb to " ++ String.mk instrument,
                0.7⟩]
            else
              [⟨"# Send " ++ String.mk instrument ++ " to reverb effect",
                "Add reverb to " ++ String.mk instrument, 0.8⟩]
          | .delay =>
            if p.act = .slapback_instrument then
              [⟨"# set MIXER:Current/InCh/Insert/Type " ++ istr (ch - 1)
                  ++ " 0 slapback_delay",
                "Add slapback delay to " ++ String.mk instrument, 0.7⟩]
            else
              [⟨"# Send " ++ String.mk instrument ++ " to delay effect",
                "Add delay to " ++ String.mk instrument, 0.8⟩]
          | .compression =>
            [⟨"# set MIXER:Current/InCh/Dynamics/Compressor/On "
                ++ istr (ch - 1) ++ " 0 1",
              "Compress " ++ String.mk instrument, 0.8⟩]
          | .eq =>
            if p.act = .notch_instrument then
              [⟨"# Notch filter for feedback on "
                  ++ String.mk instrument,
                "Notch filter " ++ String.mk instrument
                  ++ " for feedback", 0.6⟩]
            else
              let t := String.mk (pyTitle (eqActionOf command).data)
              [⟨"# " ++ t ++ " " ++ eqBandOf command ++ " on "
                  ++ String.mk instrument,
                t ++ " " ++ eqBandOf command ++ " on "
                  ++ String.mk instrument, 0.7⟩]
        else []
    | .reverb_channel | .reverb_type_channel | .delay_channel
    | .slapback_channel | .eq_channel | .hpf_channel =>
      let g := if p.act = .eq_channel then m.grp 2 else m.grp 1
      match parseNumber (g.getD []) with
      | none => []
      | some ch =>
        if intTruthy ch && validateChannel lim ch then
          match p.ty with
          | .reverb =>
            [⟨"# Send channel " ++ istr ch ++ " to reverb effect",
              "Add reverb to channel " ++ istr ch, 0.8⟩]
          | .delay =>
            [⟨"# Send channel " ++ istr ch ++ " to delay effect",
              "Add delay to channel " ++ istr ch, 0.8⟩]
          | .compression =>
            [⟨"# set MIXER:Current/InCh/Dynamics/Compressor/On "
                ++ istr (ch - 1) ++ " 0 1",
              "Compress channel " ++ istr ch, 0.8⟩]
          | .eq =>
            if p.act = .hpf_channel then
              [⟨"# set MIXER:Current/InCh/EQ/HPF/On " ++ istr (ch - 1)
                  ++ " 0 1",
                "High-pass filter channel " ++ istr ch, 0.8⟩]
            else
              let t := String.mk (pyTitle (eqActionOf command).data)
              [⟨"# " ++ t ++ " " ++ eqBandOf command ++ " on channel "
                  ++ istr ch,
                t ++ " " ++ eqBandOf command ++ " on channel "
                  ++ istr ch, 0.7⟩]
        else []

/-- process_effects_commands: every live row in table order. -/
def processEffectsCommands (lim : Limits) (labels : LabelTable)
    (command : Str) : List RCPCommand :=
  let cl := lowerS command
  (effPatterns.map (effStep lim labels command cl)).flatten

/-! ### process_dynamics_commands (effects.py 283-360) -/

/-- Action tags of the dynamics tables. -/
inductive DynAct where
  | gate_instrument | gate_channel | comp_ratio_instrument
  | comp_ratio_channel | comp_attack_instrument
  deriving DecidableEq

/-- A dynamics pattern table row. -/
structure DynPat where
  re : RE
  act : DynAct

/-- The dynamics pattern tables (gate then compressor parameters), in
source order. -/
def dynPatterns : List DynPat :=
  [⟨cats [alts [l "gate", cats [l "noise", ws1, l "gate"]], ws1, optThe,
      .group 1 (alts [l "kick", l "snare",
        cats [l "tom", .opt (l "s")]])], .gate_instrument⟩,
   ⟨cats [alts [l "gate", cats [l "noise", ws1, l "gate"]], ws1,
      l "channel", ws1, gd 1], .gate_channel⟩,
   ⟨cats [.opt (cats [l "set", ws1]), alts [l "comp", l "compressor"],
      ws1, .opt (cats [l "ratio", ws1]), .opt (cats [l "to", ws1]),
      gd 1, .opt (l ":1"), ws1, .opt (cats [l "on", ws1]), optThe,
      .group 2 (alts [cats [l "vocal", .opt (l "s")], l "bass"])],
    .comp_ratio_instrument⟩,
   ⟨cats [.opt (cats [l "set", ws1]), alts [l "comp", l "compressor"],
      ws1, .opt (cats [l "ratio", ws1]), .opt (cats [l "to", ws1]),
      gd 1, .opt (l ":1"), ws1, .opt (cats [l "on", ws1]), l "channel",
      ws1, gd 2], .comp_ratio_channel⟩,
   ⟨cats [alts [l "fast", l "slow"], ws1,
      alts [l "attack", cats [l "comp", ws1, l "attack"]], ws1,
      .opt (cats [l "on", ws1]), optThe,
      .group 1 (alts [cats [l "vocal", .opt (l "s")], l "drums"])],
    .comp_attack_instrument⟩]

/-- One row of the dynamics loop; command is the raw command (for the
fast/slow check). -/
def dynStep (lim : Limits) (labels : LabelTable) (command cl : Str)
    (p : DynPat) : List RCPCommand :=
  match reSearch p.re cl with
  | none => []
  | some m =>
    match p.act with
    | .gate_instrument =>
      let instrument := (m.grp 1).getD []
      match getChannelForInstrument labels instrument with
      | some ch =>
        if intTruthy ch then
          [⟨"# set MIXER:Current/InCh/Dynamics/Gate/On " ++ istr (ch - 1)
              ++ " 0 1", "Gate " ++ String.mk instrument, 0.8⟩]
        else []
      | none => []
    | .comp_ratio_instrument =>
      let ratio := (m.grp 1).getD []
      let instrument := (m.grp 2).getD []
      match getChannelForInstrument labels instrument with
      | some ch =>
        if intTruthy ch then
          [⟨"# set MIXER:Current/InCh/Dynamics/Compressor/Ratio "
              ++ istr (ch - 1) ++ " 0 " ++ String.mk ratio ++ "00",
            "Set " ++ String.mk instrument ++ " compression ratio to "
              ++ String.mk ratio ++ ":1", 0.7⟩]
        else []
      | none => []
    | .comp_attack_instrument =>
      let instrument := (m.grp 1).getD []
      match getChannelForInstrument labels instrument with
      | some ch =>
        if intTruthy ch then
          let fast := containsSub command "fast".data
          [⟨"# set MIXER:Current/InCh/Dynamics/Compressor/Attack "
              ++ istr (ch - 1) ++ " 0 "
              ++ (if fast then "1" else "50"),
            "Set " ++ String.mk instrument
              ++ " compression attack to "
              ++ (if fast then "fast" else "slow"), 0.7⟩]
        else []
      | none => []
    | .gate_channel =>
      match parseNumber ((m.grp 1).getD []) with
      | some ch =>
        if intTruthy ch && validateChannel lim ch then
          [⟨"# set MIXER:Current/InCh/Dynamics/Gate/On " ++ istr (ch - 1)
              ++ " 0 1", "Gate channel " ++ istr ch, 0.8⟩]
        else []
      | none => []
    | .comp_ratio_channel =>
      let ratio := (m.grp 1).getD []
      match parseNumber ((m.grp 2).getD []) with
      | some ch =>
        if intTruthy ch && validateChannel lim ch then
          [⟨"# set MIXER:Current/InCh/Dynamics/Compressor/Ratio "
              ++ istr (ch - 1) ++ " 0 " ++ String.mk ratio ++ "00",
            "Set channel " ++ istr ch ++ " compression ratio to "
              ++ String.mk ratio ++ ":1", 0.7⟩]
        else []
      | none => []

/-- process_dynamics_commands. -/
def processDynamicsCommands (lim : Limits) (labels : LabelTable)
    (command : Str) : List RCPCommand :=
  let cl := lowerS command
  (dynPatterns.map (dynStep lim labels command cl)).flatten

/-! ### process_scene_recall (engine.py 91-131) -/

/-- Python format {n:02d} for a non-negative scene number. -/
def sceneStr (n : Int) : String :=
  if n < 10 then "0" ++ istr n else istr n

/-- The scene pattern table, in source order. -/
def scenePatterns : List RE :=
  [cats [alts [l "recall", l "load", cats [l "go", ws1, l "to"],
      cats [l "switch", ws1, l "to"], cats [l "call", ws1, l "up"]],
    ws1, alts [l "scene", l "preset", l "snapshot", l "memory"], ws1,
    gw 1],
   cats [alts [l "scene", l "preset", l "snapshot", l "memory"], ws1,
    gw 1],
   cats [alts [l "bank", cats [l "scene", ws1, l "bank"]], ws1, gw 1],
   cats [alts [l "store", l "save"], ws1, alts [l "scene", l "preset"],
    ws1, gw 1],
   cats [alts [l "copy", l "duplicate"], ws1,
    alts [l "scene", l "preset"], ws1, gw 1],
   cats [cats [l "go", ws1, l "to"], ws1, l "scene", ws1, gw 1],
   cats [cats [l "scene", ws1, l "change"], ws1, gw 1]]

/-- One row of the scene loop: resolve and validate the scene number,
then emit a store, copy, or recall line depending on keywords anywhere
in the lower-cased command. -/
def sceneStep (lim : Limits) (cl : Str) (p : RE) : List RCPCommand :=
  match reSearch p cl with
  | none => []
  | some m =>
    match parseNumber ((m.grp 1).getD []) with
    | some n =>
      if intTruthy n && validateScene lim n then
        if containsSub cl "store".data || containsSub cl "save".data then
          [⟨"ssstore scene_" ++ sceneStr n,
            "Store current settings to scene " ++ istr n, 0.9⟩]
        else if containsSub cl "copy".data then
          [⟨"# Copy scene " ++ istr n ++ " operations",
            "Copy scene " ++ istr n, 0.8⟩]
        else
          [⟨"ssrecall_ex scene_" ++ sceneStr n,
            "Recall scene " ++ istr n, 1⟩]
      else []
    | none => []

/-- process_scene_recall. -/
def processSceneRecall (lim : Limits) (command : Str) :
    List RCPCommand :=
  let cl := lowerS command
  (scenePatterns.map (sceneStep lim cl)).flatten

/-! ### process_dca_commands (engine.py 133-212) -/

/-- Action tags of the DCA fader table. -/
inductive DcaAct where
  | level | relative | up | down | hot
  deriving DecidableEq

/-- dca|vca|group . -/
def dcaWords : RE := alts [l "dca", l "vca", l "group"]

/-- The DCA fader pattern table, in source order.  The relative row has
no handler branch in the source and emits nothing. -/
def dcaFaderPatterns : List (RE × DcaAct) :=
  [(cats [.opt (cats [l "set", ws1]), dcaWords, ws1, gd 1, ws1,
      alts [l "to", l "at"], ws1, gAny 2], .level),
   (cats [dcaWords, ws1, gd 1, ws1, alts [l "up", l "down"], ws1, gd 2],
    .relative),
   (cats [alts [cats [l "bring", ws1, l "up"],
      cats [l "pull", ws1, l "up"]], ws1, dcaWords, ws1, gd 1], .up),
   (cats [alts [cats [l "bring", ws1, l "down"],
      cats [l "pull", ws1, l "down"]], ws1, dcaWords, ws1, gd 1], .down),
   (cats [dcaWords, ws1, gd 1, ws1,
      alts [l "hot", l "loud", l "cooking"]], .hot)]

/-- The DCA mute pattern table with its states. -/
def dcaMutePatterns : List (RE × Int) :=
  [(cats [alts [l "mute", l "kill", cats [l "turn", ws1, l "off"]], ws1,
      dcaWords, ws1, gd 1], 0),
   (cats [alts [l "unmute", l "restore", cats [l "turn", ws1, l "on"]],
      ws1, dcaWords, ws1, gd 1], 1)]

/-- The DCA label pattern. -/
def dcaLabelPattern : RE :=
  cats [alts [l "name", l "label"], ws1, dcaWords, ws1, gd 1, ws1,
    gAny 2]

/-- One row of the DCA fader loop. -/
def dcaFaderStep (lim : Limits) (cl : Str) (p : RE × DcaAct) :
    List RCPCommand :=
  match reSearch p.1 cl with
  | none => []
  | some m =>
    match parseNumber ((m.grp 1).getD []) with
    | some n =>
      if intTruthy n && validateDca lim n then
        let idx := n - 1
        match p.2 with
        | .level =>
          match parseDbOpt lim (m.grp 2) with
          | some v => [⟨dcaLevelCmd idx v,
              "Set DCA " ++ istr n ++ " to " ++ fmt1 v ++ " dB", 1⟩]
          | none => []
        | .up => [⟨dcaLevelCmd idx 300,
            "Bring up DCA " ++ istr n ++ " (+3.0 dB)", 1⟩]
        | .down => [⟨dcaLevelCmd idx (-600),
            "Bring down DCA " ++ istr n ++ " (-6.0 dB)", 1⟩]
        | .hot => [⟨dcaLevelCmd idx 500,
            "Push DCA " ++ istr n ++ " hot (+5.0 dB)", 1⟩]
        | .relative => []
      else []
    | none => []

/-- One row of the DCA mute loop. -/
def dcaMuteStep (lim : Limits) (cl : Str) (p : RE × Int) :
    List RCPCommand :=
  match reSearch p.1 cl with
  | none => []
  | some m =>
    match parseNumber ((m.grp 1).getD []) with
    | some n =>
      if intTruthy n && validateDca lim n then
        [⟨dcaOnCmd (n - 1) p.2,
          (if p.2 = 1 then "Unmute" else "Mute") ++ " DCA " ++ istr n,
          1⟩]
      else []
    | none => []

/-- The DCA label row: on a validated match, store the cleaned label
and emit the label-set line. -/
def dcaLabelStep (lim : Limits) (cl : Str) (dcaLabels : LabelTable) :
    List RCPCommand × LabelTable :=
  match reSearch dcaLabelPattern cl with
  | none => ([], dcaLabels)
  | some m =>
    match parseNumber ((m.grp 1).getD []) with
    | some n =>
      if intTruthy n && validateDca lim n then
        let label := stripQuotes (stripS ((m.grp 2).getD []))
        ([⟨dcaLabelCmd (n - 1) label,
            "Set DCA " ++ istr n ++ " label to " ++ "'"
              ++ String.mk label ++ "'", 1⟩],
         dictAssign dcaLabels (lowerS label) n)
      else ([], dcaLabels)
    | none => ([], dcaLabels)

/-- process_dca_commands: fader rows, mute rows, then the label row,
threading the DCA label table. -/
def processDcaCommands (lim : Limits) (dcaLabels : LabelTable)
    (command : Str) : List RCPCommand × LabelTable :=
  let cl := lowerS command
  let r1 := (dcaFaderPatterns.map (dcaFaderStep lim cl)).flatten
  let r2 := (dcaMutePatterns.map (dcaMuteStep lim cl)).flatten
  let (r3, dl) := dcaLabelStep lim cl dcaLabels
  (r1 ++ r2 ++ r3, dl)

/-! ### Engine state and process_context_aware (engine.py 214-242) -/

/-- The engine's session state: the channel label table (owned by the
channel processor) and the DCA label table (owned by the engine). -/
structure EngineState where
  channelLabels : LabelTable
  dcaLabels : LabelTable
  deriving DecidableEq

/-- A fresh engine (both label tables empty). -/
def initState : EngineState := ⟨[], []⟩

/-- The caught-exception view of a processor result (the coordinator
catches and logs, contributing no results on error). -/
def exceptList : Except Unit (List RCPCommand) → List RCPCommand
  | .ok r => r
  | .error _ => []

/-- Python str of an Int, as list of characters. -/
def istrL (n : Int) : Str := (istr n).data

/-- One channel-label iteration of process_context_aware: if the label
occurs in the command, rewrite it to channel N and run the fader, mute,
send and pan processors on the rewrite; a fader exception voids the
whole iteration (it is the first call in the try block). -/
def ctxChannelIter (lim : Limits) (labels : LabelTable) (cl : Str)
    (entry : Str × Int) : List RCPCommand :=
  if containsSub cl entry.1 then
    let modified := replaceAll cl entry.1
      ("channel ".data ++ istrL entry.2)
    match processChannelFader lim labels modified with
    | .error _ => []
    | .ok r1 =>
      r1 ++ processChannelMute lim labels modified
         ++ processSendToMix lim labels modified
         ++ processPanCommands lim labels modified
  else []

/-- process_context_aware: scan the stored channel labels, then the
stored DCA labels, rewriting occurrences and re-running the relevant
processors.  The DCA loop iterates the snapshot taken at entry while
process_dca_commands may update the table (the source mutates the dict
it iterates; the iteration here runs over the entry snapshot). -/
def processContextAware (lim : Limits) (st : EngineState)
    (command : Str) : List RCPCommand × EngineState :=
  let cl := lowerS command
  let chResults :=
    (st.channelLabels.map (ctxChannelIter lim st.channelLabels cl)).flatten
  let (dcaResults, dl) := st.dcaLabels.foldl
    (fun (acc : List RCPCommand × LabelTable) entry =>
      if containsSub cl entry.1 then
        let modified := replaceAll cl entry.1
          ("dca ".data ++ istrL entry.2)
        let (r, dl1) := processDcaCommands lim acc.2 modified
        (acc.1 ++ r, dl1)
      else acc)
    ([], st.dcaLabels)
  (chResults ++ dcaResults, { st with dcaLabels := dl })

/-! ### Compound-command machinery (engine.py 244-374) -/

/-- The conjunction patterns of is_compound_command, in source order. -/
def compoundConjunctions : List RE :=
  [cats [ws1, l "and", ws1],
   cats [ws1, l "then", ws1],
   cats [ws1, l "also", ws1],
   cats [l ",", ws0, .opt (cats [l "and", ws1]),
     .opt (cats [l "then", ws1])],
   cats [ws1, l "plus", ws1],
   cats [ws1, l "as", ws1, l "well", ws1, l "as", ws1]]

/-- is_compound_command: any conjunction matches the lower-cased
command. -/
def isCompoundCommand (command : Str) : Bool :=
  compoundConjunctions.any (fun p => (reSearch p (lowerS command)).isSome)

/-- The split patterns of split_compound_command, in source order. -/
def splitPatterns : List RE :=
  [cats [ws1, l "and", ws1, .opt (cats [l "then", ws1])],
   cats [ws1, l "then", ws1],
   cats [ws1, l "also", ws1],
   cats [l ",", ws0, .opt (cats [l "and", ws1]),
     .opt (cats [l "then", ws1])],
   cats [ws1, l "plus", ws1],
   cats [ws1, l "as", ws1, l "well", ws1, l "as", ws1]]

/-- split_compound_command: split on the first pattern that matches the
lower-cased command, stripping parts and dropping empties; without a
match the original command is returned whole. -/
def splitCompoundCommand (command : Str) : List Str :=
  let cl := lowerS command
  match splitPatterns.find? (fun p => (reSearch p cl).isSome) with
  | some p => ((reSplit p cl).map stripS).filter (fun s => s ≠ [])
  | none => [command]

/-- CompoundCommandContext extracted from the first clause. -/
structure PrimaryContext where
  channel : Option Str
  track : Option Str
  instrument : Option Str
  deriving DecidableEq

/-- Python truthiness of an optional string (None and empty falsy). -/
def strTruthy : Option Str → Bool
  | none => false
  | some [] => false
  | some (_ :: _) => true

/-- extract_primary_context: channel number, track number, and
labeling-command instrument name from the first clause. -/
def extractPrimaryContext (firstCommand : Str) : PrimaryContext :=
  let fc := lowerS firstCommand
  let chm := reSearch (cats [alts [l "channel", l "ch"], ws1, gw 1]) fc
  let trm := reSearch (cats [alts [l "track", l "trk"], ws1, gw 1]) fc
  let lbm := reSearch (cats [alts [l "label", l "name", l "call"], ws1,
    alts [l "channel", l "track"], ws1, .plusCls pyWord, ws1,
    .opt (cats [l "as", ws1]),
    .group 1 (.plusCls (fun c => pyWord c || pySpace c))]) fc
  { channel := chm.bind (fun m => m.grp 1),
    track := trm.bind (fun m => m.grp 1),
    instrument := (lbm.bind (fun m => m.grp 1)).map stripS }

/-- Dict truthiness of the context (non-empty when any match fired). -/
def PrimaryContext.nonempty (c : PrimaryContext) : Bool :=
  c.channel.isSome || c.track.isSome || c.instrument.isSome

/-- substitute_pronouns: for each of it, that, this occurring in the
lower-cased command, replace its word-bounded occurrences with the
inherited channel, track, or instrument target.  Compound parts are
already lower-cased when this runs, so the IGNORECASE flag of the
source is immaterial. -/
def substitutePronouns (command : Str) (ctx : PrimaryContext) : Str :=
  let cl0 := lowerS command
  ["it".data, "that".data, "this".data].foldl
    (fun cmd pron =>
      if containsSub cl0 pron then
        let pat := cats [.wordB, .lit pron, .wordB]
        if strTruthy ctx.channel then
          reSub pat ("channel ".data ++ (ctx.channel.getD [])) cmd
        else if strTruthy ctx.track then
          reSub pat ("track ".data ++ (ctx.track.getD [])) cmd
        else if strTruthy ctx.instrument then
          reSub pat ("the ".data ++ (ctx.instrument.getD [])) cmd
        else cmd
      else cmd)
    command

/-- The anchored action-verb patterns of apply_context_inheritance. -/
def actionPatterns : List RE :=
  [alts [l "send", l "route", l "add", l "patch", l "feed"],
   alts [l "pan", l "center", l "centre"],
   alts [l "set", l "bring", l "pull", l "push"],
   alts [l "mute", l "unmute", l "solo"],
   alts [l "compress", l "limit", l "gate"],
   cats [alts [l "add", l "send"], ws1, alts [l "reverb", l "delay"]]]

/-- The inner loop of apply_context_inheritance: first matching action
pattern prepends the inherited target when one is truthy. -/
def applyActionPrefix (cl : Str) (ctx : PrimaryContext) (command : Str) :
    List RE → Str
  | [] => command
  | p :: rest =>
    if (reSearchStart p cl).isSome then
      if strTruthy ctx.channel then
        "channel ".data ++ (ctx.channel.getD []) ++ " ".data ++ command
      else if strTruthy ctx.track then
        "track ".data ++ (ctx.track.getD []) ++ " ".data ++ command
      else if strTruthy ctx.instrument then
        (ctx.instrument.getD []) ++ " ".data ++ command
      else applyActionPrefix cl ctx command rest
    else applyActionPrefix cl ctx command rest

/-- apply_context_inheritance: pronoun substitution, then, when the
clause still lacks an explicit channel/track reference and starts with
a recognized action verb, prepend the inherited target. -/
def applyContextInheritance (command : Str) (ctx : PrimaryContext) :
    Str :=
  let command := substitutePronouns command ctx
  let cl := lowerS command
  if (reSearch (cats [alts [l "channel", l "track", l "ch", l "trk"],
      ws1, .plusCls pyWord]) cl).isSome then
    command
  else
    applyActionPrefix cl ctx command actionPatterns

/-! ### Dispatch (engine.py 376-443) -/

/-- process_single_command: run the ten processors in the fixed order,
threading label-table state and catching per-processor exceptions (only
the fader processor can raise in this model). -/
def processSingleCommand (lim : Limits) (st : EngineState)
    (command : Str) : List RCPCommand × EngineState :=
  let r1 := exceptList (processChannelFader lim st.channelLabels command)
  let r2 := processChannelMute lim st.channelLabels command
  let (r3, chl1) := processChannelLabel lim st.channelLabels command
  let st1 : EngineState := { st with channelLabels := chl1 }
  let r4 := processSendToMix lim chl1 command
  let r5 := processPanCommands lim chl1 command
  let r6 := processSceneRecall lim command
  let (r7, dl1) := processDcaCommands lim st1.dcaLabels command
  let st2 : EngineState := { st1 with dcaLabels := dl1 }
  let r8 := processEffectsCommands lim chl1 command
  let r9 := processDynamicsCommands lim chl1 command
  let (r10, st3) := processContextAware lim st2 command
  (r1 ++ r2 ++ r3 ++ r4 ++ r5 ++ r6 ++ r7 ++ r8 ++ r9 ++ r10, st3)

/-- process_compound_command: split into clauses, extract the primary
context from the first, rewrite subsequent clauses by context
inheritance when the context is non-empty, and concatenate each
clause's single-command results (no deduplication on this path). -/
def processCompoundCommand (lim : Limits) (st : EngineState)
    (command : Str) : List RCPCommand × EngineState :=
  let parts := splitCompoundCommand command
  let ctx := extractPrimaryContext (parts.headD [])
  (parts.enum.foldl
    (fun (acc : List RCPCommand × EngineState) pi =>
      let part := if pi.1 > 0 && ctx.nonempty then
          applyContextInheritance pi.2 ctx
        else pi.2
      let (r, st1) := processSingleCommand lim acc.2 part
      (acc.1 ++ r, st1))
    ([], st))

/-- The final duplicate removal of process_command: a result is kept
only when its command string has not been seen earlier. -/
def dedup : List String → List RCPCommand → List RCPCommand
  | _, [] => []
  | seen, r :: t =>
    if r.command ∈ seen then dedup seen t
    else r :: dedup (r.command :: seen) t

/-- Deduplicate the result list of a processor run, keeping state. -/
def dedupPair (p : List RCPCommand × EngineState) :
    List RCPCommand × EngineState :=
  (dedup [] p.1, p.2)

/-- process_command: strip the input, reject oversize input with an
empty result, send compound commands through the compound path (which
returns without deduplication), and otherwise run the processor list
(the source lists the same ten processors of process_single_command
verbatim) followed by duplicate removal. -/
def processCommand (lim : Limits) (st : EngineState) (command : Str) :
    List RCPCommand × EngineState :=
  if (stripS command).length > lim.MAX_INPUT_LENGTH then ([], st)
  else if isCompoundCommand (stripS command) then
    processCompoundCommand lim st (stripS command)
  else
    dedupPair (processSingleCommand lim st (stripS command))

/-! ### Specification-side definitions used by the theorems below -/

/-- Lookup tier 1: direct hit of the lower-cased name in the label
table. -/
def lookupDirect (labels : LabelTable) (il : Str) : Option Int :=
  dictGet labels il

/-- Lookup tier 2: the alias table maps the name to a canonical form,
which is then looked up in the label table. -/
def lookupAlias (labels : LabelTable) (il : Str) : Option Int :=
  match dictGet instrumentAliases il with
  | some canon => dictGet labels (lowerS canon)
  | none => none

/-- Lookup tier 3: substring-containment match against the stored
labels, in insertion order, either string containing the other. -/
def lookupPartial (labels : LabelTable) (il : Str) : Option Int :=
  (labels.find? (fun p =>
    containsSub p.1 il || containsSub il p.1)).map Prod.snd

/-- Lookup tier 4: the static default instrument-to-channel table. -/
def lookupDefault (il : Str) : Option Int :=
  dictGet defaultInstrumentChannels il

/-- The dB keyword scan of parse_db_value, on its own. -/
def dbKeywordFind (text : Str) : Option (Str × Int) :=
  dbKeywords.find? (fun p => containsSub (lowerS text) p.1)

/-- Every stored label maps to a channel within [1, MAX_CHANNEL]; this
holds for every table reachable through process_channel_label, which
validates before storing. -/
def LabelsInRange (labels : LabelTable) : Prop :=
  ∀ q ∈ labels, 1 ≤ q.2 ∧ q.2 ≤ 40

/-- Channel bound of the engine configuration. -/
def chOK (n : Int) : Prop := 1 ≤ n ∧ n ≤ 40

/-- Mix bound of the engine configuration. -/
def mixOK (n : Int) : Prop := 1 ≤ n ∧ n ≤ 20

/-- The shapes a process_channel_fader result can take: each
constructor records the command and description templates applied to
one 1-based channel number n, with the 0-based embedded index written
n-1 and the bound the guards establish. -/
inductive FaderOut : RCPCommand → Prop where
  | setLvl (n v : Int) (h : chOK n) : FaderOut
      ⟨faderLevelCmd (n - 1) v,
       "Set channel " ++ istr n ++ " fader to " ++ fmt1 v ++ " dB", 1⟩
  | bringUp (n v : Int) (h : chOK n) : FaderOut
      ⟨faderLevelCmd (n - 1) v,
       "Bring up channel " ++ istr n ++ " to " ++ fmt1 v ++ " dB", 1⟩
  | bringDown (n v : Int) (h : chOK n) : FaderOut
      ⟨faderLevelCmd (n - 1) v,
       "Bring down channel " ++ istr n ++ " to " ++ fmt1 v ++ " dB", 1⟩
  | bumpUp (n v : Int) (h : chOK n) : FaderOut
      ⟨"# GET current level, then add " ++ fmt1 v ++ " dB",
       "Bump up channel " ++ istr n ++ " by " ++ fmt1 v ++ " dB", 0.8⟩
  | bumpDown (n v : Int) (h : chOK n) : FaderOut
      ⟨"# GET current level, then subtract " ++ fmt1 (absInt v) ++ " dB",
       "Bump down channel " ++ istr n ++ " by " ++ fmt1 (absInt v)
         ++ " dB", 0.8⟩
  | adjustSet (n v : Int) (h : chOK n) : FaderOut
      ⟨faderLevelCmd (n - 1) v,
       "Adjust channel " ++ istr n ++ " to " ++ fmt1 v ++ " dB", 1⟩
  | adjustMan (n : Int) (h : chOK n) : FaderOut
      ⟨"# Manual adjustment mode for channel " ++ istr n,
       "Ready to adjust channel " ++ istr n, 0.9⟩
  | gainSet (n v : Int) (h : chOK n) : FaderOut
      ⟨"# set MIXER:Current/InCh/Head/Gain " ++ istr (n - 1) ++ " 0 "
         ++ istr v,
       "Set channel " ++ istr n ++ " gain to " ++ fmt1 v ++ " dB", 0.7⟩
  | gainMan (n : Int) (h : chOK n) : FaderOut
      ⟨"# Adjust gain/trim for channel " ++ istr n,
       "Adjust gain on channel " ++ istr n, 0.7⟩
  | hotF (n : Int) (h : chOK n) : FaderOut
      ⟨faderLevelCmd (n - 1) 300,
       "Push channel " ++ istr n ++ " hot (+3.0 dB)", 1⟩
  | buryF (n : Int) (h : chOK n) : FaderOut
      ⟨faderLevelCmd (n - 1) (-1500),
       "Bury channel " ++ istr n ++ " (-15.0 dB)", 1⟩
  | quietF (n : Int) (h : chOK n) : FaderOut
      ⟨faderLevelCmd (n - 1) (-1000),
       "Pull channel " ++ istr n ++ " back (-10.0 dB)", 1⟩
  | crankTo (n v : Int) (h : chOK n) : FaderOut
      ⟨faderLevelCmd (n - 1) v,
       "Crank channel " ++ istr n ++ " to " ++ fmt1 v ++ " dB", 1⟩
  | crankHot (n : Int) (h : chOK n) : FaderOut
      ⟨faderLevelCmd (n - 1) 300,
       "Crank channel " ++ istr n ++ " hot (+3.0 dB)", 1⟩
  | instrLvl (n v : Int) (i : Str) (h : chOK n) : FaderOut
      ⟨faderLevelCmd (n - 1) v,
       "Set " ++ String.mk i ++ " to " ++ fmt1 v ++ " dB", 1⟩
  | relInc (n c : Int) (h : chOK n) : FaderOut
      ⟨"# GET current level first, then add " ++ istr c ++ " dB",
       "Increase channel " ++ istr n ++ " by " ++ istr c ++ " dB", 0.8⟩
  | relDec (n c : Int) (h : chOK n) : FaderOut
      ⟨"# GET current level first, then subtract " ++ istr c ++ " dB",
       "Decrease channel " ++ istr n ++ " by " ++ istr c ++ " dB", 0.8⟩
  | relUpF (n d : Int) (h : chOK n) : FaderOut
      ⟨"# GET current level first, then add " ++ istr d ++ " dB",
       "Track " ++ istr n ++ " up " ++ istr d ++ " dB", 0.9⟩
  | relDownF (n d : Int) (h : chOK n) : FaderOut
      ⟨"# GET current level first, then subtract " ++ istr d ++ " dB",
       "Track " ++ istr n ++ " down " ++ istr d ++ " dB", 0.9⟩
  | boostF (n d : Int) (h : chOK n) : FaderOut
      ⟨"# GET current level first, then add " ++ istr d ++ " dB",
       "Boost channel " ++ istr n ++ " by " ++ istr d ++ " dB", 0.9⟩
  | pullDownI (i : Str) (d : Int) : FaderOut
      ⟨"# GET current level first, then subtract " ++ istr d ++ " dB",
       "Pull " ++ String.mk i ++ " down " ++ istr d ++ " dB", 0.9⟩
  | vocalUpF (d : Int) : FaderOut
      ⟨"# GET current level first, then add " ++ istr d ++ " dB",
       "Vocal track up " ++ istr d ++ " dB", 0.9⟩
  | pushAct (i : Str) : FaderOut
      ⟨"# Manual adjustment mode for " ++ String.mk i,
       "Ready to push " ++ String.mk i ++ " fader", 0.8⟩
  | pushSlightF (n : Int) (h : chOK n) : FaderOut
      ⟨"# GET current level first, then add 2 dB",
       "Push track " ++ istr n ++ " slightly (+2 dB)", 0.8⟩
  | faderSetF (n v : Int) (h : chOK n) : FaderOut
      ⟨faderLevelCmd (n - 1) v,
       "Set fader " ++ istr n ++ " to " ++ fmt1 v ++ " dB", 1⟩
  | inputSetF (n v : Int) (h : chOK n) : FaderOut
      ⟨faderLevelCmd (n - 1) v,
       "Set input " ++ istr n ++ " to " ++ fmt1 v ++ " dB", 1⟩

/-- The shapes a process_send_to_mix result can take, with the bounds
the guards establish (channel numbers resolved through the instrument
tables carry the bound supplied by LabelsInRange; matrix and group
destinations have no configured limit and carry only non-zeroness). -/
inductive SendOut : RCPCommand → Prop where
  | turnOn (c m : Int) (hc : chOK c) (hm : mixOK m) : SendOut
      ⟨toMixOnCmd (c - 1) (m - 1) 1,
       "Turn on channel " ++ istr c ++ " send to mix " ++ istr m, 1⟩
  | turnOff (c m : Int) (hc : chOK c) (hm : mixOK m) : SendOut
      ⟨toMixOnCmd (c - 1) (m - 1) 0,
       "Turn off channel " ++ istr c ++ " send to mix " ++ istr m, 1⟩
  | levelSet (c m v : Int) (hc : chOK c) (hm : mixOK m) : SendOut
      ⟨toMixLevelCmd (c - 1) (m - 1) v,
       "Set channel " ++ istr c ++ " send to mix " ++ istr m ++ " at "
         ++ fmt1 v ++ " dB", 1⟩
  | instrOn (c m : Int) (i : Str) (hc : chOK c) (hm : mixOK m) : SendOut
      ⟨toMixOnCmd (c - 1) (m - 1) 1,
       "Send " ++ String.mk i ++ " to mix " ++ istr m, 1⟩
  | instrLevel (c m v : Int) (i : Str) (hc : chOK c) (hm : mixOK m) :
      SendOut
      ⟨toMixLevelCmd (c - 1) (m - 1) v,
       "Set " ++ String.mk i ++ " send to mix " ++ istr m ++ " at "
         ++ fmt1 v ++ " dB", 1⟩
  | perfMon (c m : Int) (i : Str) (perf : String) (hc : chOK c)
      (hm : mixOK m) : SendOut
      ⟨toMixOnCmd (c - 1) (m - 1) 1,
       "Add " ++ String.mk i ++ " to " ++ perf ++ "'" ++ "s monitor (mix "
         ++ istr m ++ ")", 1⟩
  | iemOn (c m : Int) (i : Str) (hc : chOK c) (hm : mixOK m) : SendOut
      ⟨toMixOnCmd (c - 1) (m - 1) 1,
       "Route " ++ String.mk i ++ " to IEM mix " ++ istr m, 1⟩
  | prePost (c m : Int) (b : Bool) (hc : chOK c) (hm : mixOK m) : SendOut
      ⟨"# set MIXER:Current/InCh/ToMix/PreOn " ++ istr (c - 1) ++ " "
         ++ istr (m - 1) ++ " " ++ (if b then "1" else "0"),
       "Set channel " ++ istr c ++ " to mix " ++ istr m ++ " "
         ++ (if b then "pre" else "post") ++ "-fader", 0.8⟩
  | matrixR (s d : Int) (hs : mixOK s) (hd : d ≠ 0) : SendOut
      ⟨"# set MIXER:Current/Mix/ToMatrix/On " ++ istr (s - 1) ++ " "
         ++ istr (d - 1) ++ " 1",
       "Route mix " ++ istr s ++ " to matrix " ++ istr d, 0.7⟩
  | groupR (c g : Int) (hc : chOK c) (hg : g ≠ 0) : SendOut
      ⟨"# set MIXER:Current/InCh/ToGroup/On " ++ istr (c - 1) ++ " "
         ++ istr (g - 1) ++ " 1",
       "Assign channel " ++ istr c ++ " to group " ++ istr g, 0.8⟩
  | slangOn (c : Int) (i : Str) (hc : chOK c) : SendOut
      ⟨toMixOnCmd (c - 1) 0 1,
       "Pump " ++ String.mk i ++ " into monitors (slang command)", 1⟩
  | slangLevel (c : Int) (i : Str) (hc : chOK c) : SendOut
      ⟨toMixLevelCmd (c - 1) 0 300,
       "Set " ++ String.mk i ++ " monitor send hot (+3.0 dB)", 1⟩
  | wordOn (c m : Int) (it ot : String) (hc : chOK c) (hm : mixOK m) :
      SendOut
      ⟨toMixOnCmd (c - 1) (m - 1) 1,
       "Send " ++ it ++ " " ++ istr c ++ " to " ++ ot ++ " " ++ istr m,
       1⟩
  | patchIntoOn (c m : Int) (hc : chOK c) (hm : mixOK m) : SendOut
      ⟨toMixOnCmd (c - 1) (m - 1) 1,
       "Patch channel " ++ istr c ++ " into wedge " ++ istr m, 1⟩
  | singerW (c : Int) (hc : chOK c) : SendOut
      ⟨toMixOnCmd (c - 1) 0 1,
       "Route vocals to singer" ++ "'" ++ "s wedge (mix 1)", 1⟩
  | inEarsOn (c : Int) (hc : chOK c) : SendOut
      ⟨toMixOnCmd (c - 1) 2 1,
       "Send track " ++ istr c ++ " to IEM mix 3", 1⟩
  | patchTrackOn (t m : Int) (ht : chOK t) (hm : mixOK m) : SendOut
      ⟨toMixOnCmd (t - 1) (m - 1) 1,
       "Patch track " ++ istr t ++ " into mix " ++ istr m, 1⟩
  | wedge1 (c : Int) (i : Str) (hc : chOK c) : SendOut
      ⟨toMixOnCmd (c - 1) 0 1,
       "Send " ++ String.mk i ++ " to wedge 1", 1⟩
  | wedge2 (c : Int) (i : Str) (hc : chOK c) : SendOut
      ⟨toMixOnCmd (c - 1) 1 1,
       "Send " ++ String.mk i ++ " to wedge 2", 1⟩
  | overheadsMon (c : Int) (hc : chOK c) : SendOut
      ⟨toMixOnCmd (c - 1) 0 1,
       "Route overheads to monitors (mix 1)", 1⟩
  | vocalEarsOn (c : Int) (hc : chOK c) : SendOut
      ⟨toMixOnCmd (c - 1) 2 1, "Feed vocals to IEMs (mix 3)", 1⟩
  | auxMatrixR (a : Int) (ha : mixOK a) : SendOut
      ⟨"# set MIXER:Current/Mix/ToMatrix/On " ++ istr (a - 1) ++ " 0 1",
       "Send aux " ++ istr a ++ " to matrix output", 0.7⟩
  | trackWedgeOn (t : Int) (ht : chOK t) : SendOut
      ⟨toMixOnCmd (t - 1) 0 1,
       "Feed track " ++ istr t ++ " to wedge (mix 1)", 1⟩

/-- The shapes a process_dca_commands result can take; every embedded
DCA index is n-1 for the validated 1-based n. -/
inductive DcaOut : RCPCommand → Prop where
  | level (n v : Int) (h : 1 ≤ n ∧ n ≤ 8) : DcaOut
      ⟨dcaLevelCmd (n - 1) v,
       "Set DCA " ++ istr n ++ " to " ++ fmt1 v ++ " dB", 1⟩
  | up (n : Int) (h : 1 ≤ n ∧ n ≤ 8) : DcaOut
      ⟨dcaLevelCmd (n - 1) 300,
       "Bring up DCA " ++ istr n ++ " (+3.0 dB)", 1⟩
  | down (n : Int) (h : 1 ≤ n ∧ n ≤ 8) : DcaOut
      ⟨dcaLevelCmd (n - 1) (-600),
       "Bring down DCA " ++ istr n ++ " (-6.0 dB)", 1⟩
  | hot (n : Int) (h : 1 ≤ n ∧ n ≤ 8) : DcaOut
      ⟨dcaLevelCmd (n - 1) 500,
       "Push DCA " ++ istr n ++ " hot (+5.0 dB)", 1⟩
  | muteD (n st : Int) (h : 1 ≤ n ∧ n ≤ 8) : DcaOut
      ⟨dcaOnCmd (n - 1) st,
       (if st = 1 then "Unmute" else "Mute") ++ " DCA " ++ istr n, 1⟩
  | labelD (n : Int) (lb : Str) (h : 1 ≤ n ∧ n ≤ 8) : DcaOut
      ⟨dcaLabelCmd (n - 1) lb,
       "Set DCA " ++ istr n ++ " label to " ++ "'" ++ String.mk lb
         ++ "'", 1⟩

/-- The enable-before-level pairing of a result list: any element whose
command is a ToMix level-set line (under some decomposition) has a
decomposition whose matching ToMix enable line is the immediately
preceding element. -/
def EnablePaired (lres : List RCPCommand) : Prop :=
  ∀ i r, lres.get? i = some r →
    (∃ c m v, r.command = toMixLevelCmd c m v) →
    ∃ c m v r1, r.command = toMixLevelCmd c m v ∧ 1 ≤ i ∧
      lres.get? (i - 1) = some r1 ∧ r1.command = toMixOnCmd c m 1

/-- Total continuations of the matcher. -/
def KTotal (k : Str → Option Char → Caps → Option (Str × Caps)) : Prop :=
  ∀ s p c, (k s p c).isSome

/-- The shapes a process_channel_mute result can take: every embedded
index is c-1 for the 1-based c named in the description, c validated
against MAX_CHANNEL on the numeric path and bounded by the stored-label
invariant on the instrument path. -/
inductive MuteOut : RCPCommand → Prop where
  | soloInstr (c : Int) (i : Str) (h : chOK c) : MuteOut
      ⟨"# set MIXER:Current/InCh/Solo " ++ istr (c - 1) ++ " 0 1",
       "Solo " ++ String.mk i ++ " (channel " ++ istr c ++ ")", 0.9⟩
  | soloCh (c : Int) (h : chOK c) : MuteOut
      ⟨"# set MIXER:Current/InCh/Solo " ++ istr (c - 1) ++ " 0 1",
       "Solo channel " ++ istr c, 0.9⟩
  | muteInstr (c st : Int) (i : Str) (h : chOK c) : MuteOut
      ⟨faderOnCmd (c - 1) st,
       (if st = 1 then "Unmute" else "Mute") ++ " " ++ String.mk i
         ++ " (channel " ++ istr c ++ ")", 1⟩
  | muteCh (c st : Int) (h : chOK c) : MuteOut
      ⟨faderOnCmd (c - 1) st,
       (if st = 1 then "Unmute" else "Mute") ++ " channel " ++ istr c,
       1⟩

/-- The shape a process_channel_label result takes: the embedded index
is c-1 for the validated 1-based c in the description. -/
inductive LabelOut : RCPCommand → Prop where
  | labelSet (c : Int) (lb : Str) (h : chOK c) : LabelOut
      ⟨chLabelCmd (c - 1) lb,
       "Set channel " ++ istr c ++ " label to " ++ "'"
         ++ String.mk lb ++ "'", 1⟩

/-- The shapes a process_pan_commands result can take.  The spread
branch's right-hand command embeds the raw index c for the adjacent
channel c+1 (no 1-based number is claimed in its description); the
guard c < 40 keeps that adjacent channel within MAX_CHANNEL. -/
inductive PanOut : RCPCommand → Prop where
  | panTo (c v : Int) (h : chOK c) : PanOut
      ⟨panCmd (c - 1) v,
       "Pan channel " ++ istr c ++ " to " ++ istr v, 1⟩
  | spreadL (c : Int) (i : Str) (h : chOK c) : PanOut
      ⟨panCmd (c - 1) (-32),
       "Pan " ++ String.mk i ++ " left (stereo spread)", 1⟩
  | spreadR (c : Int) (i : Str) (h : 1 ≤ c ∧ c < 40) : PanOut
      ⟨panCmd c 32,
       "Pan " ++ String.mk i ++ " right (stereo spread)", 1⟩

/-- The shapes a process_effects_commands result can take: indexed set
lines embed c-1 for the 1-based c; the #-text placeholder lines repeat
the 1-based wording of the description and embed no index field. -/
inductive EffOut : RCPCommand → Prop where
  | insertReverbI (c : Int) (i : Str) (rt : String) (q : ℚ)
      (h : chOK c) : EffOut
      ⟨"# set MIXER:Current/InCh/Insert/Type " ++ istr (c - 1)
         ++ " 0 " ++ rt ++ "_reverb",
       "Add " ++ rt ++ " reverb to " ++ String.mk i, q⟩
  | insertDelayI (c : Int) (i : Str) (dt : String) (h : chOK c) : EffOut
      ⟨"# set MIXER:Current/InCh/Insert/Type " ++ istr (c - 1)
         ++ " 0 " ++ dt ++ "_delay",
       "Send " ++ String.mk i ++ " to " ++ dt, 0.8⟩
  | slapbackI (c : Int) (i : Str) (h : chOK c) : EffOut
      ⟨"# set MIXER:Current/InCh/Insert/Type " ++ istr (c - 1)
         ++ " 0 slapback_delay",
       "Add slapback delay to " ++ String.mk i, 0.7⟩
  | limiterI (c : Int) (i : Str) (h : chOK c) : EffOut
      ⟨"# set MIXER:Current/InCh/Dynamics/"
         ++ String.mk (pyTitle "limiter".data) ++ "/On "
         ++ istr (c - 1) ++ " 0 1",
       "Apply " ++ String.mk (replaceAll "limiter".data "_".data
         " ".data) ++ " to " ++ String.mk i, 0.8⟩
  | hpfI (c : Int) (i : Str) (h : chOK c) : EffOut
      ⟨"# set MIXER:Current/InCh/EQ/HPF/On " ++ istr (c - 1) ++ " 0 1",
       "High-pass filter " ++ String.mk i, 0.8⟩
  | sendReverbTxt (i : Str) : EffOut
      ⟨"# Send " ++ String.mk i ++ " to reverb effect",
       "Add reverb to " ++ String.mk i, 0.8⟩
  | sendDelayTxt (i : Str) : EffOut
      ⟨"# Send " ++ String.mk i ++ " to delay effect",
       "Add delay to " ++ String.mk i, 0.8⟩
  | compressI (c : Int) (i : Str) (h : chOK c) : EffOut
      ⟨"# set MIXER:Current/InCh/Dynamics/Compressor/On "
         ++ istr (c - 1) ++ " 0 1",
       "Compress " ++ String.mk i, 0.8⟩
  | notchTxt (i : Str) : EffOut
      ⟨"# Notch filter for feedback on " ++ String.mk i,
       "Notch filter " ++ String.mk i ++ " for feedback", 0.6⟩
  | eqTxtI (i : Str) (t band : String) : EffOut
      ⟨"# " ++ t ++ " " ++ band ++ " on " ++ String.mk i,
       t ++ " " ++ band ++ " on " ++ String.mk i, 0.7⟩
  | revChannelTxt (c : Int) (h : chOK c) : EffOut
      ⟨"# Send channel " ++ istr c ++ " to reverb effect",
       "Add reverb to channel " ++ istr c, 0.8⟩
  | delayChannelTxt (c : Int) (h : chOK c) : EffOut
      ⟨"# Send channel " ++ istr c ++ " to delay effect",
       "Add delay to channel " ++ istr c, 0.8⟩
  | compressCh (c : Int) (h : chOK c) : EffOut
      ⟨"# set MIXER:Current/InCh/Dynamics/Compressor/On "
         ++ istr (c - 1) ++ " 0 1",
       "Compress channel " ++ istr c, 0.8⟩
  | hpfCh (c : Int) (h : chOK c) : EffOut
      ⟨"# set MIXER:Current/InCh/EQ/HPF/On " ++ istr (c - 1) ++ " 0 1",
       "High-pass filter channel " ++ istr c, 0.8⟩
  | eqTxtCh (c : Int) (t band : String) (h : chOK c) : EffOut
      ⟨"# " ++ t ++ " " ++ band ++ " on channel " ++ istr c,
       t ++ " " ++ band ++ " on channel " ++ istr c, 0.7⟩

/-- The shapes a process_dynamics_commands result can take. -/
inductive DynOut : RCPCommand → Prop where
  | gateI (c : Int) (i : Str) (h : chOK c) : DynOut
      ⟨"# set MIXER:Current/InCh/Dynamics/Gate/On " ++ istr (c - 1)
         ++ " 0 1",
       "Gate " ++ String.mk i, 0.8⟩
  | ratioI (c : Int) (ratio i : Str) (h : chOK c) : DynOut
      ⟨"# set MIXER:Current/InCh/Dynamics/Compressor/Ratio "
         ++ istr (c - 1) ++ " 0 " ++ String.mk ratio ++ "00",
       "Set " ++ String.mk i ++ " compression ratio to "
         ++ String.mk ratio ++ ":1", 0.7⟩
  | attackI (c : Int) (i : Str) (b : Bool) (h : chOK c) : DynOut
      ⟨"# set MIXER:Current/InCh/Dynamics/Compressor/Attack "
         ++ istr (c - 1) ++ " 0 " ++ (if b then "1" else "50"),
       "Set " ++ String.mk i ++ " compression attack to "
         ++ (if b then "fast" else "slow"), 0.7⟩
  | gateCh (c : Int) (h : chOK c) : DynOut
      ⟨"# set MIXER:Current/InCh/Dynamics/Gate/On " ++ istr (c - 1)
         ++ " 0 1",
       "Gate channel " ++ istr c, 0.8⟩
  | ratioCh (c : Int) (ratio : Str) (h : chOK c) : DynOut
      ⟨"# set MIXER:Current/InCh/Dynamics/Compressor/Ratio "
         ++ istr (c - 1) ++ " 0 " ++ String.mk ratio ++ "00",
       "Set channel " ++ istr c ++ " compression ratio to "
         ++ String.mk ratio ++ ":1", 0.7⟩

/-- The shapes a process_scene_recall result can take: the scene
number is validated against MAX_SCENE, but the command embeds the
1-BASED number itself (zero-padded), not number minus one. -/
inductive SceneOut : RCPCommand → Prop where
  | storeS (n : Int) (h : 1 ≤ n ∧ n ≤ 100) : SceneOut
      ⟨"ssstore scene_" ++ sceneStr n,
       "Store current settings to scene " ++ istr n, 0.9⟩
  | copyS (n : Int) (h : 1 ≤ n ∧ n ≤ 100) : SceneOut
      ⟨"# Copy scene " ++ istr n ++ " operations",
       "Copy scene " ++ istr n, 0.8⟩
  | recallS (n : Int) (h : 1 ≤ n ∧ n ≤ 100) : SceneOut
      ⟨"ssrecall_ex scene_" ++ sceneStr n,
       "Recall scene " ++ istr n, 1⟩

/-! ## Theorems -/

/-! ### Helper lemmas -/

/-- The clamp of validate_db always lands in the configured band. -/
theorem validateDb_bounds (v : Int) :
    engineLimits.MIN_DB * 100 ≤ validateDb engineLimits v ∧
    validateDb engineLimits v ≤ engineLimits.MAX_DB * 100 := by
  unfold validateDb
  exact ⟨le_max_left _ _,
    max_le (by norm_num [engineLimits]) (min_le_left _ _)⟩

/-- C6.  get_channel_for_instrument resolves through the four tiers in
order — direct label hit, alias-chain hit, substring containment over
stored labels, static default table — the first success winning, and
returns none exactly when all four fail. -/
theorem c6_lookup_order (labels : LabelTable) (name : Str) :
    getChannelForInstrument labels name =
      ((lookupDirect labels (lowerS name)).orElse fun _ =>
        ((lookupAlias labels (lowerS name)).orElse fun _ =>
          ((lookupPartial labels (lowerS name)).orElse fun _ =>
            lookupDefault (lowerS name)))) ∧
    (getChannelForInstrument labels name = none ↔
      lookupDirect labels (lowerS name) = none ∧
      lookupAlias labels (lowerS name) = none ∧
      lookupPartial labels (lowerS name) = none ∧
      lookupDefault (lowerS name) = none) := by
  unfold getChannelForInstrument lookupDirect lookupAlias lookupPartial
    lookupDefault
  cases h1 : dictGet labels (lowerS name) with
  | some n => simp [h1]
  | none =>
    cases h2 : dictGet instrumentAliases (lowerS name) with
    | some canon =>
      cases h3 : dictGet labels (lowerS canon) with
      | some n => simp [h1, h2, h3]
      | none =>
        cases h4 : (labels.find? (fun p =>
            containsSub p.1 (lowerS name)
              || containsSub (lowerS name) p.1)).map Prod.snd with
        | some n => simp [h1, h2, h3, h4]
        | none => simp [h1, h2, h3, h4]
    | none =>
      cases h4 : (labels.find? (fun p =>
          containsSub p.1 (lowerS name)
            || containsSub (lowerS name) p.1)).map Prod.snd with
      | some n => simp [h1, h2, h4]
      | none => simp [h1, h2, h4]

/-- C2 (amended).  parse_db_value clamps values from the numeric-regex
path into [MIN_DB*100, MAX_DB*100]; a dB-keyword hit returns the table
value unchanged (and may therefore lie outside the band). -/
theorem c2_db_clamp (t : Str) (v : Int)
    (h : parseDbValue engineLimits t = some v) :
    (dbKeywordFind t = none →
      engineLimits.MIN_DB * 100 ≤ v ∧ v ≤ engineLimits.MAX_DB * 100) ∧
    (∀ p, dbKeywordFind t = some p → v = p.2) := by
  unfold parseDbValue at h
  unfold dbKeywordFind
  split at h
  · exact absurd h (by simp)
  · split at h
    case _ p hp =>
      refine ⟨fun hn => absurd hp (by simp [hn]), fun q hq => ?_⟩
      rw [hp] at hq
      cases hq
      exact (Option.some.injEq _ _ ▸ h).symm
    case _ hp =>
      refine ⟨fun _ => ?_, fun q hq => absurd hq (by simp [hp])⟩
      split at h
      · cases h
        exact validateDb_bounds _
      · split at h
        · cases h
          exact validateDb_bounds _
        · exact absurd h (by simp)

/-- C2 counterexample.  The claim as stated is false: the keyword text
off parses to -32768, far below MIN_DB*100 = -6000, because keyword
values bypass the clamp. -/
theorem c2_counterexample :
    parseDbValue engineLimits "off".data = some (-32768) ∧
    ¬ (engineLimits.MIN_DB * 100 ≤ (-32768 : Int)) := by
  constructor
  · decide
  · decide

/-- C2 witness.  The amended theorem applied at the numeric text 3,
which parses to 300 with no keyword hit and lands inside the band. -/
theorem c2_witness :
    parseDbValue engineLimits "3".data = some 300 ∧
    dbKeywordFind "3".data = none ∧
    (engineLimits.MIN_DB * 100 ≤ (300 : Int) ∧
      (300 : Int) ≤ engineLimits.MAX_DB * 100) :=
  ⟨by decide, by decide,
   (c2_db_clamp "3".data 300 (by decide)).1 (by decide)⟩

/-- C5 (amended).  The oversize-input rejection applies to the
whitespace-stripped command: whenever the stripped input exceeds
MAX_INPUT_LENGTH, process_command returns the empty list and leaves the
state unchanged (the embedding is total, so no exception occurs). -/
theorem c5_oversize (st : EngineState) (s : Str)
    (h : (stripS s).length > engineLimits.MAX_INPUT_LENGTH) :
    processCommand engineLimits st s = ([], st) := by
  unfold processCommand
  simp only [if_pos h]

/-- C5 counterexample.  The claim as stated quantifies over the raw
input length: a 204-character input that strips to the 14-character
command mute channel 1 is longer than MAX_INPUT_LENGTH yet produces a
non-empty result, because the length check runs after strip(). -/
theorem c5_counterexample :
    ("mute channel 1".data ++ List.replicate 190 ' ').length = 204 ∧
    204 > engineLimits.MAX_INPUT_LENGTH ∧
    (processCommand engineLimits initState
      ("mute channel 1".data ++ List.replicate 190 ' ')).1 ≠ [] := by
  refine ⟨by decide, by decide, ?_⟩
  decide

/-- C5 witness.  The amended theorem applied to a 201-character input
with no surrounding whitespace. -/
theorem c5_witness :
    (stripS (List.replicate 201 'a')).length >
      engineLimits.MAX_INPUT_LENGTH ∧
    processCommand engineLimits initState (List.replicate 201 'a') =
      ([], initState) :=
  ⟨by decide, c5_oversize initState (List.replicate 201 'a') (by decide)⟩

/-! ### C3: relabeling -/

/-- Assigning a key stores its value at that key. -/
theorem dictGet_assign_self {α : Type} (d : List (Str × α)) (k : Str)
    (v : α) : dictGet (dictAssign d k v) k = some v := by
  induction d with
  | nil => simp [dictAssign, dictGet, List.find?]
  | cons q t ih =>
    by_cases hq : q.1 = k
    · simp [dictAssign, hq, dictGet, List.find?]
    · simp only [dictAssign, if_neg hq]
      unfold dictGet
      rw [List.find?]
      simp only [decide_eq_true_eq, hq, cond_false]
      exact ih

/-- Assigning one key leaves lookups of other keys unchanged. -/
theorem dictGet_assign_other {α : Type} (d : List (Str × α))
    (k k1 : Str) (v : α) (hne : k ≠ k1) :
    dictGet (dictAssign d k1 v) k = dictGet d k := by
  induction d with
  | nil =>
    simp [dictAssign, dictGet, List.find?, Ne.symm hne]
  | cons q t ih =>
    by_cases hq : q.1 = k1
    · simp only [dictAssign, if_pos hq]
      unfold dictGet
      rw [List.find?, List.find?]
      simp only [decide_eq_true_eq, hq, Ne.symm hne, cond_false]
      simp
    · simp only [dictAssign, if_neg hq]
      unfold dictGet
      rw [List.find?, List.find?]
      by_cases hk : q.1 = k
      · simp [hk]
      · simp only [decide_eq_true_eq, hk, cond_false]
        exact ih

/-- A direct label-table hit resolves through tier 1. -/
theorem getChannel_of_direct (labels : LabelTable) (name : Str) (n : Int)
    (h : dictGet labels (lowerS name) = some n) :
    getChannelForInstrument labels name = some n := by
  unfold getChannelForInstrument
  rw [h]

/-- C3 (amended).  Labeling the same channel twice in succession with
two different (lower-case) names leaves BOTH names resolving to that
channel: the stored table maps label to channel, so the second store
does not remove the first, and each lookup hits tier 1. -/
theorem c3_relabel_both_resolve (labels : LabelTable) (n : Int)
    (a b : Str) (hab : a ≠ b) (ha : lowerS a = a) (hb : lowerS b = b) :
    getChannelForInstrument (dictAssign (dictAssign labels a n) b n) a
      = some n ∧
    getChannelForInstrument (dictAssign (dictAssign labels a n) b n) b
      = some n := by
  constructor
  · exact getChannel_of_direct _ _ _ (by
      rw [ha, dictGet_assign_other _ _ _ _ hab, dictGet_assign_self])
  · exact getChannel_of_direct _ _ _ (by
      rw [hb, dictGet_assign_self])

/-- C3 counterexample.  Running the two label commands of the claim
concretely: after labeling channel 5 as alpha and then as bravo, the
old label alpha STILL resolves to channel 5, contradicting the claim
that only the most recent label resolves. -/
theorem c3_counterexample :
    (processChannelLabel engineLimits [] "name channel 5 alpha".data).2
      = [("alpha".data, 5)] ∧
    (processChannelLabel engineLimits [("alpha".data, 5)]
      "name channel 5 bravo".data).2
      = [("alpha".data, 5), ("bravo".data, 5)] ∧
    getChannelForInstrument [("alpha".data, 5), ("bravo".data, 5)]
      "alpha".data = some 5 := by
  refine ⟨?_, ?_, ?_⟩ <;> decide

/-! ### C1: deduplication -/

/-- The dedup fold produces pairwise-distinct command strings, none of
them in the already-seen set. -/
theorem dedup_nodup (seen : List String) (rs : List RCPCommand) :
    ((dedup seen rs).map RCPCommand.command).Nodup ∧
    ∀ r ∈ dedup seen rs, r.command ∉ seen := by
  induction rs generalizing seen with
  | nil => simp [dedup]
  | cons r t ih =>
    by_cases hr : r.command ∈ seen
    · simp only [dedup, if_pos hr]
      exact (ih seen)
    · simp only [dedup, if_neg hr, List.map_cons, List.nodup_cons]
      obtain ⟨ihn, ihs⟩ := ih (r.command :: seen)
      refine ⟨⟨?_, ihn⟩, ?_⟩
      · intro hmem
        obtain ⟨r1, hr1, he⟩ := List.mem_map.mp hmem
        exact (ihs r1 hr1) (he ▸ List.mem_cons_self _ _)
      · intro r1 hr1
        rcases List.mem_cons.mp hr1 with h | h
        · exact h ▸ hr
        · exact fun hs => (ihs r1 h) (List.mem_cons_of_mem _ hs)

/-- C1 (amended).  Deduplication holds for every input routed through
the dedup stage: when the stripped command is not compound, no two
results of process_command share a command string.  Compound inputs
return through process_compound_command, which skips deduplication. -/
theorem c1_dedup_noncompound (st : EngineState) (s : Str)
    (h : isCompoundCommand (stripS s) = false) :
    (((processCommand engineLimits st s).1).map RCPCommand.command).Nodup
    := by
  unfold processCommand
  split
  · simp
  · rw [h]
    simp only [Bool.false_eq_true, if_false, dedupPair]
    exact (dedup_nodup [] _).1

/-- C1 witness.  The amended theorem applied to the non-compound input
Mute channel 3. -/
theorem c1_witness :
    isCompoundCommand (stripS "Mute channel 3".data) = false ∧
    (((processCommand engineLimits initState
        "Mute channel 3".data).1).map RCPCommand.command).Nodup :=
  ⟨by decide,
   c1_dedup_noncompound initState "Mute channel 3".data (by decide)⟩

/-- C1 counterexample.  The claim as stated is false for compound
inputs: the compound input below returns two results with the same
command string, because the compound path returns before the dedup
stage. -/
theorem c1_counterexample :
    ((processCommand engineLimits initState
        "mute channel 1 and mute channel 1".data).1).map
        RCPCommand.command =
      ["set MIXER:Current/InCh/Fader/On 0 0 0",
       "set MIXER:Current/InCh/Fader/On 0 0 0"] ∧
    ¬ (((processCommand engineLimits initState
        "mute channel 1 and mute channel 1".data).1).map
        RCPCommand.command).Nodup := by
  have h : ((processCommand engineLimits initState
      "mute channel 1 and mute channel 1".data).1).map
      RCPCommand.command =
      ["set MIXER:Current/InCh/Fader/On 0 0 0",
       "set MIXER:Current/InCh/Fader/On 0 0 0"] := by decide
  exact ⟨h, by rw [h]; decide⟩

/-! ### C7: the spread idiom -/

/-- A pan row whose pattern does not match contributes nothing. -/
theorem panStep_none (lim : Limits) (labels : LabelTable) (cl : Str)
    (p : PanPat) (h : reSearch p.re cl = none) :
    panStep lim labels cl p = [] := by
  unfold panStep
  rw [h]

/-- C7 (amended).  On the spread idiom for the overheads, with the
overheads resolving to channel n (truthy) and n below the 40-channel
ceiling, the pan processor emits exactly two commands: the resolved
channel panned to regular left (-32) and the adjacent channel n+1
(0-based index n) panned to regular right (+32) — not the hard
positions. -/
theorem c7_spread (labels : LabelTable) (n : Int)
    (h1 : getChannelForInstrument labels "overheads".data = some n)
    (h2 : n ≠ 0) (h3 : n < 40) :
    processPanCommands engineLimits labels "spread the overheads".data =
      [⟨panCmd (n - 1) (-32), "Pan overheads left (stereo spread)", 1⟩,
       ⟨panCmd n 32, "Pan overheads right (stereo spread)", 1⟩] := by
  have hspread : panStep engineLimits labels
      "spread the overheads".data panRow11 =
      [⟨panCmd (n - 1) (-32), "Pan overheads left (stereo spread)", 1⟩,
       ⟨panCmd n 32, "Pan overheads right (stereo spread)", 1⟩] := by
    have key : panStep engineLimits labels
        "spread the overheads".data panRow11 =
        (match getChannelForInstrument labels "overheads".data with
         | some ch =>
           if intTruthy ch then
             [⟨panCmd (ch - 1) (-32),
                "Pan overheads left (stereo spread)", 1⟩]
             ++ (if ch < 40 then
                  [⟨panCmd ch 32,
                     "Pan overheads right (stereo spread)", 1⟩]
                else [])
           else []
         | none => []) := rfl
    rw [key, h1]
    simp [intTruthy, h2, h3]
  unfold processPanCommands
  rw [show lowerS "spread the overheads".data =
    "spread the overheads".data from by decide]
  simp only [panPatterns, List.map_cons, List.map_nil]
  rw [panStep_none engineLimits labels "spread the overheads".data
        panRow1 (by decide),
    panStep_none engineLimits labels "spread the overheads".data
      panRow2 (by decide),
    panStep_none engineLimits labels "spread the overheads".data
      panRow3 (by decide),
    panStep_none engineLimits labels "spread the overheads".data
      panRow4 (by decide),
    panStep_none engineLimits labels "spread the overheads".data
      panRow5 (by decide),
    panStep_none engineLimits labels "spread the overheads".data
      panRow6 (by decide),
    panStep_none engineLimits labels "spread the overheads".data
      panRow7 (by decide),
    panStep_none engineLimits labels "spread the overheads".data
      panRow8 (by decide),
    panStep_none engineLimits labels "spread the overheads".data
      panRow9 (by decide),
    panStep_none engineLimits labels "spread the overheads".data
      panRow10 (by decide),
    panStep_none engineLimits labels "spread the overheads".data
      panRow12 (by decide),
    hspread]
  simp

/-- C7 witness.  The amended theorem applied to an engine with no
labels, where overheads resolves to the default channel 10. -/
theorem c7_witness :
    getChannelForInstrument [] "overheads".data = some 10 ∧
    processPanCommands engineLimits [] "spread the overheads".data =
      [⟨panCmd 9 (-32), "Pan overheads left (stereo spread)", 1⟩,
       ⟨panCmd 10 32, "Pan overheads right (stereo spread)", 1⟩] :=
  ⟨by decide, by
    have := c7_spread [] 10 (by decide) (by decide) (by decide)
    simpa using this⟩

/-- C7 counterexample.  The claim as stated is false: the two emitted
spread commands pan to -32 and +32, not to the hard positions -63 and
+63 the claim names. -/
theorem c7_counterexample :
    (processPanCommands engineLimits []
      "spread the overheads".data).map RCPCommand.command =
      [panCmd 9 (-32), panCmd 10 32] ∧
    panCmd 9 (-32) ≠ panCmd 9 (-63) ∧ panCmd 10 32 ≠ panCmd 10 63 := by
  refine ⟨by decide, by decide, by decide⟩

/-! ### C8: scene recall -/

/-- C8.  Every process_scene_recall result carries a scene number n
validated against MAX_SCENE (1 <= n <= 100): with store/save anywhere in
the lower-cased command it is the ssstore line, else with copy it is
the commented placeholder at confidence 0.8 < 1, and otherwise the
ssrecall_ex line with the two-digit zero-padded scene number; and the
concrete scenario input Recall scene 15 produces exactly the command
ssrecall_ex scene_15. -/
theorem c8_scene_recall :
    (∀ (s : Str) (r : RCPCommand), r ∈ processSceneRecall engineLimits s →
      ∃ n : Int, 1 ≤ n ∧ n ≤ 100 ∧
        (((containsSub (lowerS s) "store".data
            || containsSub (lowerS s) "save".data) = true ∧
          r = ⟨"ssstore scene_" ++ sceneStr n,
               "Store current settings to scene " ++ istr n, 0.9⟩)
         ∨ ((containsSub (lowerS s) "store".data
            || containsSub (lowerS s) "save".data) = false ∧
           containsSub (lowerS s) "copy".data = true ∧
           r = ⟨"# Copy scene " ++ istr n ++ " operations",
                "Copy scene " ++ istr n, 0.8⟩ ∧ r.confidence < 1)
         ∨ ((containsSub (lowerS s) "store".data
            || containsSub (lowerS s) "save".data) = false ∧
           containsSub (lowerS s) "copy".data = false ∧
           r = ⟨"ssrecall_ex scene_" ++ sceneStr n,
                "Recall scene " ++ istr n, 1⟩)))
    ∧ (processCommand engineLimits initState "Recall scene 15".data).1 =
        [⟨"ssrecall_ex scene_15", "Recall scene 15", 1⟩] := by
  constructor
  · intro s r hr
    unfold processSceneRecall at hr
    rw [List.mem_flatten] at hr
    obtain ⟨lr, hlr, hrin⟩ := hr
    rw [List.mem_map] at hlr
    obtain ⟨p, _, rfl⟩ := hlr
    unfold sceneStep at hrin
    split at hrin
    · simp at hrin
    · split at hrin
      case _ n _ =>
        split at hrin
        case isTrue hguard =>
          have hb : 1 ≤ n ∧ n ≤ 100 := by
            have hg := hguard
            simp [intTruthy, validateScene, engineLimits] at hg
            exact hg.2
          refine ⟨n, hb.1, hb.2, ?_⟩
          split at hrin
          case isTrue hsto =>
            left
            exact ⟨hsto, by simpa using hrin⟩
          case isFalse hsto =>
            split at hrin
            case isTrue hcopy =>
              right; left
              have hre : r = ⟨"# Copy scene " ++ istr n ++ " operations",
                  "Copy scene " ++ istr n, 0.8⟩ := by simpa using hrin
              refine ⟨by simpa using hsto, hcopy, hre, ?_⟩
              rw [hre]
              norm_num
            case isFalse hcopy =>
              right; right
              exact ⟨by simpa using hsto, by simpa using hcopy,
                by simpa using hrin⟩
        case isFalse => simp at hrin
      case _ => simp at hrin
  · decide

/-- C8 witness.  The general part applied to the concrete input store
scene 7 and its ssstore result. -/
theorem c8_witness :
    (⟨"ssstore scene_07", "Store current settings to scene 7", 0.9⟩
        : RCPCommand) ∈
      processSceneRecall engineLimits "store scene 7".data ∧
    (∃ n : Int, 1 ≤ n ∧ n ≤ 100 ∧
      (((containsSub (lowerS "store scene 7".data) "store".data
          || containsSub (lowerS "store scene 7".data) "save".data)
            = true ∧
        (⟨"ssstore scene_07", "Store current settings to scene 7", 0.9⟩
          : RCPCommand) = ⟨"ssstore scene_" ++ sceneStr n,
             "Store current settings to scene " ++ istr n, 0.9⟩)
       ∨ ((containsSub (lowerS "store scene 7".data) "store".data
          || containsSub (lowerS "store scene 7".data) "save".data)
            = false ∧
         containsSub (lowerS "store scene 7".data) "copy".data = true ∧
         (⟨"ssstore scene_07", "Store current settings to scene 7", 0.9⟩
           : RCPCommand) = ⟨"# Copy scene " ++ istr n ++ " operations",
              "Copy scene " ++ istr n, 0.8⟩ ∧
         (RCPCommand.confidence ⟨"ssstore scene_07",
            "Store current settings to scene 7", 0.9⟩) < 1)
       ∨ ((containsSub (lowerS "store scene 7".data) "store".data
          || containsSub (lowerS "store scene 7".data) "save".data)
            = false ∧
         containsSub (lowerS "store scene 7".data) "copy".data = false ∧
         (⟨"ssstore scene_07", "Store current settings to scene 7", 0.9⟩
           : RCPCommand) = ⟨"ssrecall_ex scene_" ++ sceneStr n,
              "Recall scene " ++ istr n, 1⟩))) :=
  ⟨by
     exact List.get?_mem
       (rfl : (processSceneRecall engineLimits
         "store scene 7".data).get? 0 = some _),
   c8_scene_recall.1 "store scene 7".data
     ⟨"ssstore scene_07", "Store current settings to scene 7", 0.9⟩
     (by
       exact List.get?_mem
         (rfl : (processSceneRecall engineLimits
           "store scene 7".data).get? 0 = some _))⟩

/-- C3 witness.  The amended theorem applied to the table produced by
the two concrete label commands. -/
theorem c3_witness :
    "alpha".data ≠ "bravo".data ∧
    getChannelForInstrument
      (dictAssign (dictAssign [] "alpha".data 5) "bravo".data 5)
      "alpha".data = some 5 ∧
    getChannelForInstrument
      (dictAssign (dictAssign [] "alpha".data 5) "bravo".data 5)
      "bravo".data = some 5 :=
  ⟨by decide,
   (c3_relabel_both_resolve [] 5 "alpha".data "bravo".data (by decide)
     (by decide) (by decide)).1,
   (c3_relabel_both_resolve [] 5 "alpha".data "bravo".data (by decide)
     (by decide) (by decide)).2⟩

/-! ### Totality of the second numeric dB pattern on digit-bearing text -/

/-- A greedy class run always succeeds when its continuation is total:
either the run backtracks to the continuation or succeeds beyond it. -/
theorem starRun_isSome (p : Char → Bool) (s : Str) (prev : Option Char)
    (caps : Caps) (k : Str → Option Char → Caps → Option (Str × Caps))
    (hk : KTotal k) : (starRun p s prev caps k).isSome := by
  induction s generalizing prev caps with
  | nil => exact hk _ _ _
  | cons c rest ih =>
    unfold starRun
    by_cases hc : p c
    · rw [if_pos hc]
      cases hsr : starRun p rest (some c) caps k with
      | some r => simp
      | none => simpa using hk _ _ _
    · rw [if_neg hc]; exact hk _ _ _

/-- An optional piece succeeds whenever skipping it succeeds. -/
theorem reMatch_opt_isSome (a : RE) (s : Str) (prev : Option Char)
    (caps : Caps) (k : Str → Option Char → Caps → Option (Str × Caps))
    (h : (k s prev caps).isSome) :
    (reMatch (.opt a) s prev caps k).isSome := by
  unfold reMatch
  cases hm : reMatch a s prev caps k with
  | some r => simp
  | none => simpa using h

/-- One-step unfolding of the matcher on a sequence. -/
theorem reMatch_cat (a b : RE) (s : Str) (prev : Option Char) (caps : Caps)
    (k : Str → Option Char → Caps → Option (Str × Caps)) :
    reMatch (.cat a b) s prev caps k
      = reMatch a s prev caps (fun s1 p1 c1 => reMatch b s1 p1 c1 k) := rfl

/-- One-step unfolding of the matcher on a capturing group. -/
theorem reMatch_group (n : Nat) (a : RE) (s : Str) (prev : Option Char)
    (caps : Caps) (k : Str → Option Char → Caps → Option (Str × Caps)) :
    reMatch (.group n a) s prev caps k
      = reMatch a s prev caps
          (fun s1 p1 c1 =>
            k s1 p1 ((n, s.take (s.length - s1.length)) :: c1)) := rfl

/-- One-step unfolding of the matcher on a starred class. -/
theorem reMatch_starCls (p : Char → Bool) (s : Str) (prev : Option Char)
    (caps : Caps) (k : Str → Option Char → Caps → Option (Str × Caps)) :
    reMatch (.starCls p) s prev caps k = starRun p s prev caps k := rfl

/-- A greedy class run passes straight to its continuation when the
head character is outside the class. -/
theorem starRun_head_false (p : Char → Bool) (c : Char) (rest : Str)
    (prev : Option Char) (caps : Caps)
    (k : Str → Option Char → Caps → Option (Str × Caps)) (h : p c = false) :
    starRun p (c :: rest) prev caps k = k (c :: rest) prev caps := by
  unfold starRun
  rw [h]
  simp

/-- A plus-class consumes its head character when it is in the class. -/
theorem reMatch_plusCls_cons (p : Char → Bool) (c : Char) (rest : Str)
    (prev : Option Char) (caps : Caps)
    (k : Str → Option Char → Caps → Option (Str × Caps)) (h : p c = true) :
    reMatch (.plusCls p) (c :: rest) prev caps k
      = starRun p rest (some c) caps k := by
  show (if p c = true then starRun p rest (some c) caps k else none) = _
  rw [h]
  simp

/-- dbPat2 matches at any position whose first character is a digit:
the sign prefix and the db suffix are optional, leading whitespace may
be empty, and the mandatory digit group is satisfied by the head. -/
theorem dbPat2_digit_head (c : Char) (rest : Str) (hc : pyDigit c = true)
    (prev : Option Char) (caps : Caps)
    (k : Str → Option Char → Caps → Option (Str × Caps)) (hk : KTotal k) :
    (reMatch dbPat2 (c :: rest) prev caps k).isSome := by
  have hsp : pySpace c = false := by
    have hdig := hc
    simp [pyDigit] at hdig
    obtain ⟨h1, h2⟩ := hdig
    rcases Bool.eq_false_or_eq_true (pySpace c) with h | h
    swap
    · exact h
    · exfalso
      simp [pySpace] at h
      rcases h with ((((he | he) | he) | he) | he) | he <;>
        (subst he; exact absurd h1 (by decide))
  rw [show dbPat2 = RE.cat (.opt (alts [l "plus", l "positive", l "+"]))
        (RE.cat ws0 (RE.cat (.group 1 (cats [.plusCls pyDigit,
            .opt (cats [l ".", .plusCls pyDigit])]))
          (RE.cat ws0 (.opt (l "db"))))) from rfl]
  rw [reMatch_cat]
  apply reMatch_opt_isSome
  rw [reMatch_cat, show ws0 = RE.starCls pySpace from rfl, reMatch_starCls,
      starRun_head_false _ _ _ _ _ _ hsp]
  show (reMatch (RE.cat (.group 1 (cats [.plusCls pyDigit,
      .opt (cats [l ".", .plusCls pyDigit])]))
        (RE.cat (RE.starCls pySpace) (.opt (l "db")))) (c :: rest) prev caps
        k).isSome
  rw [reMatch_cat, reMatch_group,
      show cats [RE.plusCls pyDigit, .opt (cats [l ".", .plusCls pyDigit])]
        = RE.cat (.plusCls pyDigit) (.opt (cats [l ".", .plusCls pyDigit]))
        from rfl,
      reMatch_cat, reMatch_plusCls_cons _ _ _ _ _ _ hc]
  apply starRun_isSome
  intro s p cc
  apply reMatch_opt_isSome
  show (reMatch (RE.cat (RE.starCls pySpace) (.opt (l "db"))) s p
      ((1, List.take ((c :: rest).length - s.length) (c :: rest)) :: cc)
      k).isSome
  rw [reMatch_cat, reMatch_starCls]
  apply starRun_isSome
  intro s2 p2 cc2
  apply reMatch_opt_isSome
  exact hk _ _ _

/-- ASCII lower-casing fixes decimal digits. -/
theorem toLower_of_digit (c : Char) (h : pyDigit c = true) : c.toLower = c := by
  simp [pyDigit] at h
  obtain ⟨h1, h2⟩ := h
  unfold Char.toLower
  have hn : c.toNat ≤ 57 := h2
  have hlt : ¬ (65 ≤ c.toNat && c.toNat ≤ 90) = true := by
    simp; omega
  simp only [ge_iff_le, Char.toNat] at *
  rw [if_neg (by simpa using hlt)]

/-- A search for dbPat2 succeeds on any text containing a digit. -/
theorem reSearchAux_isSome_of_digit (s : Str) (prev : Option Char)
    (preAcc : Str) (hd : ∃ c ∈ s, pyDigit c = true) :
    (reSearchAux dbPat2 s prev preAcc).isSome := by
  induction s generalizing prev preAcc with
  | nil => simp at hd
  | cons c rest ih =>
    unfold reSearchAux
    cases hm : reMatch dbPat2 (c :: rest) prev []
        (fun s1 _ c1 => some (s1, c1)) with
    | some r => simp
    | none =>
      by_cases hdc : pyDigit c = true
      · exfalso
        have hs := dbPat2_digit_head c rest hdc prev []
          (fun s1 _ c1 => some (s1, c1)) (fun _ _ _ => rfl)
        rw [hm] at hs
        simp at hs
      · rcases hd with ⟨d, hdm, hdd⟩
        rcases List.mem_cons.mp hdm with he | he
        · exact absurd (he ▸ hdd) hdc
        · exact ih (some c) (c :: preAcc) ⟨d, he, hdd⟩

/-- C10: any input text containing at least one decimal digit is
accepted by parse_db_value — the result is never None — because the
second numeric pattern makes both the sign prefix and the db suffix
optional; and when a dB keyword occurs in the text, its table value is
what is returned instead of the numeric parse. -/
theorem c10_digit_parses (lim : Limits) (text : Str)
    (hd : ∃ c ∈ text, pyDigit c = true) :
    (parseDbValue lim text).isSome = true ∧
    (∀ p, dbKeywordFind text = some p →
      parseDbValue lim text = some p.2) := by
  have hne : ¬ (text = []) := by
    rcases hd with ⟨c, hm, _⟩
    intro he
    subst he
    simp at hm
  have hlow : ∃ c ∈ lowerS text, pyDigit c = true := by
    rcases hd with ⟨c, hm, hdd⟩
    exact ⟨c, List.mem_map.mpr ⟨c, hm, toLower_of_digit c hdd⟩, hdd⟩
  have hsearch : (reSearch dbPat2 (lowerS text)).isSome :=
    reSearchAux_isSome_of_digit (lowerS text) none [] hlow
  constructor
  · unfold parseDbValue
    rw [if_neg hne]
    cases hkw : dbKeywords.find? (fun p => containsSub (lowerS text) p.1) with
    | some p => simp
    | none =>
      cases h1 : reSearch dbPat1 (lowerS text) with
      | some m => simp
      | none =>
        cases h2 : reSearch dbPat2 (lowerS text) with
        | some m => simp
        | none =>
          rw [h2] at hsearch
          simp at hsearch
  · intro p hp
    unfold dbKeywordFind at hp
    unfold parseDbValue
    rw [if_neg hne, hp]

/-- C10 witness: the digit buried in the word gain7x is parsed as a dB
value. -/
theorem c10_witness :
    (∃ c ∈ ("gain7x".data : Str), pyDigit c = true) ∧
    (parseDbValue engineLimits "gain7x".data).isSome = true := by
  have hd : ∃ c ∈ ("gain7x".data : Str), pyDigit c = true := by decide
  exact ⟨hd, (c10_digit_parses engineLimits "gain7x".data hd).1⟩

/-! ### Enable-before-level pairing of the send processor -/

/-- The On command line is determined up to its first 30 characters. -/
theorem take30_on (c m v : Int) :
    (toMixOnCmd c m v).data.take 30
      = "set MIXER:Current/InCh/ToMix/O".data := by
  show ((((("set MIXER:Current/InCh/ToMix/On ".data ++ (istr c).data)
      ++ " ".data) ++ (istr m).data) ++ " ".data) ++ (istr v).data).take 30
    = _
  rw [List.append_assoc, List.append_assoc, List.append_assoc,
      List.append_assoc, List.take_append_of_le_length (by decide)]
  decide

/-- The Level command line is determined up to its first 30 characters. -/
theorem take30_level (c m v : Int) :
    (toMixLevelCmd c m v).data.take 30
      = "set MIXER:Current/InCh/ToMix/L".data := by
  show ((((("set MIXER:Current/InCh/ToMix/Level ".data ++ (istr c).data)
      ++ " ".data) ++ (istr m).data) ++ " ".data) ++ (istr v).data).take 30
    = _
  rw [List.append_assoc, List.append_assoc, List.append_assoc,
      List.append_assoc, List.take_append_of_le_length (by decide)]
  decide

/-- A Level command line starts with the letter s. -/
theorem take1_level (c m v : Int) :
    (toMixLevelCmd c m v).data.take 1 = "s".data := by
  show ((((("set MIXER:Current/InCh/ToMix/Level ".data ++ (istr c).data)
      ++ " ".data) ++ (istr m).data) ++ " ".data) ++ (istr v).data).take 1
    = _
  rw [List.append_assoc, List.append_assoc, List.append_assoc,
      List.append_assoc, List.take_append_of_le_length (by decide)]
  decide

/-- An On command line is never a Level command line. -/
theorem on_ne_level (a b c d e f : Int) :
    toMixOnCmd a b c ≠ toMixLevelCmd d e f := by
  intro h
  have h30 : (toMixOnCmd a b c).data.take 30
      = (toMixLevelCmd d e f).data.take 30 := by rw [h]
  rw [take30_on, take30_level] at h30
  exact absurd h30 (by decide)

/-- A string starting with a hash is never a Level command line. -/
theorem hashHead_ne_level (x : String) (hx : x.data.take 1 = "#".data)
    (c m v : Int) : x ≠ toMixLevelCmd c m v := by
  intro h
  rw [h, take1_level] at hx
  exact absurd hx (by decide)

/-- The pre/post placeholder line is never a Level command line. -/
theorem preOn_ne_level (s1 s2 s3 : String) (c m v : Int) :
    "# set MIXER:Current/InCh/ToMix/PreOn " ++ s1 ++ " " ++ s2 ++ " "
      ++ s3 ≠ toMixLevelCmd c m v := by
  apply hashHead_ne_level
  show ((((("# set MIXER:Current/InCh/ToMix/PreOn ".data ++ s1.data)
      ++ " ".data) ++ s2.data) ++ " ".data) ++ s3.data).take 1 = _
  rw [List.append_assoc, List.append_assoc, List.append_assoc,
      List.append_assoc, List.take_append_of_le_length (by decide)]
  decide

/-- The matrix placeholder line is never a Level command line. -/
theorem matrix_ne_level (s1 s2 : String) (c m v : Int) :
    "# set MIXER:Current/Mix/ToMatrix/On " ++ s1 ++ " " ++ s2 ++ " 1"
      ≠ toMixLevelCmd c m v := by
  apply hashHead_ne_level
  show (((("# set MIXER:Current/Mix/ToMatrix/On ".data ++ s1.data)
      ++ " ".data) ++ s2.data) ++ " 1".data).take 1 = _
  rw [List.append_assoc, List.append_assoc, List.append_assoc,
      List.take_append_of_le_length (by decide)]
  decide

/-- The group placeholder line is never a Level command line. -/
theorem group_ne_level (s1 s2 : String) (c m v : Int) :
    "# set MIXER:Current/InCh/ToGroup/On " ++ s1 ++ " " ++ s2 ++ " 1"
      ≠ toMixLevelCmd c m v := by
  apply hashHead_ne_level
  show (((("# set MIXER:Current/InCh/ToGroup/On ".data ++ s1.data)
      ++ " ".data) ++ s2.data) ++ " 1".data).take 1 = _
  rw [List.append_assoc, List.append_assoc, List.append_assoc,
      List.take_append_of_le_length (by decide)]
  decide

/-- The aux-matrix placeholder line is never a Level command line. -/
theorem auxmatrix_ne_level (s1 : String) (c m v : Int) :
    "# set MIXER:Current/Mix/ToMatrix/On " ++ s1 ++ " 0 1"
      ≠ toMixLevelCmd c m v := by
  apply hashHead_ne_level
  show (("# set MIXER:Current/Mix/ToMatrix/On ".data ++ s1.data)
      ++ " 0 1".data).take 1 = _
  rw [List.append_assoc, List.take_append_of_le_length (by decide)]
  decide

/-- The empty response is paired. -/
theorem ep_nil : EnablePaired ([] : List RCPCommand) := by
  intro i r hi _
  simp at hi

/-- A response of one non-Level command is paired. -/
theorem ep_single (cmd d : String) (q : ℚ)
    (h : ∀ c m v : Int, cmd ≠ toMixLevelCmd c m v) :
    EnablePaired [⟨cmd, d, q⟩] := by
  intro i r hi hlev
  match i with
  | 0 =>
    simp at hi
    obtain ⟨c, m, v, hc⟩ := hlev
    rw [← hi] at hc
    exact absurd hc (h c m v)
  | n + 1 => simp at hi

/-- A response of two non-Level commands is paired. -/
theorem ep_two (cmd1 d1 cmd2 d2 : String) (q1 q2 : ℚ)
    (h1 : ∀ c m v : Int, cmd1 ≠ toMixLevelCmd c m v)
    (h2 : ∀ c m v : Int, cmd2 ≠ toMixLevelCmd c m v) :
    EnablePaired [⟨cmd1, d1, q1⟩, ⟨cmd2, d2, q2⟩] := by
  intro i r hi hlev
  match i with
  | 0 =>
    simp at hi
    obtain ⟨c, m, v, hc⟩ := hlev
    rw [← hi] at hc
    exact absurd hc (h1 c m v)
  | 1 =>
    simp at hi
    obtain ⟨c, m, v, hc⟩ := hlev
    rw [← hi] at hc
    exact absurd hc (h2 c m v)
  | n + 2 => simp at hi

/-- An On command immediately followed by its Level command is paired. -/
theorem ep_pair (c m v : Int) (d1 d2 : String) (q1 q2 : ℚ) :
    EnablePaired [⟨toMixOnCmd c m 1, d1, q1⟩,
                  ⟨toMixLevelCmd c m v, d2, q2⟩] := by
  intro i r hi hlev
  match i with
  | 0 =>
    simp at hi
    obtain ⟨c', m', v', hc⟩ := hlev
    rw [← hi] at hc
    exact absurd hc (on_ne_level _ _ _ _ _ _)
  | 1 =>
    simp at hi
    exact ⟨c, m, v, ⟨toMixOnCmd c m 1, d1, q1⟩, by rw [← hi], by omega,
      by simp, rfl⟩
  | n + 2 => simp at hi

/-- Pairing is preserved by concatenation. -/
theorem ep_append (l1 l2 : List RCPCommand) (h1 : EnablePaired l1)
    (h2 : EnablePaired l2) : EnablePaired (l1 ++ l2) := by
  intro i r hi hlev
  by_cases hlt : i < l1.length
  · rw [List.get?_append hlt] at hi
    obtain ⟨c, m, v, r1, hcmd, hi1, hg1, hcmd1⟩ := h1 i r hi hlev
    refine ⟨c, m, v, r1, hcmd, hi1, ?_, hcmd1⟩
    rw [List.get?_append (by omega)]
    exact hg1
  · push_neg at hlt
    rw [List.get?_append_right hlt] at hi
    obtain ⟨c, m, v, r1, hcmd, hi1, hg1, hcmd1⟩ := h2 _ r hi hlev
    refine ⟨c, m, v, r1, hcmd, by omega, ?_, hcmd1⟩
    rw [List.get?_append_right (by omega)]
    have he : i - 1 - l1.length = i - l1.length - 1 := by omega
    rw [he]
    exact hg1

/-- Pairing is preserved by flattening a list of paired blocks. -/
theorem ep_flatten (ls : List (List RCPCommand))
    (h : ∀ l ∈ ls, EnablePaired l) : EnablePaired ls.flatten := by
  induction ls with
  | nil => exact ep_nil
  | cons a as ih =>
    rw [List.flatten_cons]
    exact ep_append _ _ (h a (by simp))
      (ih (fun l hl => h l (by simp [hl])))


/-- Every block the send loop emits for one pattern row is paired:
Level lines occur only immediately after their matching On line. -/
theorem sendStep_paired (lim : Limits) (labels : LabelTable) (cl : Str)
    (p : SendPat) : EnablePaired (sendStep lim labels cl p) := by
  unfold sendStep
  cases hm : reSearch p.re cl with
  | none => exact ep_nil
  | some m =>
    cases hact : p.act
    case instrument =>
      dsimp only
      repeat' split
      all_goals (try simp only [List.cons_append, List.nil_append,
        List.append_nil])
      all_goals first
        | exact ep_nil
        | exact ep_pair _ _ _ _ _ _ _
        | exact ep_single _ _ _ (fun c m v => on_ne_level _ _ _ _ _ _)
    case level =>
      dsimp only
      repeat' split
      all_goals first
        | exact ep_nil
        | exact ep_pair _ _ _ _ _ _ _
    case instrument_slang =>
      dsimp only
      repeat' split
      all_goals first
        | exact ep_nil
        | exact ep_pair _ _ _ _ _ _ _
    case monitor_slang =>
      dsimp only
      repeat' split
      all_goals first
        | exact ep_nil
        | exact ep_pair _ _ _ _ _ _ _
    case to_wedges =>
      dsimp only
      repeat' split
      all_goals first
        | exact ep_nil
        | exact ep_two _ _ _ _ _ _ (fun c m v => on_ne_level _ _ _ _ _ _)
            (fun c m v => on_ne_level _ _ _ _ _ _)
    case pre_post =>
      dsimp only
      repeat' split
      all_goals first
        | exact ep_nil
        | exact ep_single _ _ _ (fun c m v => preOn_ne_level _ _ _ _ _ _)
    case matrixA =>
      dsimp only
      repeat' split
      all_goals first
        | exact ep_nil
        | exact ep_single _ _ _ (fun c m v => matrix_ne_level _ _ _ _ _)
    case groupA =>
      dsimp only
      repeat' split
      all_goals first
        | exact ep_nil
        | exact ep_single _ _ _ (fun c m v => group_ne_level _ _ _ _ _)
    case aux_matrix =>
      dsimp only
      repeat' split
      all_goals first
        | exact ep_nil
        | exact ep_single _ _ _ (fun c m v => auxmatrix_ne_level _ _ _ _)
    all_goals (
      dsimp only
      repeat' split
      all_goals first
        | exact ep_nil
        | exact ep_single _ _ _ (fun c m v => on_ne_level _ _ _ _ _ _))

/-- Every level-action row in the table exposes three groups. -/
theorem level_rows_ng3 :
    ∀ q ∈ sendPatterns, q.act = SendAct.level → q.ng = 3 := by decide

/-- Pairing over the whole send processor output. -/
theorem processSendToMix_paired (lim : Limits) (labels : LabelTable)
    (command : Str) :
    EnablePaired (processSendToMix lim labels command) := by
  unfold processSendToMix
  apply ep_flatten
  intro lx hl
  rw [List.mem_map] at hl
  obtain ⟨q, hq, rfl⟩ := hl
  exact sendStep_paired lim labels (lowerS command) q

/-- Shape of the emission of a matched level row whose guards pass. -/
theorem sendStep_level_shape (lim : Limits) (labels : LabelTable)
    (cl : Str) (p : SendPat) (hp : p ∈ sendPatterns)
    (hact : p.act = SendAct.level) (m : MatchRes)
    (hm : reSearch p.re cl = some m) (ch mix v : Int)
    (hch : parseNumber ((m.grp 1).getD []) = some ch)
    (hmix : parseNumber ((m.grp 2).getD []) = some mix)
    (hguard : (intTruthy ch && intTruthy mix && validateChannel lim ch
        && validateMix lim mix) = true)
    (hlt : grpTruthy (m.grp 3) = true)
    (hv : parseDbOpt lim (m.grp 3) = some v) :
    sendStep lim labels cl p
      = [⟨toMixOnCmd (ch - 1) (mix - 1) 1,
          "Turn on channel " ++ istr ch ++ " send to mix " ++ istr mix,
          1⟩,
         ⟨toMixLevelCmd (ch - 1) (mix - 1) v,
          "Set channel " ++ istr ch ++ " send to mix " ++ istr mix
            ++ " at " ++ fmt1 v ++ " dB", 1⟩] := by
  have hng : p.ng = 3 := level_rows_ng3 p hp hact
  unfold sendStep
  rw [hm, hact]
  try dsimp only
  rw [hch, hmix]
  try dsimp only
  rw [hguard]
  try dsimp only
  rw [hng]
  norm_num
  rw [if_pos hlt, hv]

/-- C9.  When a send pattern tagged as a level action matches, the
source channel and destination mix validate, and the level text parses
to a dB value, the send loop emits for that row exactly two results in
order — the ToMix/On enable followed by the ToMix/Level set — and
globally a ToMix/Level line never occurs in a send response except
immediately after its matching ToMix/On enable. -/
theorem c9_level_enable_paired (lim : Limits) (labels : LabelTable)
    (cl : Str) (p : SendPat) (hp : p ∈ sendPatterns)
    (hact : p.act = SendAct.level) (m : MatchRes)
    (hm : reSearch p.re cl = some m) (ch mix v : Int)
    (hch : parseNumber ((m.grp 1).getD []) = some ch)
    (hmix : parseNumber ((m.grp 2).getD []) = some mix)
    (hguard : (intTruthy ch && intTruthy mix && validateChannel lim ch
        && validateMix lim mix) = true)
    (hlt : grpTruthy (m.grp 3) = true)
    (hv : parseDbOpt lim (m.grp 3) = some v) :
    sendStep lim labels cl p
      = [⟨toMixOnCmd (ch - 1) (mix - 1) 1,
          "Turn on channel " ++ istr ch ++ " send to mix " ++ istr mix,
          1⟩,
         ⟨toMixLevelCmd (ch - 1) (mix - 1) v,
          "Set channel " ++ istr ch ++ " send to mix " ++ istr mix
            ++ " at " ++ fmt1 v ++ " dB", 1⟩] ∧
    (∀ command, EnablePaired (processSendToMix lim labels command)) :=
  ⟨sendStep_level_shape lim labels cl p hp hact m hm ch mix v hch hmix
      hguard hlt hv,
   fun command => processSendToMix_paired lim labels command⟩

/-- C9 witness: channel 2 to mix 1 at 6 db through the bare level row
emits the enable and the 6.0 dB level set, in order. -/
theorem c9_witness :
    (sendPatterns.get ⟨13, by decide⟩).act = SendAct.level ∧
    sendStep engineLimits [] "channel 2 to mix 1 at 6 db".data
        (sendPatterns.get ⟨13, by decide⟩)
      = [⟨toMixOnCmd (2 - 1) (1 - 1) 1,
          "Turn on channel " ++ istr 2 ++ " send to mix " ++ istr 1, 1⟩,
         ⟨toMixLevelCmd (2 - 1) (1 - 1) 600,
          "Set channel " ++ istr 2 ++ " send to mix " ++ istr 1
            ++ " at " ++ fmt1 600 ++ " dB", 1⟩] ∧
    EnablePaired (processSendToMix engineLimits []
        "channel 2 to mix 1 at 6 db".data) := by
  have hp : sendPatterns.get ⟨13, by decide⟩ ∈ sendPatterns :=
    List.get_mem _ _ _
  have hact : (sendPatterns.get ⟨13, by decide⟩).act = SendAct.level := rfl
  have h := c9_level_enable_paired engineLimits []
    "channel 2 to mix 1 at 6 db".data (sendPatterns.get ⟨13, by decide⟩)
    hp hact _ rfl 2 1 600 rfl rfl rfl rfl rfl
  exact ⟨hact, h.1, h.2 _⟩

/-! ### Range invariants of the fader, send and DCA processors -/

/-- A dict hit returns the value of some stored pair. -/
theorem dictGet_mem {α : Type} (d : List (Str × α)) (k : Str) (v : α)
    (h : dictGet d k = some v) : ∃ p ∈ d, p.2 = v := by
  unfold dictGet at h
  cases hf : d.find? (fun p => p.1 = k) with
  | none => rw [hf] at h; simp at h
  | some p =>
    rw [hf] at h
    simp at h
    exact ⟨p, List.mem_of_find?_eq_some hf, h⟩

/-- Every value of the static default instrument table is a channel in
[1, 40]. -/
theorem defaultTable_range :
    ∀ q ∈ defaultInstrumentChannels, 1 ≤ q.2 ∧ q.2 ≤ 40 := by decide

/-- Under an in-range label table, every channel resolved by
get_channel_for_instrument lies in [1, 40]. -/
theorem getChannel_range (labels : LabelTable)
    (hl : LabelsInRange labels) (i : Str) (ch : Int)
    (h : getChannelForInstrument labels i = some ch) :
    1 ≤ ch ∧ ch ≤ 40 := by
  unfold getChannelForInstrument at h
  split at h
  · injection h with h1
    subst h1
    rename_i n hn
    obtain ⟨p, hp, hv⟩ := dictGet_mem _ _ _ hn
    exact hv ▸ hl p hp
  · split at h
    · injection h with h1
      subst h1
      rename_i n hn
      split at hn
      · rename_i canon hcanon
        obtain ⟨p, hp, hv⟩ := dictGet_mem _ _ _ hn
        exact hv ▸ hl p hp
      · simp at hn
    · split at h
      · injection h with h1
        subst h1
        rename_i n hn
        cases hf : labels.find? (fun p =>
            containsSub p.1 (lowerS i) || containsSub (lowerS i) p.1) with
        | none => rw [hf] at hn; simp at hn
        | some p =>
          rw [hf] at hn
          simp at hn
          exact hn ▸ hl p (List.mem_of_find?_eq_some hf)
      · obtain ⟨p, hp, hv⟩ := dictGet_mem _ _ _ h
        exact hv ▸ defaultTable_range p hp

/-- Every command the send loop emits for one row has a SendOut shape. -/
theorem sendStep_sendOut (labels : LabelTable) (hl : LabelsInRange labels)
    (cl : Str) (p : SendPat) :
    ∀ r ∈ sendStep engineLimits labels cl p, SendOut r := by
  intro r hr
  unfold sendStep at hr
  split at hr
  · simp at hr
  · cases hact : p.act
    case onA =>
      rw [hact] at hr
      dsimp only at hr
      repeat' split at hr
      all_goals try simp only [List.cons_append, List.nil_append,
        List.append_nil, List.mem_cons, List.mem_singleton,
        List.not_mem_nil, or_false] at hr
      all_goals first
        | (subst hr
           refine SendOut.turnOn _ _ ?_ ?_ <;>
             first
              | exact getChannel_range labels hl _ _ (by assumption)
              | (simp_all [validateChannel, validateMix, engineLimits,
                  intTruthy, chOK, mixOK])
              | decide
              | omega)
        | simp_all
    case offA =>
      rw [hact] at hr
      dsimp only at hr
      repeat' split at hr
      all_goals try simp only [List.cons_append, List.nil_append,
        List.append_nil, List.mem_cons, List.mem_singleton,
        List.not_mem_nil, or_false] at hr
      all_goals first
        | (subst hr
           refine SendOut.turnOff _ _ ?_ ?_ <;>
             first
              | exact getChannel_range labels hl _ _ (by assumption)
              | (simp_all [validateChannel, validateMix, engineLimits,
                  intTruthy, chOK, mixOK])
              | decide
              | omega)
        | simp_all
    case level =>
      rw [hact] at hr
      dsimp only at hr
      repeat' split at hr
      all_goals try simp only [List.cons_append, List.nil_append,
        List.append_nil, List.mem_cons, List.mem_singleton,
        List.not_mem_nil, or_false] at hr
      all_goals first
        | (rcases hr with rfl | rfl
           · refine SendOut.turnOn _ _ ?_ ?_ <;>
               first
              | exact getChannel_range labels hl _ _ (by assumption)
              | (simp_all [validateChannel, validateMix, engineLimits,
                  intTruthy, chOK, mixOK])
              | decide
              | omega
           · refine SendOut.levelSet _ _ _ ?_ ?_ <;>
               first
              | exact getChannel_range labels hl _ _ (by assumption)
              | (simp_all [validateChannel, validateMix, engineLimits,
                  intTruthy, chOK, mixOK])
              | decide
              | omega)
        | simp_all
    case word_numbers =>
      rw [hact] at hr
      dsimp only at hr
      repeat' split at hr
      all_goals try simp only [List.cons_append, List.nil_append,
        List.append_nil, List.mem_cons, List.mem_singleton,
        List.not_mem_nil, or_false] at hr
      all_goals first
        | (subst hr
           refine SendOut.wordOn _ _ _ _ ?_ ?_ <;>
             first
              | exact getChannel_range labels hl _ _ (by assumption)
              | (simp_all [validateChannel, validateMix, engineLimits,
                  intTruthy, chOK, mixOK])
              | decide
              | omega)
        | simp_all
    case instrument =>
      rw [hact] at hr
      dsimp only at hr
      repeat' split at hr
      all_goals try simp only [List.cons_append, List.nil_append,
        List.append_nil, List.mem_cons, List.mem_singleton,
        List.not_mem_nil, or_false] at hr
      all_goals first
        | (rcases hr with rfl | rfl
           · refine SendOut.instrOn _ _ _ ?_ ?_ <;>
               first
              | exact getChannel_range labels hl _ _ (by assumption)
              | (simp_all [validateChannel, validateMix, engineLimits,
                  intTruthy, chOK, mixOK])
              | decide
              | omega
           · refine SendOut.instrLevel _ _ _ _ ?_ ?_ <;>
               first
              | exact getChannel_range labels hl _ _ (by assumption)
              | (simp_all [validateChannel, validateMix, engineLimits,
                  intTruthy, chOK, mixOK])
              | decide
              | omega)
        | (subst hr
           refine SendOut.instrOn _ _ _ ?_ ?_ <;>
             first
              | exact getChannel_range labels hl _ _ (by assumption)
              | (simp_all [validateChannel, validateMix, engineLimits,
                  intTruthy, chOK, mixOK])
              | decide
              | omega)
        | simp_all
    case vocalist_monitor =>
      rw [hact] at hr
      dsimp only at hr
      repeat' split at hr
      all_goals try simp only [List.cons_append, List.nil_append,
        List.append_nil, List.mem_cons, List.mem_singleton,
        List.not_mem_nil, or_false] at hr
      all_goals first
        | (subst hr
           refine SendOut.perfMon _ _ _ _ ?_ ?_ <;>
             first
              | exact getChannel_range labels hl _ _ (by assumption)
              | (simp_all [validateChannel, validateMix, engineLimits,
                  intTruthy, chOK, mixOK])
              | decide
              | omega)
        | simp_all
    case drummer_monitor =>
      rw [hact] at hr
      dsimp only at hr
      repeat' split at hr
      all_goals try simp only [List.cons_append, List.nil_append,
        List.append_nil, List.mem_cons, List.mem_singleton,
        List.not_mem_nil, or_false] at hr
      all_goals first
        | (subst hr
           refine SendOut.perfMon _ _ _ _ ?_ ?_ <;>
             first
              | exact getChannel_range labels hl _ _ (by assumption)
              | (simp_all [validateChannel, validateMix, engineLimits,
                  intTruthy, chOK, mixOK])
              | decide
              | omega)
        | simp_all
    case musician_monitor =>
      rw [hact] at hr
      dsimp only at hr
      repeat' split at hr
      all_goals try simp only [List.cons_append, List.nil_append,
        List.append_nil, List.mem_cons, List.mem_singleton,
        List.not_mem_nil, or_false] at hr
      all_goals first
        | (subst hr
           refine SendOut.perfMon _ _ _ _ ?_ ?_ <;>
             first
              | exact getChannel_range labels hl _ _ (by assumption)
              | (simp_all [validateChannel, validateMix, engineLimits,
                  intTruthy, chOK, mixOK])
              | decide
              | omega)
        | simp_all
    case iem =>
      rw [hact] at hr
      dsimp only at hr
      repeat' split at hr
      all_goals try simp only [List.cons_append, List.nil_append,
        List.append_nil, List.mem_cons, List.mem_singleton,
        List.not_mem_nil, or_false] at hr
      all_goals first
        | (subst hr
           refine SendOut.iemOn _ _ _ ?_ ?_ <;>
             first
              | exact getChannel_range labels hl _ _ (by assumption)
              | (simp_all [validateChannel, validateMix, engineLimits,
                  intTruthy, chOK, mixOK])
              | decide
              | omega)
        | simp_all
    case pre_post =>
      rw [hact] at hr
      dsimp only at hr
      repeat' split at hr
      all_goals try simp only [List.cons_append, List.nil_append,
        List.append_nil, List.mem_cons, List.mem_singleton,
        List.not_mem_nil, or_false] at hr
      all_goals first
        | (subst hr
           refine SendOut.prePost _ _ true ?_ ?_ <;>
             first
              | exact getChannel_range labels hl _ _ (by assumption)
              | (simp_all [validateChannel, validateMix, engineLimits,
                  intTruthy, chOK, mixOK])
              | decide
              | omega)
        | (subst hr
           refine SendOut.prePost _ _ false ?_ ?_ <;>
             first
              | exact getChannel_range labels hl _ _ (by assumption)
              | (simp_all [validateChannel, validateMix, engineLimits,
                  intTruthy, chOK, mixOK])
              | decide
              | omega)
        | simp_all
    case matrixA =>
      rw [hact] at hr
      dsimp only at hr
      repeat' split at hr
      all_goals try simp only [List.cons_append, List.nil_append,
        List.append_nil, List.mem_cons, List.mem_singleton,
        List.not_mem_nil, or_false] at hr
      all_goals first
        | (subst hr
           refine SendOut.matrixR _ _ ?_ ?_ <;>
             first
              | exact getChannel_range labels hl _ _ (by assumption)
              | (simp_all [validateChannel, validateMix, engineLimits,
                  intTruthy, chOK, mixOK])
              | decide
              | omega)
        | simp_all
    case groupA =>
      rw [hact] at hr
      dsimp only at hr
      repeat' split at hr
      all_goals try simp only [List.cons_append, List.nil_append,
        List.append_nil, List.mem_cons, List.mem_singleton,
        List.not_mem_nil, or_false] at hr
      all_goals first
        | (subst hr
           refine SendOut.groupR _ _ ?_ ?_ <;>
             first
              | exact getChannel_range labels hl _ _ (by assumption)
              | (simp_all [validateChannel, validateMix, engineLimits,
                  intTruthy, chOK, mixOK])
              | decide
              | omega)
        | simp_all
    case instrument_slang =>
      rw [hact] at hr
      dsimp only at hr
      repeat' split at hr
      all_goals try simp only [List.cons_append, List.nil_append,
        List.append_nil, List.mem_cons, List.mem_singleton,
        List.not_mem_nil, or_false] at hr
      all_goals first
        | (rcases hr with rfl | rfl
           · refine SendOut.slangOn _ _ ?_ <;>
               first
              | exact getChannel_range labels hl _ _ (by assumption)
              | (simp_all [validateChannel, validateMix, engineLimits,
                  intTruthy, chOK, mixOK])
              | decide
              | omega
           · refine SendOut.slangLevel _ _ ?_ <;>
               first
              | exact getChannel_range labels hl _ _ (by assumption)
              | (simp_all [validateChannel, validateMix, engineLimits,
                  intTruthy, chOK, mixOK])
              | decide
              | omega)
        | simp_all
    case monitor_slang =>
      rw [hact] at hr
      dsimp only at hr
      repeat' split at hr
      all_goals try simp only [List.cons_append, List.nil_append,
        List.append_nil, List.mem_cons, List.mem_singleton,
        List.not_mem_nil, or_false] at hr
      all_goals first
        | (rcases hr with rfl | rfl
           · refine SendOut.slangOn _ _ ?_ <;>
               first
              | exact getChannel_range labels hl _ _ (by assumption)
              | (simp_all [validateChannel, validateMix, engineLimits,
                  intTruthy, chOK, mixOK])
              | decide
              | omega
           · refine SendOut.slangLevel _ _ ?_ <;>
               first
              | exact getChannel_range labels hl _ _ (by assumption)
              | (simp_all [validateChannel, validateMix, engineLimits,
                  intTruthy, chOK, mixOK])
              | decide
              | omega)
        | simp_all
    case patch_into =>
      rw [hact] at hr
      dsimp only at hr
      repeat' split at hr
      all_goals try simp only [List.cons_append, List.nil_append,
        List.append_nil, List.mem_cons, List.mem_singleton,
        List.not_mem_nil, or_false] at hr
      all_goals first
        | (subst hr
           refine SendOut.patchIntoOn _ _ ?_ ?_ <;>
             first
              | exact getChannel_range labels hl _ _ (by assumption)
              | (simp_all [validateChannel, validateMix, engineLimits,
                  intTruthy, chOK, mixOK])
              | decide
              | omega)
        | simp_all
    case singer_wedge =>
      rw [hact] at hr
      dsimp only at hr
      repeat' split at hr
      all_goals try simp only [List.cons_append, List.nil_append,
        List.append_nil, List.mem_cons, List.mem_singleton,
        List.not_mem_nil, or_false] at hr
      all_goals first
        | (subst hr
           refine SendOut.singerW _ ?_ <;>
             first
              | exact getChannel_range labels hl _ _ (by assumption)
              | (simp_all [validateChannel, validateMix, engineLimits,
                  intTruthy, chOK, mixOK])
              | decide
              | omega)
        | simp_all
    case in_ears =>
      rw [hact] at hr
      dsimp only at hr
      repeat' split at hr
      all_goals try simp only [List.cons_append, List.nil_append,
        List.append_nil, List.mem_cons, List.mem_singleton,
        List.not_mem_nil, or_false] at hr
      all_goals first
        | (subst hr
           refine SendOut.inEarsOn _ ?_ <;>
             first
              | exact getChannel_range labels hl _ _ (by assumption)
              | (simp_all [validateChannel, validateMix, engineLimits,
                  intTruthy, chOK, mixOK])
              | decide
              | omega)
        | simp_all
    case patch_track =>
      rw [hact] at hr
      dsimp only at hr
      repeat' split at hr
      all_goals try simp only [List.cons_append, List.nil_append,
        List.append_nil, List.mem_cons, List.mem_singleton,
        List.not_mem_nil, or_false] at hr
      all_goals first
        | (subst hr
           refine SendOut.patchTrackOn _ _ ?_ ?_ <;>
             first
              | exact getChannel_range labels hl _ _ (by assumption)
              | (simp_all [validateChannel, validateMix, engineLimits,
                  intTruthy, chOK, mixOK])
              | decide
              | omega)
        | simp_all
    case to_wedges =>
      rw [hact] at hr
      dsimp only at hr
      repeat' split at hr
      all_goals try simp only [List.cons_append, List.nil_append,
        List.append_nil, List.mem_cons, List.mem_singleton,
        List.not_mem_nil, or_false] at hr
      all_goals first
        | (rcases hr with rfl | rfl
           · refine SendOut.wedge1 _ _ ?_ <;>
               first
              | exact getChannel_range labels hl _ _ (by assumption)
              | (simp_all [validateChannel, validateMix, engineLimits,
                  intTruthy, chOK, mixOK])
              | decide
              | omega
           · refine SendOut.wedge2 _ _ ?_ <;>
               first
              | exact getChannel_range labels hl _ _ (by assumption)
              | (simp_all [validateChannel, validateMix, engineLimits,
                  intTruthy, chOK, mixOK])
              | decide
              | omega)
        | simp_all
    case overheads_monitors =>
      rw [hact] at hr
      dsimp only at hr
      repeat' split at hr
      all_goals try simp only [List.cons_append, List.nil_append,
        List.append_nil, List.mem_cons, List.mem_singleton,
        List.not_mem_nil, or_false] at hr
      all_goals first
        | (subst hr
           refine SendOut.overheadsMon _ ?_ <;>
             first
              | exact getChannel_range labels hl _ _ (by assumption)
              | (simp_all [validateChannel, validateMix, engineLimits,
                  intTruthy, chOK, mixOK])
              | decide
              | omega)
        | simp_all
    case vocal_ears =>
      rw [hact] at hr
      dsimp only at hr
      repeat' split at hr
      all_goals try simp only [List.cons_append, List.nil_append,
        List.append_nil, List.mem_cons, List.mem_singleton,
        List.not_mem_nil, or_false] at hr
      all_goals first
        | (subst hr
           refine SendOut.vocalEarsOn _ ?_ <;>
             first
              | exact getChannel_range labels hl _ _ (by assumption)
              | (simp_all [validateChannel, validateMix, engineLimits,
                  intTruthy, chOK, mixOK])
              | decide
              | omega)
        | simp_all
    case aux_matrix =>
      rw [hact] at hr
      dsimp only at hr
      repeat' split at hr
      all_goals try simp only [List.cons_append, List.nil_append,
        List.append_nil, List.mem_cons, List.mem_singleton,
        List.not_mem_nil, or_false] at hr
      all_goals first
        | (subst hr
           refine SendOut.auxMatrixR _ ?_ <;>
             first
              | exact getChannel_range labels hl _ _ (by assumption)
              | (simp_all [validateChannel, validateMix, engineLimits,
                  intTruthy, chOK, mixOK])
              | decide
              | omega)
        | simp_all
    case track_wedge =>
      rw [hact] at hr
      dsimp only at hr
      repeat' split at hr
      all_goals try simp only [List.cons_append, List.nil_append,
        List.append_nil, List.mem_cons, List.mem_singleton,
        List.not_mem_nil, or_false] at hr
      all_goals first
        | (subst hr
           refine SendOut.trackWedgeOn _ ?_ <;>
             first
              | exact getChannel_range labels hl _ _ (by assumption)
              | (simp_all [validateChannel, validateMix, engineLimits,
                  intTruthy, chOK, mixOK])
              | decide
              | omega)
        | simp_all

/-- Every command the fader emitter returns for a validated channel has
a FaderOut shape. -/
theorem faderEmit_faderOut (labels : LabelTable)
    (hl : LabelsInRange labels) (cl : Str) (m : MatchRes)
    (act : FaderAct) (ch : Int) (levelText : Option Str)
    (hv : validateChannel engineLimits ch = true)
    (l : List RCPCommand)
    (hE : faderEmit engineLimits labels cl m act ch levelText = .ok l) :
    ∀ r ∈ l, FaderOut r := by
  intro r hr
  cases act
  case fset =>
    unfold faderEmit at hE
    dsimp only at hE
    repeat' split at hE
    all_goals first
      | (injection hE with hE1
         subst hE1)
      | injection hE
    all_goals try simp only [List.cons_append, List.nil_append,
      List.append_nil, List.mem_cons, List.mem_singleton,
      List.not_mem_nil, or_false] at hr
    all_goals first
      | (subst hr
         refine FaderOut.setLvl _ _ ?_ <;>
           first
            | exact getChannel_range labels hl _ _ (by assumption)
            | (simp_all [validateChannel, engineLimits, chOK, intTruthy])
            | omega
            | decide)
      | simp_all
  case crank =>
    unfold faderEmit at hE
    dsimp only at hE
    repeat' split at hE
    all_goals first
      | (injection hE with hE1
         subst hE1)
      | injection hE
    all_goals try simp only [List.cons_append, List.nil_append,
      List.append_nil, List.mem_cons, List.mem_singleton,
      List.not_mem_nil, or_false] at hr
    all_goals first
      | (subst hr
         refine FaderOut.crankTo _ _ ?_ <;>
           first
            | exact getChannel_range labels hl _ _ (by assumption)
            | (simp_all [validateChannel, engineLimits, chOK, intTruthy])
            | omega
            | decide)
      | (subst hr
         refine FaderOut.crankHot _ ?_ <;>
           first
            | exact getChannel_range labels hl _ _ (by assumption)
            | (simp_all [validateChannel, engineLimits, chOK, intTruthy])
            | omega
            | decide)
      | simp_all
  case bury =>
    unfold faderEmit at hE
    dsimp only at hE
    repeat' split at hE
    all_goals first
      | (injection hE with hE1
         subst hE1)
      | injection hE
    all_goals try simp only [List.cons_append, List.nil_append,
      List.append_nil, List.mem_cons, List.mem_singleton,
      List.not_mem_nil, or_false] at hr
    all_goals first
      | (subst hr
         refine FaderOut.buryF _ ?_ <;>
           first
            | exact getChannel_range labels hl _ _ (by assumption)
            | (simp_all [validateChannel, engineLimits, chOK, intTruthy])
            | omega
            | decide)
      | simp_all
  case hotA =>
    unfold faderEmit at hE
    dsimp only at hE
    repeat' split at hE
    all_goals first
      | (injection hE with hE1
         subst hE1)
      | injection hE
    all_goals try simp only [List.cons_append, List.nil_append,
      List.append_nil, List.mem_cons, List.mem_singleton,
      List.not_mem_nil, or_false] at hr
    all_goals first
      | (subst hr
         refine FaderOut.hotF _ ?_ <;>
           first
            | exact getChannel_range labels hl _ _ (by assumption)
            | (simp_all [validateChannel, engineLimits, chOK, intTruthy])
            | omega
            | decide)
      | simp_all
  case quietA =>
    unfold faderEmit at hE
    dsimp only at hE
    repeat' split at hE
    all_goals first
      | (injection hE with hE1
         subst hE1)
      | injection hE
    all_goals try simp only [List.cons_append, List.nil_append,
      List.append_nil, List.mem_cons, List.mem_singleton,
      List.not_mem_nil, or_false] at hr
    all_goals first
      | (subst hr
         refine FaderOut.quietF _ ?_ <;>
           first
            | exact getChannel_range labels hl _ _ (by assumption)
            | (simp_all [validateChannel, engineLimits, chOK, intTruthy])
            | omega
            | decide)
      | simp_all
  case bring_up =>
    unfold faderEmit at hE
    dsimp only at hE
    repeat' split at hE
    all_goals first
      | (injection hE with hE1
         subst hE1)
      | injection hE
    all_goals try simp only [List.cons_append, List.nil_append,
      List.append_nil, List.mem_cons, List.mem_singleton,
      List.not_mem_nil, or_false] at hr
    all_goals first
      | (subst hr
         refine FaderOut.bringUp _ _ ?_ <;>
           first
            | exact getChannel_range labels hl _ _ (by assumption)
            | (simp_all [validateChannel, engineLimits, chOK, intTruthy])
            | omega
            | decide)
      | simp_all
  case bring_down =>
    unfold faderEmit at hE
    dsimp only at hE
    repeat' split at hE
    all_goals first
      | (injection hE with hE1
         subst hE1)
      | injection hE
    all_goals try simp only [List.cons_append, List.nil_append,
      List.append_nil, List.mem_cons, List.mem_singleton,
      List.not_mem_nil, or_false] at hr
    all_goals first
      | (subst hr
         refine FaderOut.bringDown _ _ ?_ <;>
           first
            | exact getChannel_range labels hl _ _ (by assumption)
            | (simp_all [validateChannel, engineLimits, chOK, intTruthy])
            | omega
            | decide)
      | simp_all
  case relative_up =>
    unfold faderEmit at hE
    dsimp only at hE
    repeat' split at hE
    all_goals first
      | (injection hE with hE1
         subst hE1)
      | injection hE
    all_goals try simp only [List.cons_append, List.nil_append,
      List.append_nil, List.mem_cons, List.mem_singleton,
      List.not_mem_nil, or_false] at hr
    all_goals first
      | (subst hr
         refine FaderOut.relUpF _ _ ?_ <;>
           first
            | exact getChannel_range labels hl _ _ (by assumption)
            | (simp_all [validateChannel, engineLimits, chOK, intTruthy])
            | omega
            | decide)
      | simp_all
  case relative_down =>
    unfold faderEmit at hE
    dsimp only at hE
    repeat' split at hE
    all_goals first
      | (injection hE with hE1
         subst hE1)
      | injection hE
    all_goals try simp only [List.cons_append, List.nil_append,
      List.append_nil, List.mem_cons, List.mem_singleton,
      List.not_mem_nil, or_false] at hr
    all_goals first
      | (subst hr
         refine FaderOut.relDownF _ _ ?_ <;>
           first
            | exact getChannel_range labels hl _ _ (by assumption)
            | (simp_all [validateChannel, engineLimits, chOK, intTruthy])
            | omega
            | decide)
      | simp_all
  case boostA =>
    unfold faderEmit at hE
    dsimp only at hE
    repeat' split at hE
    all_goals first
      | (injection hE with hE1
         subst hE1)
      | injection hE
    all_goals try simp only [List.cons_append, List.nil_append,
      List.append_nil, List.mem_cons, List.mem_singleton,
      List.not_mem_nil, or_false] at hr
    all_goals first
      | (subst hr
         refine FaderOut.boostF _ _ ?_ <;>
           first
            | exact getChannel_range labels hl _ _ (by assumption)
            | (simp_all [validateChannel, engineLimits, chOK, intTruthy])
            | omega
            | decide)
      | simp_all
  case pull_down_instrument =>
    unfold faderEmit at hE
    dsimp only at hE
    repeat' split at hE
    all_goals first
      | (injection hE with hE1
         subst hE1)
      | injection hE
    all_goals try simp only [List.cons_append, List.nil_append,
      List.append_nil, List.mem_cons, List.mem_singleton,
      List.not_mem_nil, or_false] at hr
    all_goals first
      | (subst hr
         refine FaderOut.pullDownI _ _ <;>
           first
            | exact getChannel_range labels hl _ _ (by assumption)
            | (simp_all [validateChannel, engineLimits, chOK, intTruthy])
            | omega
            | decide)
      | simp_all
  case vocal_up =>
    unfold faderEmit at hE
    dsimp only at hE
    repeat' split at hE
    all_goals first
      | (injection hE with hE1
         subst hE1)
      | injection hE
    all_goals try simp only [List.cons_append, List.nil_append,
      List.append_nil, List.mem_cons, List.mem_singleton,
      List.not_mem_nil, or_false] at hr
    all_goals first
      | (subst hr
         refine FaderOut.vocalUpF _ <;>
           first
            | exact getChannel_range labels hl _ _ (by assumption)
            | (simp_all [validateChannel, engineLimits, chOK, intTruthy])
            | omega
            | decide)
      | simp_all
  case instrument_to_level =>
    unfold faderEmit at hE
    dsimp only at hE
    repeat' split at hE
    all_goals first
      | (injection hE with hE1
         subst hE1)
      | injection hE
    all_goals try simp only [List.cons_append, List.nil_append,
      List.append_nil, List.mem_cons, List.mem_singleton,
      List.not_mem_nil, or_false] at hr
    all_goals first
      | (subst hr
         refine FaderOut.instrLvl _ _ _ ?_ <;>
           first
            | exact getChannel_range labels hl _ _ (by assumption)
            | (simp_all [validateChannel, engineLimits, chOK, intTruthy])
            | omega
            | decide)
      | simp_all
  case fader_set =>
    unfold faderEmit at hE
    dsimp only at hE
    repeat' split at hE
    all_goals first
      | (injection hE with hE1
         subst hE1)
      | injection hE
    all_goals try simp only [List.cons_append, List.nil_append,
      List.append_nil, List.mem_cons, List.mem_singleton,
      List.not_mem_nil, or_false] at hr
    all_goals first
      | (subst hr
         refine FaderOut.faderSetF _ _ ?_ <;>
           first
            | exact getChannel_range labels hl _ _ (by assumption)
            | (simp_all [validateChannel, engineLimits, chOK, intTruthy])
            | omega
            | decide)
      | simp_all
  case input_adjust =>
    unfold faderEmit at hE
    dsimp only at hE
    repeat' split at hE
    all_goals first
      | (injection hE with hE1
         subst hE1)
      | injection hE
    all_goals try simp only [List.cons_append, List.nil_append,
      List.append_nil, List.mem_cons, List.mem_singleton,
      List.not_mem_nil, or_false] at hr
    all_goals first
      | (subst hr
         refine FaderOut.inputSetF _ _ ?_ <;>
           first
            | exact getChannel_range labels hl _ _ (by assumption)
            | (simp_all [validateChannel, engineLimits, chOK, intTruthy])
            | omega
            | decide)
      | simp_all
  case push_action =>
    unfold faderEmit at hE
    dsimp only at hE
    repeat' split at hE
    all_goals first
      | (injection hE with hE1
         subst hE1)
      | injection hE
    all_goals try simp only [List.cons_append, List.nil_append,
      List.append_nil, List.mem_cons, List.mem_singleton,
      List.not_mem_nil, or_false] at hr
    all_goals first
      | (subst hr
         refine FaderOut.pushAct _ <;>
           first
            | exact getChannel_range labels hl _ _ (by assumption)
            | (simp_all [validateChannel, engineLimits, chOK, intTruthy])
            | omega
            | decide)
      | simp_all
  case push_slight =>
    unfold faderEmit at hE
    dsimp only at hE
    repeat' split at hE
    all_goals first
      | (injection hE with hE1
         subst hE1)
      | injection hE
    all_goals try simp only [List.cons_append, List.nil_append,
      List.append_nil, List.mem_cons, List.mem_singleton,
      List.not_mem_nil, or_false] at hr
    all_goals first
      | (subst hr
         refine FaderOut.pushSlightF _ ?_ <;>
           first
            | exact getChannel_range labels hl _ _ (by assumption)
            | (simp_all [validateChannel, engineLimits, chOK, intTruthy])
            | omega
            | decide)
      | simp_all
  case bump_up =>
    unfold faderEmit at hE
    dsimp only at hE
    repeat' split at hE
    all_goals first
      | (injection hE with hE1
         subst hE1)
      | injection hE
    all_goals try simp only [List.cons_append, List.nil_append,
      List.append_nil, List.mem_cons, List.mem_singleton,
      List.not_mem_nil, or_false] at hr
    all_goals first
      | (subst hr
         refine FaderOut.bumpUp _ _ ?_ <;>
           first
            | exact getChannel_range labels hl _ _ (by assumption)
            | (simp_all [validateChannel, engineLimits, chOK, intTruthy])
            | omega
            | decide)
      | simp_all
  case bump_down =>
    unfold faderEmit at hE
    dsimp only at hE
    repeat' split at hE
    all_goals first
      | (injection hE with hE1
         subst hE1)
      | injection hE
    all_goals try simp only [List.cons_append, List.nil_append,
      List.append_nil, List.mem_cons, List.mem_singleton,
      List.not_mem_nil, or_false] at hr
    all_goals first
      | (subst hr
         refine FaderOut.bumpDown _ _ ?_ <;>
           first
            | exact getChannel_range labels hl _ _ (by assumption)
            | (simp_all [validateChannel, engineLimits, chOK, intTruthy])
            | omega
            | decide)
      | simp_all
  case adjust =>
    unfold faderEmit at hE
    dsimp only at hE
    repeat' split at hE
    all_goals first
      | (injection hE with hE1
         subst hE1)
      | injection hE
    all_goals try simp only [List.cons_append, List.nil_append,
      List.append_nil, List.mem_cons, List.mem_singleton,
      List.not_mem_nil, or_false] at hr
    all_goals first
      | (subst hr
         refine FaderOut.adjustSet _ _ ?_ <;>
           first
            | exact getChannel_range labels hl _ _ (by assumption)
            | (simp_all [validateChannel, engineLimits, chOK, intTruthy])
            | omega
            | decide)
      | (subst hr
         refine FaderOut.adjustMan _ ?_ <;>
           first
            | exact getChannel_range labels hl _ _ (by assumption)
            | (simp_all [validateChannel, engineLimits, chOK, intTruthy])
            | omega
            | decide)
      | simp_all
  case gainA =>
    unfold faderEmit at hE
    dsimp only at hE
    repeat' split at hE
    all_goals first
      | (injection hE with hE1
         subst hE1)
      | injection hE
    all_goals try simp only [List.cons_append, List.nil_append,
      List.append_nil, List.mem_cons, List.mem_singleton,
      List.not_mem_nil, or_false] at hr
    all_goals first
      | (subst hr
         refine FaderOut.gainSet _ _ ?_ <;>
           first
            | exact getChannel_range labels hl _ _ (by assumption)
            | (simp_all [validateChannel, engineLimits, chOK, intTruthy])
            | omega
            | decide)
      | (subst hr
         refine FaderOut.gainMan _ ?_ <;>
           first
            | exact getChannel_range labels hl _ _ (by assumption)
            | (simp_all [validateChannel, engineLimits, chOK, intTruthy])
            | omega
            | decide)
      | simp_all
  case bring_up_instrument =>
    unfold faderEmit at hE
    dsimp only at hE
    repeat' split at hE
    all_goals first
      | (injection hE with hE1
         subst hE1)
      | injection hE
    all_goals try simp only [List.cons_append, List.nil_append,
      List.append_nil, List.mem_cons, List.mem_singleton,
      List.not_mem_nil, or_false] at hr
    all_goals first
      | (subst hr
         refine FaderOut.bringUp _ _ ?_ <;>
           first
            | exact getChannel_range labels hl _ _ (by assumption)
            | (simp_all [validateChannel, engineLimits, chOK, intTruthy])
            | omega
            | decide)
      | simp_all
  case bring_down_instrument =>
    unfold faderEmit at hE
    dsimp only at hE
    repeat' split at hE
    all_goals first
      | (injection hE with hE1
         subst hE1)
      | injection hE
    all_goals try simp only [List.cons_append, List.nil_append,
      List.append_nil, List.mem_cons, List.mem_singleton,
      List.not_mem_nil, or_false] at hr
    all_goals first
      | (subst hr
         refine FaderOut.bringDown _ _ ?_ <;>
           first
            | exact getChannel_range labels hl _ _ (by assumption)
            | (simp_all [validateChannel, engineLimits, chOK, intTruthy])
            | omega
            | decide)
      | simp_all
  case set_instrument =>
    unfold faderEmit at hE
    dsimp only at hE
    repeat' split at hE
    all_goals first
      | (injection hE with hE1
         subst hE1)
      | injection hE
    all_goals try simp only [List.cons_append, List.nil_append,
      List.append_nil, List.mem_cons, List.mem_singleton,
      List.not_mem_nil, or_false] at hr
    all_goals first
      | (subst hr
         refine FaderOut.instrLvl _ _ _ ?_ <;>
           first
            | exact getChannel_range labels hl _ _ (by assumption)
            | (simp_all [validateChannel, engineLimits, chOK, intTruthy])
            | omega
            | decide)
      | simp_all
  case relative =>
    unfold faderEmit at hE
    dsimp only at hE
    repeat' split at hE
    all_goals first
      | (injection hE with hE1
         subst hE1)
      | injection hE
    all_goals try simp only [List.cons_append, List.nil_append,
      List.append_nil, List.mem_cons, List.mem_singleton,
      List.not_mem_nil, or_false] at hr
    all_goals first
      | (subst hr
         refine FaderOut.relInc _ _ ?_ <;>
           first
            | exact getChannel_range labels hl _ _ (by assumption)
            | (simp_all [validateChannel, engineLimits, chOK, intTruthy])
            | omega
            | decide)
      | (subst hr
         refine FaderOut.relDec _ _ ?_ <;>
           first
            | exact getChannel_range labels hl _ _ (by assumption)
            | (simp_all [validateChannel, engineLimits, chOK, intTruthy])
            | omega
            | decide)
      | simp_all

/-- Every command one fader row returns has a FaderOut shape. -/
theorem faderStep_faderOut (labels : LabelTable)
    (hl : LabelsInRange labels) (cl : Str) (p : FaderPat)
    (l : List RCPCommand)
    (hE : faderStep engineLimits labels cl p = .ok l) :
    ∀ r ∈ l, FaderOut r := by
  unfold faderStep at hE
  dsimp only at hE
  repeat' split at hE
  all_goals first
    | (injection hE with hE1
       subst hE1
       intro r hr
       simp at hr)
    | exact faderEmit_faderOut labels hl cl _ _ _ _ (by assumption) l hE

/-- Membership extraction for the accumulating fold of the fader
loop. -/
theorem foldlM_except_mem (f : FaderPat → Except Unit (List RCPCommand)) :
    ∀ (pats : List FaderPat) (acc l : List RCPCommand),
      (pats.foldlM (fun a p => do
        let r ← f p
        pure (a ++ r)) acc) = .ok l →
      ∀ x ∈ l, x ∈ acc ∨ ∃ p ∈ pats, ∃ lr, f p = .ok lr ∧ x ∈ lr := by
  intro pats
  induction pats with
  | nil =>
    intro acc l h x hx
    simp only [List.foldlM, pure, Except.pure, Except.ok.injEq] at h
    subst h
    exact Or.inl hx
  | cons p ps ih =>
    intro acc l h x hx
    rw [List.foldlM_cons] at h
    cases hf : f p with
    | error e =>
      rw [hf] at h
      simp [Bind.bind, Except.bind] at h
    | ok lr =>
      rw [hf] at h
      simp only [Bind.bind, Except.bind, pure, Except.pure] at h
      rcases ih (acc ++ lr) l h x hx with hmem | ⟨q, hq, lq, hfq, hxq⟩
      · rcases List.mem_append.mp hmem with h1 | h2
        · exact Or.inl h1
        · exact Or.inr ⟨p, by simp, lr, hf, h2⟩
      · exact Or.inr ⟨q, by simp [hq], lq, hfq, hxq⟩

/-- Every command the fader processor returns has a FaderOut shape. -/
theorem processChannelFader_faderOut (labels : LabelTable)
    (hl : LabelsInRange labels) (command : Str) (l : List RCPCommand)
    (hok : processChannelFader engineLimits labels command = .ok l) :
    ∀ r ∈ l, FaderOut r := by
  unfold processChannelFader at hok
  intro r hr
  rcases foldlM_except_mem
      (faderStep engineLimits labels (lowerS command)) faderPatterns [] l
      hok r hr with hmem | ⟨p, hp, lr, hfp, hrl⟩
  · simp at hmem
  · exact faderStep_faderOut labels hl (lowerS command) p lr hfp r hrl

/-- Every command one DCA fader row emits has a DcaOut shape. -/
theorem dcaFaderStep_dcaOut (cl : Str) (p : RE × DcaAct) :
    ∀ r ∈ dcaFaderStep engineLimits cl p, DcaOut r := by
  intro r hr
  unfold dcaFaderStep at hr
  repeat' split at hr
  all_goals try simp only [List.mem_cons, List.mem_singleton,
    List.not_mem_nil, or_false] at hr
  all_goals first
    | (subst hr
       refine DcaOut.level _ _ ?_ <;>
         simp_all [validateDca, engineLimits, intTruthy])
    | (subst hr
       refine DcaOut.up _ ?_ <;>
         simp_all [validateDca, engineLimits, intTruthy])
    | (subst hr
       refine DcaOut.down _ ?_ <;>
         simp_all [validateDca, engineLimits, intTruthy])
    | (subst hr
       refine DcaOut.hot _ ?_ <;>
         simp_all [validateDca, engineLimits, intTruthy])
    | simp_all

/-- Every command one DCA mute row emits has a DcaOut shape. -/
theorem dcaMuteStep_dcaOut (cl : Str) (p : RE × Int) :
    ∀ r ∈ dcaMuteStep engineLimits cl p, DcaOut r := by
  intro r hr
  unfold dcaMuteStep at hr
  split at hr
  · simp at hr
  · split at hr
    · split at hr
      · simp only [List.mem_singleton] at hr
        subst hr
        refine DcaOut.muteD _ _ ?_
        simp_all [validateDca, engineLimits, intTruthy]
      · simp at hr
    · simp at hr

/-- Every command the DCA label row emits has a DcaOut shape. -/
theorem dcaLabelStep_dcaOut (cl : Str) (dl : LabelTable) :
    ∀ r ∈ (dcaLabelStep engineLimits cl dl).1, DcaOut r := by
  intro r hr
  unfold dcaLabelStep at hr
  repeat' split at hr
  all_goals dsimp only at hr
  all_goals try simp only [List.mem_cons, List.mem_singleton,
    List.not_mem_nil, or_false] at hr
  all_goals first
    | (subst hr
       refine DcaOut.labelD _ _ ?_ <;>
         simp_all [validateDca, engineLimits, intTruthy])
    | simp_all

/-- Every command the DCA processor returns has a DcaOut shape. -/
theorem processDcaCommands_dcaOut (dl : LabelTable) (command : Str) :
    ∀ r ∈ (processDcaCommands engineLimits dl command).1, DcaOut r := by
  intro r hr
  unfold processDcaCommands at hr
  dsimp only at hr
  rcases List.mem_append.mp hr with h12 | h3
  · rcases List.mem_append.mp h12 with h1 | h2
    · rcases List.mem_flatten.mp h1 with ⟨lx, hlx, hrx⟩
      rcases List.mem_map.mp hlx with ⟨p, hp, rfl⟩
      exact dcaFaderStep_dcaOut _ p r hrx
    · rcases List.mem_flatten.mp h2 with ⟨lx, hlx, hrx⟩
      rcases List.mem_map.mp hlx with ⟨p, hp, rfl⟩
      exact dcaMuteStep_dcaOut _ p r hrx
  · exact dcaLabelStep_dcaOut _ _ r h3

/-- Every command the send processor returns has a SendOut shape. -/
theorem processSendToMix_sendOut (labels : LabelTable)
    (hl : LabelsInRange labels) (command : Str) :
    ∀ r ∈ processSendToMix engineLimits labels command, SendOut r := by
  intro r hr
  unfold processSendToMix at hr
  dsimp only at hr
  rcases List.mem_flatten.mp hr with ⟨lx, hlx, hrx⟩
  rcases List.mem_map.mp hlx with ⟨p, hp, rfl⟩
  exact sendStep_sendOut labels hl (lowerS command) p r hrx


/-- Every command one mute row emits has a MuteOut shape. -/
theorem muteStep_muteOut (labels : LabelTable) (hl : LabelsInRange labels)
    (cl : Str) (p : MutePat) :
    ∀ r ∈ muteStep engineLimits labels cl p, MuteOut r := by
  intro r hr
  unfold muteStep at hr
  repeat' (first | split at hr | dsimp only at hr)
  all_goals try simp only [List.cons_append, List.nil_append,
    List.append_nil, List.mem_cons, List.mem_singleton,
    List.not_mem_nil, or_false] at hr
  all_goals first
    | (subst hr
       refine MuteOut.soloInstr _ _ ?_ <;>
         first
          | exact getChannel_range labels hl _ _ (by assumption)
          | (simp_all [validateChannel, engineLimits, chOK, intTruthy])
          | omega)
    | (subst hr
       refine MuteOut.soloCh _ ?_ <;>
         first
          | exact getChannel_range labels hl _ _ (by assumption)
          | (simp_all [validateChannel, engineLimits, chOK, intTruthy])
          | omega)
    | (subst hr
       refine MuteOut.muteInstr _ _ _ ?_ <;>
         first
          | exact getChannel_range labels hl _ _ (by assumption)
          | (simp_all [validateChannel, engineLimits, chOK, intTruthy])
          | omega)
    | (subst hr
       refine MuteOut.muteCh _ _ ?_ <;>
         first
          | exact getChannel_range labels hl _ _ (by assumption)
          | (simp_all [validateChannel, engineLimits, chOK, intTruthy])
          | omega)
    | simp_all

/-- Every validated pan emission has the panTo shape. -/
theorem panFinal_panOut (ch pv : Option Int) :
    ∀ r ∈ panFinal engineLimits ch pv, PanOut r := by
  intro r hr
  unfold panFinal at hr
  repeat' (first | split at hr | dsimp only at hr)
  all_goals try simp only [List.mem_cons, List.mem_singleton,
    List.not_mem_nil, or_false] at hr
  all_goals first
    | (subst hr
       refine PanOut.panTo _ _ ?_
       simp_all [validateChannel, engineLimits, chOK, intTruthy])
    | simp_all

/-- Every command one pan row emits has a PanOut shape. -/
theorem panStep_panOut (labels : LabelTable) (hl : LabelsInRange labels)
    (cl : Str) (p : PanPat) :
    ∀ r ∈ panStep engineLimits labels cl p, PanOut r := by
  intro r hr
  unfold panStep at hr
  repeat' (first | split at hr | dsimp only at hr)
  all_goals try simp only [List.cons_append, List.nil_append,
    List.append_nil, List.mem_cons, List.mem_singleton,
    List.not_mem_nil, or_false] at hr
  all_goals first
    | exact panFinal_panOut _ _ r hr
    | (rcases hr with rfl | rfl
       · refine PanOut.spreadL _ _ ?_
         exact getChannel_range labels hl _ _ (by assumption)
       · refine PanOut.spreadR _ _ ⟨?_, ?_⟩
         · exact (getChannel_range labels hl _ _ (by assumption)).1
         · assumption)
    | (subst hr
       refine PanOut.spreadL _ _ ?_
       exact getChannel_range labels hl _ _ (by assumption))
    | simp_all

/-- Every command the pan processor returns has a PanOut shape. -/
theorem processPanCommands_panOut (labels : LabelTable)
    (hl : LabelsInRange labels) (command : Str) :
    ∀ r ∈ processPanCommands engineLimits labels command, PanOut r := by
  intro r hr
  unfold processPanCommands at hr
  dsimp only at hr
  rcases List.mem_flatten.mp hr with ⟨lx, hlx, hrx⟩
  rcases List.mem_map.mp hlx with ⟨p, hp, rfl⟩
  exact panStep_panOut labels hl (lowerS command) p r hrx

/-- Every command the mute processor returns has a MuteOut shape. -/
theorem processChannelMute_muteOut (labels : LabelTable)
    (hl : LabelsInRange labels) (command : Str) :
    ∀ r ∈ processChannelMute engineLimits labels command, MuteOut r := by
  intro r hr
  unfold processChannelMute at hr
  dsimp only at hr
  rcases List.mem_flatten.mp hr with ⟨lx, hlx, hrx⟩
  rcases List.mem_map.mp hlx with ⟨p, hp, rfl⟩
  exact muteStep_muteOut labels hl (lowerS command) p r hrx

/-- Every command one label row emits has a LabelOut shape. -/
theorem labelStep_labelOut (cl : Str) (p : RE) (tbl : LabelTable) :
    ∀ r ∈ (labelStep engineLimits cl p tbl).1, LabelOut r := by
  intro r hr
  unfold labelStep at hr
  repeat' (first | split at hr | dsimp only at hr)
  all_goals try simp only [List.mem_cons, List.mem_singleton,
    List.not_mem_nil, or_false] at hr
  all_goals first
    | (subst hr
       refine LabelOut.labelSet _ _ ?_
       simp_all [validateChannel, engineLimits, chOK, intTruthy])
    | simp_all

/-- Membership extraction for the state-threading fold of the label
loop. -/
theorem labelFold_mem (lim : Limits) (cl : Str) :
    ∀ (pats : List RE) (acc : List RCPCommand × LabelTable)
      (x : RCPCommand),
      x ∈ (pats.foldl (fun (a : List RCPCommand × LabelTable) p =>
          let (r, labels1) := labelStep lim cl p a.2
          (a.1 ++ r, labels1)) acc).1 →
      x ∈ acc.1 ∨ ∃ p ∈ pats, ∃ tbl, x ∈ (labelStep lim cl p tbl).1 := by
  intro pats
  induction pats with
  | nil =>
    intro acc x hx
    exact Or.inl hx
  | cons p ps ih =>
    intro acc x hx
    rw [List.foldl_cons] at hx
    rcases hstep : labelStep lim cl p acc.2 with ⟨r1, l1⟩
    rw [hstep] at hx
    dsimp only at hx
    rcases ih (acc.1 ++ r1, l1) x hx with h1 | ⟨q, hq, tbl, hmem⟩
    · rcases List.mem_append.mp h1 with ha | hb
      · exact Or.inl ha
      · refine Or.inr ⟨p, by simp, acc.2, ?_⟩
        rw [hstep]
        exact hb
    · exact Or.inr ⟨q, by simp [hq], tbl, hmem⟩

/-- Every command the label processor returns has a LabelOut shape. -/
theorem processChannelLabel_labelOut (labels : LabelTable)
    (command : Str) :
    ∀ r ∈ (processChannelLabel engineLimits labels command).1,
      LabelOut r := by
  intro r hr
  unfold processChannelLabel at hr
  rcases labelFold_mem engineLimits (lowerS command) labelPatterns
      ([], labels) r hr with h | ⟨p, hp, tbl, hm⟩
  · simp at h
  · exact labelStep_labelOut (lowerS command) p tbl r hm

/-- Every command one scene row emits has a SceneOut shape. -/
theorem sceneStep_sceneOut (cl : Str) (p : RE) :
    ∀ r ∈ sceneStep engineLimits cl p, SceneOut r := by
  intro r hr
  unfold sceneStep at hr
  repeat' (first | split at hr | dsimp only at hr)
  all_goals try simp only [List.mem_cons, List.mem_singleton,
    List.not_mem_nil, or_false] at hr
  all_goals first
    | (subst hr
       refine SceneOut.storeS _ ?_
       simp_all [validateScene, engineLimits, intTruthy])
    | (subst hr
       refine SceneOut.copyS _ ?_
       simp_all [validateScene, engineLimits, intTruthy])
    | (subst hr
       refine SceneOut.recallS _ ?_
       simp_all [validateScene, engineLimits, intTruthy])
    | simp_all

/-- Every command the scene processor returns has a SceneOut shape. -/
theorem processSceneRecall_sceneOut (command : Str) :
    ∀ r ∈ processSceneRecall engineLimits command, SceneOut r := by
  intro r hr
  unfold processSceneRecall at hr
  dsimp only at hr
  rcases List.mem_flatten.mp hr with ⟨lx, hlx, hrx⟩
  rcases List.mem_map.mp hlx with ⟨p, hp, rfl⟩
  exact sceneStep_sceneOut (lowerS command) p r hrx


set_option maxHeartbeats 4000000 in
/-- Every command one effects row emits has an EffOut shape. -/
theorem effStep_effOut (labels : LabelTable) (hl : LabelsInRange labels)
    (command cl : Str) (p : EffPat) :
    ∀ r ∈ effStep engineLimits labels command cl p, EffOut r := by
  intro r hr
  unfold effStep at hr
  split at hr
  · simp at hr
  · cases hact : p.act
    case reverb_instrument =>
      rw [hact] at hr
      repeat' (first | dsimp only at hr | split at hr)
      all_goals try simp only [List.cons_append, List.nil_append,
        List.append_nil, List.mem_cons, List.mem_singleton,
        List.not_mem_nil, or_false] at hr
      all_goals first
      | contradiction
      | (subst hr
         refine EffOut.insertReverbI _ _ _ _ ?_ <;>
           first
          | exact getChannel_range labels hl _ _ (by assumption)
          | (simp_all [validateChannel, engineLimits, chOK, intTruthy])
          | omega)
      | (subst hr
         exact EffOut.sendReverbTxt _)
      | (subst hr
         refine EffOut.slapbackI _ _ ?_ <;>
           first
          | exact getChannel_range labels hl _ _ (by assumption)
          | (simp_all [validateChannel, engineLimits, chOK, intTruthy])
          | omega)
      | (subst hr
         exact EffOut.sendDelayTxt _)
      | (subst hr
         refine EffOut.compressI _ _ ?_ <;>
           first
          | exact getChannel_range labels hl _ _ (by assumption)
          | (simp_all [validateChannel, engineLimits, chOK, intTruthy])
          | omega)
      | (subst hr
         exact EffOut.notchTxt _)
      | (subst hr
         exact EffOut.eqTxtI _ _ _)
      | simp_all
    case reverb_type_instrument =>
      rw [hact] at hr
      repeat' (first | dsimp only at hr | split at hr)
      all_goals try simp only [List.cons_append, List.nil_append,
        List.append_nil, List.mem_cons, List.mem_singleton,
        List.not_mem_nil, or_false] at hr
      all_goals first
      | contradiction
      | (subst hr
         refine EffOut.insertReverbI _ _ _ _ ?_ <;>
           first
          | exact getChannel_range labels hl _ _ (by assumption)
          | (simp_all [validateChannel, engineLimits, chOK, intTruthy])
          | omega)
      | (subst hr
         exact EffOut.sendReverbTxt _)
      | (subst hr
         refine EffOut.slapbackI _ _ ?_ <;>
           first
          | exact getChannel_range labels hl _ _ (by assumption)
          | (simp_all [validateChannel, engineLimits, chOK, intTruthy])
          | omega)
      | (subst hr
         exact EffOut.sendDelayTxt _)
      | (subst hr
         refine EffOut.compressI _ _ ?_ <;>
           first
          | exact getChannel_range labels hl _ _ (by assumption)
          | (simp_all [validateChannel, engineLimits, chOK, intTruthy])
          | omega)
      | (subst hr
         exact EffOut.notchTxt _)
      | (subst hr
         exact EffOut.eqTxtI _ _ _)
      | simp_all
    case delay_instrument =>
      rw [hact] at hr
      repeat' (first | dsimp only at hr | split at hr)
      all_goals try simp only [List.cons_append, List.nil_append,
        List.append_nil, List.mem_cons, List.mem_singleton,
        List.not_mem_nil, or_false] at hr
      all_goals first
      | contradiction
      | (subst hr
         refine EffOut.insertReverbI _ _ _ _ ?_ <;>
           first
          | exact getChannel_range labels hl _ _ (by assumption)
          | (simp_all [validateChannel, engineLimits, chOK, intTruthy])
          | omega)
      | (subst hr
         exact EffOut.sendReverbTxt _)
      | (subst hr
         refine EffOut.slapbackI _ _ ?_ <;>
           first
          | exact getChannel_range labels hl _ _ (by assumption)
          | (simp_all [validateChannel, engineLimits, chOK, intTruthy])
          | omega)
      | (subst hr
         exact EffOut.sendDelayTxt _)
      | (subst hr
         refine EffOut.compressI _ _ ?_ <;>
           first
          | exact getChannel_range labels hl _ _ (by assumption)
          | (simp_all [validateChannel, engineLimits, chOK, intTruthy])
          | omega)
      | (subst hr
         exact EffOut.notchTxt _)
      | (subst hr
         exact EffOut.eqTxtI _ _ _)
      | simp_all
    case slapback_instrument =>
      rw [hact] at hr
      repeat' (first | dsimp only at hr | split at hr)
      all_goals try simp only [List.cons_append, List.nil_append,
        List.append_nil, List.mem_cons, List.mem_singleton,
        List.not_mem_nil, or_false] at hr
      all_goals first
      | contradiction
      | (subst hr
         refine EffOut.insertReverbI _ _ _ _ ?_ <;>
           first
          | exact getChannel_range labels hl _ _ (by assumption)
          | (simp_all [validateChannel, engineLimits, chOK, intTruthy])
          | omega)
      | (subst hr
         exact EffOut.sendReverbTxt _)
      | (subst hr
         refine EffOut.slapbackI _ _ ?_ <;>
           first
          | exact getChannel_range labels hl _ _ (by assumption)
          | (simp_all [validateChannel, engineLimits, chOK, intTruthy])
          | omega)
      | (subst hr
         exact EffOut.sendDelayTxt _)
      | (subst hr
         refine EffOut.compressI _ _ ?_ <;>
           first
          | exact getChannel_range labels hl _ _ (by assumption)
          | (simp_all [validateChannel, engineLimits, chOK, intTruthy])
          | omega)
      | (subst hr
         exact EffOut.notchTxt _)
      | (subst hr
         exact EffOut.eqTxtI _ _ _)
      | simp_all
    case compress_instrument =>
      rw [hact] at hr
      repeat' (first | dsimp only at hr | split at hr)
      all_goals try simp only [List.cons_append, List.nil_append,
        List.append_nil, List.mem_cons, List.mem_singleton,
        List.not_mem_nil, or_false] at hr
      all_goals first
      | contradiction
      | (subst hr
         refine EffOut.insertReverbI _ _ _ _ ?_ <;>
           first
          | exact getChannel_range labels hl _ _ (by assumption)
          | (simp_all [validateChannel, engineLimits, chOK, intTruthy])
          | omega)
      | (subst hr
         exact EffOut.sendReverbTxt _)
      | (subst hr
         refine EffOut.slapbackI _ _ ?_ <;>
           first
          | exact getChannel_range labels hl _ _ (by assumption)
          | (simp_all [validateChannel, engineLimits, chOK, intTruthy])
          | omega)
      | (subst hr
         exact EffOut.sendDelayTxt _)
      | (subst hr
         refine EffOut.compressI _ _ ?_ <;>
           first
          | exact getChannel_range labels hl _ _ (by assumption)
          | (simp_all [validateChannel, engineLimits, chOK, intTruthy])
          | omega)
      | (subst hr
         exact EffOut.notchTxt _)
      | (subst hr
         exact EffOut.eqTxtI _ _ _)
      | simp_all
    case eq_instrument =>
      rw [hact] at hr
      repeat' (first | dsimp only at hr | split at hr)
      all_goals try simp only [List.cons_append, List.nil_append,
        List.append_nil, List.mem_cons, List.mem_singleton,
        List.not_mem_nil, or_false] at hr
      all_goals first
      | contradiction
      | (subst hr
         refine EffOut.insertReverbI _ _ _ _ ?_ <;>
           first
          | exact getChannel_range labels hl _ _ (by assumption)
          | (simp_all [validateChannel, engineLimits, chOK, intTruthy])
          | omega)
      | (subst hr
         exact EffOut.sendReverbTxt _)
      | (subst hr
         refine EffOut.slapbackI _ _ ?_ <;>
           first
          | exact getChannel_range labels hl _ _ (by assumption)
          | (simp_all [validateChannel, engineLimits, chOK, intTruthy])
          | omega)
      | (subst hr
         exact EffOut.sendDelayTxt _)
      | (subst hr
         refine EffOut.compressI _ _ ?_ <;>
           first
          | exact getChannel_range labels hl _ _ (by assumption)
          | (simp_all [validateChannel, engineLimits, chOK, intTruthy])
          | omega)
      | (subst hr
         exact EffOut.notchTxt _)
      | (subst hr
         exact EffOut.eqTxtI _ _ _)
      | simp_all
    case notch_instrument =>
      rw [hact] at hr
      repeat' (first | dsimp only at hr | split at hr)
      all_goals try simp only [List.cons_append, List.nil_append,
        List.append_nil, List.mem_cons, List.mem_singleton,
        List.not_mem_nil, or_false] at hr
      all_goals first
      | contradiction
      | (subst hr
         refine EffOut.insertReverbI _ _ _ _ ?_ <;>
           first
          | exact getChannel_range labels hl _ _ (by assumption)
          | (simp_all [validateChannel, engineLimits, chOK, intTruthy])
          | omega)
      | (subst hr
         exact EffOut.sendReverbTxt _)
      | (subst hr
         refine EffOut.slapbackI _ _ ?_ <;>
           first
          | exact getChannel_range labels hl _ _ (by assumption)
          | (simp_all [validateChannel, engineLimits, chOK, intTruthy])
          | omega)
      | (subst hr
         exact EffOut.sendDelayTxt _)
      | (subst hr
         refine EffOut.compressI _ _ ?_ <;>
           first
          | exact getChannel_range labels hl _ _ (by assumption)
          | (simp_all [validateChannel, engineLimits, chOK, intTruthy])
          | omega)
      | (subst hr
         exact EffOut.notchTxt _)
      | (subst hr
         exact EffOut.eqTxtI _ _ _)
      | simp_all
    case reverb_to_instrument =>
      rw [hact] at hr
      repeat' (first | dsimp only at hr | split at hr)
      all_goals try simp only [List.cons_append, List.nil_append,
        List.append_nil, List.mem_cons, List.mem_singleton,
        List.not_mem_nil, or_false] at hr
      all_goals first
      | contradiction
      | (subst hr
         refine EffOut.insertReverbI _ _ _ _ ?_ <;>
           first
          | exact getChannel_range labels hl _ _ (by assumption)
          | (simp_all [validateChannel, engineLimits, chOK, intTruthy])
          | omega)
      | simp_all
    case hall_reverb_to =>
      rw [hact] at hr
      repeat' (first | dsimp only at hr | split at hr)
      all_goals try simp only [List.cons_append, List.nil_append,
        List.append_nil, List.mem_cons, List.mem_singleton,
        List.not_mem_nil, or_false] at hr
      all_goals first
      | contradiction
      | (subst hr
         refine EffOut.insertReverbI _ _ _ _ ?_ <;>
           first
          | exact getChannel_range labels hl _ _ (by assumption)
          | (simp_all [validateChannel, engineLimits, chOK, intTruthy])
          | omega)
      | simp_all
    case plate_reverb_to =>
      rw [hact] at hr
      repeat' (first | dsimp only at hr | split at hr)
      all_goals try simp only [List.cons_append, List.nil_append,
        List.append_nil, List.mem_cons, List.mem_singleton,
        List.not_mem_nil, or_false] at hr
      all_goals first
      | contradiction
      | (subst hr
         refine EffOut.insertReverbI _ _ _ _ ?_ <;>
           first
          | exact getChannel_range labels hl _ _ (by assumption)
          | (simp_all [validateChannel, engineLimits, chOK, intTruthy])
          | omega)
      | simp_all
    case send_to_delay =>
      rw [hact] at hr
      repeat' (first | dsimp only at hr | split at hr)
      all_goals try simp only [List.cons_append, List.nil_append,
        List.append_nil, List.mem_cons, List.mem_singleton,
        List.not_mem_nil, or_false] at hr
      all_goals first
      | contradiction
      | (subst hr
         refine EffOut.insertDelayI _ _ _ ?_ <;>
           first
          | exact getChannel_range labels hl _ _ (by assumption)
          | (simp_all [validateChannel, engineLimits, chOK, intTruthy])
          | omega)
      | simp_all
    case slapback_on =>
      rw [hact] at hr
      repeat' (first | dsimp only at hr | split at hr)
      all_goals try simp only [List.cons_append, List.nil_append,
        List.append_nil, List.mem_cons, List.mem_singleton,
        List.not_mem_nil, or_false] at hr
      all_goals first
      | contradiction
      | (subst hr
         refine EffOut.insertDelayI _ _ _ ?_ <;>
           first
          | exact getChannel_range labels hl _ _ (by assumption)
          | (simp_all [validateChannel, engineLimits, chOK, intTruthy])
          | omega)
      | simp_all
    case limit_instrument =>
      rw [hact] at hr
      repeat' (first | dsimp only at hr | split at hr)
      all_goals try simp only [List.cons_append, List.nil_append,
        List.append_nil, List.mem_cons, List.mem_singleton,
        List.not_mem_nil, or_false] at hr
      all_goals first
      | contradiction
      | (subst hr
         refine EffOut.limiterI _ _ ?_ <;>
           first
          | exact getChannel_range labels hl _ _ (by assumption)
          | (simp_all [validateChannel, engineLimits, chOK, intTruthy])
          | omega)
      | simp_all
    case hpf_instrument =>
      rw [hact] at hr
      repeat' (first | dsimp only at hr | split at hr)
      all_goals try simp only [List.cons_append, List.nil_append,
        List.append_nil, List.mem_cons, List.mem_singleton,
        List.not_mem_nil, or_false] at hr
      all_goals first
      | contradiction
      | (subst hr
         refine EffOut.hpfI _ _ ?_ <;>
           first
          | exact getChannel_range labels hl _ _ (by assumption)
          | (simp_all [validateChannel, engineLimits, chOK, intTruthy])
          | omega)
      | simp_all
    case reverb_channel =>
      rw [hact] at hr
      repeat' (first | dsimp only at hr | split at hr)
      all_goals try simp only [List.cons_append, List.nil_append,
        List.append_nil, List.mem_cons, List.mem_singleton,
        List.not_mem_nil, or_false] at hr
      all_goals first
      | contradiction
      | (subst hr
         refine EffOut.revChannelTxt _ ?_ <;>
           first
          | exact getChannel_range labels hl _ _ (by assumption)
          | (simp_all [validateChannel, engineLimits, chOK, intTruthy])
          | omega)
      | (subst hr
         refine EffOut.delayChannelTxt _ ?_ <;>
           first
          | exact getChannel_range labels hl _ _ (by assumption)
          | (simp_all [validateChannel, engineLimits, chOK, intTruthy])
          | omega)
      | (subst hr
         refine EffOut.compressCh _ ?_ <;>
           first
          | exact getChannel_range labels hl _ _ (by assumption)
          | (simp_all [validateChannel, engineLimits, chOK, intTruthy])
          | omega)
      | (subst hr
         refine EffOut.hpfCh _ ?_ <;>
           first
          | exact getChannel_range labels hl _ _ (by assumption)
          | (simp_all [validateChannel, engineLimits, chOK, intTruthy])
          | omega)
      | (subst hr
         refine EffOut.eqTxtCh _ _ _ ?_ <;>
           first
          | exact getChannel_range labels hl _ _ (by assumption)
          | (simp_all [validateChannel, engineLimits, chOK, intTruthy])
          | omega)
      | simp_all
    case reverb_type_channel =>
      rw [hact] at hr
      repeat' (first | dsimp only at hr | split at hr)
      all_goals try simp only [List.cons_append, List.nil_append,
        List.append_nil, List.mem_cons, List.mem_singleton,
        List.not_mem_nil, or_false] at hr
      all_goals first
      | contradiction
      | (subst hr
         refine EffOut.revChannelTxt _ ?_ <;>
           first
          | exact getChannel_range labels hl _ _ (by assumption)
          | (simp_all [validateChannel, engineLimits, chOK, intTruthy])
          | omega)
      | (subst hr
         refine EffOut.delayChannelTxt _ ?_ <;>
           first
          | exact getChannel_range labels hl _ _ (by assumption)
          | (simp_all [validateChannel, engineLimits, chOK, intTruthy])
          | omega)
      | (subst hr
         refine EffOut.compressCh _ ?_ <;>
           first
          | exact getChannel_range labels hl _ _ (by assumption)
          | (simp_all [validateChannel, engineLimits, chOK, intTruthy])
          | omega)
      | (subst hr
         refine EffOut.hpfCh _ ?_ <;>
           first
          | exact getChannel_range labels hl _ _ (by assumption)
          | (simp_all [validateChannel, engineLimits, chOK, intTruthy])
          | omega)
      | (subst hr
         refine EffOut.eqTxtCh _ _ _ ?_ <;>
           first
          | exact getChannel_range labels hl _ _ (by assumption)
          | (simp_all [validateChannel, engineLimits, chOK, intTruthy])
          | omega)
      | simp_all
    case delay_channel =>
      rw [hact] at hr
      repeat' (first | dsimp only at hr | split at hr)
      all_goals try simp only [List.cons_append, List.nil_append,
        List.append_nil, List.mem_cons, List.mem_singleton,
        List.not_mem_nil, or_false] at hr
      all_goals first
      | contradiction
      | (subst hr
         refine EffOut.revChannelTxt _ ?_ <;>
           first
          | exact getChannel_range labels hl _ _ (by assumption)
          | (simp_all [validateChannel, engineLimits, chOK, intTruthy])
          | omega)
      | (subst hr
         refine EffOut.delayChannelTxt _ ?_ <;>
           first
          | exact getChannel_range labels hl _ _ (by assumption)
          | (simp_all [validateChannel, engineLimits, chOK, intTruthy])
          | omega)
      | (subst hr
         refine EffOut.compressCh _ ?_ <;>
           first
          | exact getChannel_range labels hl _ _ (by assumption)
          | (simp_all [validateChannel, engineLimits, chOK, intTruthy])
          | omega)
      | (subst hr
         refine EffOut.hpfCh _ ?_ <;>
           first
          | exact getChannel_range labels hl _ _ (by assumption)
          | (simp_all [validateChannel, engineLimits, chOK, intTruthy])
          | omega)
      | (subst hr
         refine EffOut.eqTxtCh _ _ _ ?_ <;>
           first
          | exact getChannel_range labels hl _ _ (by assumption)
          | (simp_all [validateChannel, engineLimits, chOK, intTruthy])
          | omega)
      | simp_all
    case slapback_channel =>
      rw [hact] at hr
      repeat' (first | dsimp only at hr | split at hr)
      all_goals try simp only [List.cons_append, List.nil_append,
        List.append_nil, List.mem_cons, List.mem_singleton,
        List.not_mem_nil, or_false] at hr
      all_goals first
      | contradiction
      | (subst hr
         refine EffOut.revChannelTxt _ ?_ <;>
           first
          | exact getChannel_range labels hl _ _ (by assumption)
          | (simp_all [validateChannel, engineLimits, chOK, intTruthy])
          | omega)
      | (subst hr
         refine EffOut.delayChannelTxt _ ?_ <;>
           first
          | exact getChannel_range labels hl _ _ (by assumption)
          | (simp_all [validateChannel, engineLimits, chOK, intTruthy])
          | omega)
      | (subst hr
         refine EffOut.compressCh _ ?_ <;>
           first
          | exact getChannel_range labels hl _ _ (by assumption)
          | (simp_all [validateChannel, engineLimits, chOK, intTruthy])
          | omega)
      | (subst hr
         refine EffOut.hpfCh _ ?_ <;>
           first
          | exact getChannel_range labels hl _ _ (by assumption)
          | (simp_all [validateChannel, engineLimits, chOK, intTruthy])
          | omega)
      | (subst hr
         refine EffOut.eqTxtCh _ _ _ ?_ <;>
           first
          | exact getChannel_range labels hl _ _ (by assumption)
          | (simp_all [validateChannel, engineLimits, chOK, intTruthy])
          | omega)
      | simp_all
    case eq_channel =>
      rw [hact] at hr
      repeat' (first | dsimp only at hr | split at hr)
      all_goals try simp only [List.cons_append, List.nil_append,
        List.append_nil, List.mem_cons, List.mem_singleton,
        List.not_mem_nil, or_false] at hr
      all_goals first
      | contradiction
      | (subst hr
         refine EffOut.revChannelTxt _ ?_ <;>
           first
          | exact getChannel_range labels hl _ _ (by assumption)
          | (simp_all [validateChannel, engineLimits, chOK, intTruthy])
          | omega)
      | (subst hr
         refine EffOut.delayChannelTxt _ ?_ <;>
           first
          | exact getChannel_range labels hl _ _ (by assumption)
          | (simp_all [validateChannel, engineLimits, chOK, intTruthy])
          | omega)
      | (subst hr
         refine EffOut.compressCh _ ?_ <;>
           first
          | exact getChannel_range labels hl _ _ (by assumption)
          | (simp_all [validateChannel, engineLimits, chOK, intTruthy])
          | omega)
      | (subst hr
         refine EffOut.hpfCh _ ?_ <;>
           first
          | exact getChannel_range labels hl _ _ (by assumption)
          | (simp_all [validateChannel, engineLimits, chOK, intTruthy])
          | omega)
      | (subst hr
         refine EffOut.eqTxtCh _ _ _ ?_ <;>
           first
          | exact getChannel_range labels hl _ _ (by assumption)
          | (simp_all [validateChannel, engineLimits, chOK, intTruthy])
          | omega)
      | simp_all
    case hpf_channel =>
      rw [hact] at hr
      repeat' (first | dsimp only at hr | split at hr)
      all_goals try simp only [List.cons_append, List.nil_append,
        List.append_nil, List.mem_cons, List.mem_singleton,
        List.not_mem_nil, or_false] at hr
      all_goals first
      | contradiction
      | (subst hr
         refine EffOut.revChannelTxt _ ?_ <;>
           first
          | exact getChannel_range labels hl _ _ (by assumption)
          | (simp_all [validateChannel, engineLimits, chOK, intTruthy])
          | omega)
      | (subst hr
         refine EffOut.delayChannelTxt _ ?_ <;>
           first
          | exact getChannel_range labels hl _ _ (by assumption)
          | (simp_all [validateChannel, engineLimits, chOK, intTruthy])
          | omega)
      | (subst hr
         refine EffOut.compressCh _ ?_ <;>
           first
          | exact getChannel_range labels hl _ _ (by assumption)
          | (simp_all [validateChannel, engineLimits, chOK, intTruthy])
          | omega)
      | (subst hr
         refine EffOut.hpfCh _ ?_ <;>
           first
          | exact getChannel_range labels hl _ _ (by assumption)
          | (simp_all [validateChannel, engineLimits, chOK, intTruthy])
          | omega)
      | (subst hr
         refine EffOut.eqTxtCh _ _ _ ?_ <;>
           first
          | exact getChannel_range labels hl _ _ (by assumption)
          | (simp_all [validateChannel, engineLimits, chOK, intTruthy])
          | omega)
      | simp_all

/-- Every command the effects processor returns has an EffOut shape. -/
theorem processEffects_effOut (labels : LabelTable)
    (hl : LabelsInRange labels) (command : Str) :
    ∀ r ∈ processEffectsCommands engineLimits labels command,
      EffOut r := by
  intro r hr
  unfold processEffectsCommands at hr
  dsimp only at hr
  rcases List.mem_flatten.mp hr with ⟨lx, hlx, hrx⟩
  rcases List.mem_map.mp hlx with ⟨p, hp, rfl⟩
  exact effStep_effOut labels hl command (lowerS command) p r hrx

/-- Every command one dynamics row emits has a DynOut shape. -/
theorem dynStep_dynOut (labels : LabelTable) (hl : LabelsInRange labels)
    (command cl : Str) (p : DynPat) :
    ∀ r ∈ dynStep engineLimits labels command cl p, DynOut r := by
  intro r hr
  unfold dynStep at hr
  split at hr
  · simp at hr
  · cases hact : p.act
    case gate_instrument =>
      rw [hact] at hr
      repeat' (first | dsimp only at hr | split at hr)
      all_goals try simp only [List.cons_append, List.nil_append,
        List.append_nil, List.mem_cons, List.mem_singleton,
        List.not_mem_nil, or_false] at hr
      all_goals first
      | contradiction
      | (subst hr
         refine DynOut.gateI _ _ ?_ <;>
           first
            | exact getChannel_range labels hl _ _ (by assumption)
            | (simp_all [validateChannel, engineLimits, chOK, intTruthy])
            | omega)
      | simp_all
    case gate_channel =>
      rw [hact] at hr
      repeat' (first | dsimp only at hr | split at hr)
      all_goals try simp only [List.cons_append, List.nil_append,
        List.append_nil, List.mem_cons, List.mem_singleton,
        List.not_mem_nil, or_false] at hr
      all_goals first
      | contradiction
      | (subst hr
         refine DynOut.gateCh _ ?_ <;>
           first
            | exact getChannel_range labels hl _ _ (by assumption)
            | (simp_all [validateChannel, engineLimits, chOK, intTruthy])
            | omega)
      | simp_all
    case comp_ratio_instrument =>
      rw [hact] at hr
      repeat' (first | dsimp only at hr | split at hr)
      all_goals try simp only [List.cons_append, List.nil_append,
        List.append_nil, List.mem_cons, List.mem_singleton,
        List.not_mem_nil, or_false] at hr
      all_goals first
      | contradiction
      | (subst hr
         refine DynOut.ratioI _ _ _ ?_ <;>
           first
            | exact getChannel_range labels hl _ _ (by assumption)
            | (simp_all [validateChannel, engineLimits, chOK, intTruthy])
            | omega)
      | simp_all
    case comp_ratio_channel =>
      rw [hact] at hr
      repeat' (first | dsimp only at hr | split at hr)
      all_goals try simp only [List.cons_append, List.nil_append,
        List.append_nil, List.mem_cons, List.mem_singleton,
        List.not_mem_nil, or_false] at hr
      all_goals first
      | contradiction
      | (subst hr
         refine DynOut.ratioCh _ _ ?_ <;>
           first
            | exact getChannel_range labels hl _ _ (by assumption)
            | (simp_all [validateChannel, engineLimits, chOK, intTruthy])
            | omega)
      | simp_all
    case comp_attack_instrument =>
      rw [hact] at hr
      repeat' (first | dsimp only at hr | split at hr)
      all_goals try simp only [List.cons_append, List.nil_append,
        List.append_nil, List.mem_cons, List.mem_singleton,
        List.not_mem_nil, or_false] at hr
      all_goals first
      | contradiction
      | (subst hr
         refine DynOut.attackI _ _ _ ?_ <;>
           first
            | exact getChannel_range labels hl _ _ (by assumption)
            | (simp_all [validateChannel, engineLimits, chOK, intTruthy])
            | omega)
      | (subst hr
         refine DynOut.attackI _ _ true ?_ <;>
           first
            | exact getChannel_range labels hl _ _ (by assumption)
            | (simp_all [validateChannel, engineLimits, chOK, intTruthy])
            | omega)
      | (subst hr
         refine DynOut.attackI _ _ false ?_ <;>
           first
            | exact getChannel_range labels hl _ _ (by assumption)
            | (simp_all [validateChannel, engineLimits, chOK, intTruthy])
            | omega)
      | simp_all

/-- Every command the dynamics processor returns has a DynOut shape. -/
theorem processDynamics_dynOut (labels : LabelTable)
    (hl : LabelsInRange labels) (command : Str) :
    ∀ r ∈ processDynamicsCommands engineLimits labels command,
      DynOut r := by
  intro r hr
  unfold processDynamicsCommands at hr
  dsimp only at hr
  rcases List.mem_flatten.mp hr with ⟨lx, hlx, hrx⟩
  rcases List.mem_map.mp hlx with ⟨p, hp, rfl⟩
  exact dynStep_dynOut labels hl command (lowerS command) p r hrx

/-- C4.  Range invariant across all nine emitting processors, under
the invariant that stored labels map to channels in [1, MAX_CHANNEL]:
every command of the fader, mute, label, send, pan, effects, dynamics,
scene and DCA processors has one of the catalogued output shapes.  For
channel, mix and DCA indices the embedded value is the described
1-based number minus one, validated against its configured limit
(instrument-resolved channels bounded through the label invariant;
matrix and group destinations only guarded non-zero; some #-prefixed
placeholder comment lines repeat the 1-based wording instead of an
index field).  Scene commands are the exception the correction
records: the scene number is validated against MAX_SCENE but embedded
1-BASED (scene_NN), not as number minus one. -/
theorem c4_range_invariant (labels dcaLabels : LabelTable)
    (hl : LabelsInRange labels) (command : Str) :
    (∀ l, processChannelFader engineLimits labels command = .ok l →
      ∀ r ∈ l, FaderOut r) ∧
    (∀ r ∈ processChannelMute engineLimits labels command, MuteOut r) ∧
    (∀ r ∈ (processChannelLabel engineLimits labels command).1,
      LabelOut r) ∧
    (∀ r ∈ processSendToMix engineLimits labels command, SendOut r) ∧
    (∀ r ∈ processPanCommands engineLimits labels command, PanOut r) ∧
    (∀ r ∈ processEffectsCommands engineLimits labels command,
      EffOut r) ∧
    (∀ r ∈ processDynamicsCommands engineLimits labels command,
      DynOut r) ∧
    (∀ r ∈ processSceneRecall engineLimits command, SceneOut r) ∧
    (∀ r ∈ (processDcaCommands engineLimits dcaLabels command).1,
      DcaOut r) :=
  ⟨fun l hok => processChannelFader_faderOut labels hl command l hok,
   processChannelMute_muteOut labels hl command,
   processChannelLabel_labelOut labels command,
   processSendToMix_sendOut labels hl command,
   processPanCommands_panOut labels hl command,
   processEffects_effOut labels hl command,
   processDynamics_dynOut labels hl command,
   processSceneRecall_sceneOut command,
   processDcaCommands_dcaOut dcaLabels command⟩

/-- C4 counterexample to the original universal 0-based wording: the
scene processor embeds the 1-based scene number itself.  Recall scene
15 emits ssrecall_ex scene_15 while the description claims scene 15,
so the embedded number is 15, not the 0-based 15 - 1 = 14. -/
theorem c4_counterexample :
    processSceneRecall engineLimits "recall scene 15".data
      = [⟨"ssrecall_ex scene_" ++ sceneStr 15,
          "Recall scene " ++ istr 15, 1⟩,
         ⟨"ssrecall_ex scene_" ++ sceneStr 15,
          "Recall scene " ++ istr 15, 1⟩] ∧
    sceneStr 15 = "15" ∧ istr (15 - 1) = "14" := by
  refine ⟨?_, rfl, rfl⟩
  rfl

/-- C4 witness: a concrete in-range table and concrete commands
through the send, scene and DCA processors. -/
theorem c4_witness :
    LabelsInRange [("alpha".data, 5)] ∧
    (∀ r ∈ processSendToMix engineLimits [("alpha".data, 5)]
        "send channel 2 to mix 3".data, SendOut r) ∧
    (∀ r ∈ processSceneRecall engineLimits "recall scene 15".data,
      SceneOut r) ∧
    (∀ r ∈ (processDcaCommands engineLimits []
        "mute dca 3".data).1, DcaOut r) := by
  have hl : LabelsInRange [("alpha".data, 5)] := by
    unfold LabelsInRange
    decide
  refine ⟨hl, ?_, ?_, ?_⟩
  · exact (c4_range_invariant [("alpha".data, 5)] [] hl
      "send channel 2 to mix 3".data).2.2.2.1
  · exact (c4_range_invariant [("alpha".data, 5)] [] hl
      "recall scene 15".data).2.2.2.2.2.2.2.1
  · exact (c4_range_invariant [("alpha".data, 5)] [] hl
      "mute dca 3".data).2.2.2.2.2.2.2.2

end VCT
